import Mathlib

/-!
# Lightpack desktop-duplication grabber (`Software/grab/DDuplGrabber.cpp`)

A shallow embedding of the allocation state machine, the reallocation routine,
the per-frame acquisition loop and the black-buffer fallback of `DDuplGrabber`.

Conventions of the embedding.

* Platform calls (Win32, DXGI, D3D11) are external: their results are supplied by
  environment records (`ReallocEnv`, `FrameEnv`) and by an allocator function.  An `HRESULT` is the
  signed 32-bit value, so `FAILED hr` is `hr < 0`.
* `DWORD` tick counters are naturals below `2 ^ 32`; the subtraction of the source
  is carried out modulo `2 ^ 32`.
* Pointers are `Option`: `none` is `NULL`.  An image buffer is its address together
  with the bytes it holds.
* The routines record, in order, the platform calls they issue (`Event`, and the
  `acquired` list of the frame loop), so that statements can speak about the calls
  that were actually made.
* The buffer size of the real pipeline is the 32-bit product of the source
  (`UINT` times `INT`), taken modulo `2 ^ 32`.  The size of a black buffer is a
  `size_t` product of two shifted `int` extents, which is below `2 ^ 56` and does not
  wrap in 64 bits.  The extent of a screen rectangle is not negative, so widths and
  heights are naturals.
* `GrabbedScreen`, `ScreenInfo`, `GrabResult` and the state enumeration are declared in
  headers outside this file of the source; their fields are taken as the source uses
  them.
-/

namespace DDupl

/-! ## Platform constants -/

/-- A Windows `HRESULT`: a signed 32-bit status code. -/
abbrev HRESULT := Int

/-- The `FAILED(hr)` test of the Windows headers: the sign bit is set. -/
def FAILED (hr : HRESULT) : Bool := decide (hr < 0)

def S_OK : HRESULT := 0
def E_ACCESSDENIED : HRESULT := 0x80070005 - 0x100000000
def E_NOTIMPL : HRESULT := 0x80004001 - 0x100000000
def DXGI_ERROR_INVALID_CALL : HRESULT := 0x887A0001 - 0x100000000
def DXGI_ERROR_UNSUPPORTED : HRESULT := 0x887A0004 - 0x100000000
def DXGI_ERROR_MODE_CHANGE_IN_PROGRESS : HRESULT := 0x887A0025 - 0x100000000
def DXGI_ERROR_ACCESS_LOST : HRESULT := 0x887A0026 - 0x100000000
def DXGI_ERROR_WAIT_TIMEOUT : HRESULT := 0x887A0027 - 0x100000000

/-- The Win32 error code `ERROR_ACCESS_DENIED`. -/
def ERROR_ACCESS_DENIED : Nat := 5

def ACQUIRE_TIMEOUT_INTERVAL : Nat := 0
def ACCESSDENIED_DESKTOP_RETRY_INTERVAL : Nat := 1000
def ACCESSDENIED_DUPLICATION_RETRY_INTERVAL : Nat := 5000
def THREAD_DESTRUCTION_WAIT_TIMEOUT : Nat := 3000

/-- The fixed downscale exponent: `3` means one eighth of the linear resolution. -/
def DownscaleMipLevel : Nat := 3

/-- Subtraction of two `DWORD` values, modulo `2 ^ 32`. -/
def dwordSub (a b : Nat) : Nat :=
  (a % 4294967296 + 4294967296 - b % 4294967296) % 4294967296

/-! ## Data model -/

/-- A monitor handle; `0` is the `NULL` handle. -/
abbrev HMONITOR := Nat

/-- A desktop rectangle (`QRect`): position and extent. -/
structure QRect where
  x : Int
  y : Int
  width : Nat
  height : Nat
deriving DecidableEq, Repr

/-- A capture target: the monitor handle and its desktop rectangle. -/
structure ScreenInfo where
  rect : QRect
  handle : HMONITOR
deriving DecidableEq, Repr

inductive BufferFormat where
  | BufferFormatArgb
  | BufferFormatAbgr
  | BufferFormatUnknown
deriving DecidableEq, Repr

/-- The values of `DXGI_MODE_ROTATION`. -/
inductive DXGI_MODE_ROTATION where
  | UNSPECIFIED
  | IDENTITY
  | ROTATE90
  | ROTATE180
  | ROTATE270
deriving DecidableEq, Repr

/-- The pixel formats `mapDXGIFormatToBufferFormat` distinguishes; every other
`DXGI_FORMAT` value is `other` with its numeric code. -/
inductive DXGI_FORMAT where
  | B8G8R8A8_UNORM
  | B8G8R8A8_TYPELESS
  | R8G8B8A8_UINT
  | R8G8B8A8_UNORM
  | R8G8B8A8_TYPELESS
  | other (code : Nat)
deriving DecidableEq, Repr

/-- The `RECT` of `DXGI_OUTPUT_DESC.DesktopCoordinates`. -/
structure RECT where
  left : Int
  top : Int
  right : Int
  bottom : Int
deriving DecidableEq, Repr

/-- A display output as the platform presents it during one reallocation pass:
its description and the results its calls give. -/
structure DXGIOutput where
  Monitor : HMONITOR
  DesktopCoordinates : RECT
  Rotation : DXGI_MODE_ROTATION
  /-- Result of `QueryInterface(IID_IDXGIOutput1)`. -/
  queryOutput1 : HRESULT
  /-- Result of `DuplicateOutput`. -/
  duplicateOutput : HRESULT
deriving DecidableEq, Repr

/-- A graphics adapter: the result of `D3D11CreateDevice` on it and the outputs
`EnumOutputs` yields. -/
structure DXGIAdapter where
  createDevice : HRESULT
  outputs : List DXGIOutput
deriving DecidableEq, Repr

/-- An image buffer: where it lives and the bytes it holds. -/
structure Buffer where
  addr : Nat
  bytes : List Nat
deriving DecidableEq, Repr

/-- The `DXGI_MAPPED_RECT` of a mapped surface. -/
structure DXGI_MAPPED_RECT where
  Pitch : Nat
  pBits : Option Buffer
deriving DecidableEq, Repr

/-- The per-screen capture session (`DDuplScreenData`).  `device` is the position of
the adapter whose device and context the session uses; the duplication handle is the
one obtained from `output`. -/
structure DDuplScreenData where
  output : DXGIOutput
  device : Nat
  textureCopy : Option Nat
  surfaceMap : DXGI_MAPPED_RECT
deriving DecidableEq, Repr

/-- The consumer-visible capture result for one screen. -/
structure GrabbedScreen where
  imgData : Option Buffer
  imgDataSize : Nat
  imgFormat : BufferFormat
  screenInfo : ScreenInfo
  associatedData : Option DDuplScreenData
  rotation : Nat
  bytesPerRow : Nat
  scale : ℚ

inductive GrabResult where
  | GrabResultOk
  | GrabResultFrameNotReady
  | GrabResultError
deriving DecidableEq, Repr

inductive State where
  | Uninitialized
  | Ready
  | Allocated
  | LostAccess
  | AccessDeniedDesktop
  | AccessDeniedDuplication
  | Unavailable
deriving DecidableEq, Repr

/-- The members of `DDuplGrabber` the modelled routines read or write. -/
structure Engine where
  m_state : State
  m_accessDeniedLastCheck : Nat
  m_adapters : List DXGIAdapter
  m_isSessionLocked : Bool
  /-- True once the worker thread and its two events exist. -/
  m_thread : Bool
  _screensWithWidgets : List GrabbedScreen

/-- The engine as the constructor leaves it. -/
def Engine.new : Engine :=
  { m_state := .Uninitialized, m_accessDeniedLastCheck := 0, m_adapters := [],
    m_isSessionLocked := false, m_thread := false, _screensWithWidgets := [] }

/-- What the platform answers during one pass of `_reallocate` (and of `init`). -/
structure ReallocEnv where
  /-- `LoadLibrary` found both `dxgi.dll` and `d3d11.dll`. -/
  loadLibraries : Bool
  /-- `GetProcAddress` found both entry points. -/
  getProcAddresses : Bool
  /-- Result of `CreateDXGIFactory1`. -/
  createFactory : HRESULT
  /-- The adapters `EnumAdapters1` yields. -/
  enumAdapters : List DXGIAdapter
  createThreadEvent : Bool
  createThreadReturnEvent : Bool
  createThread : Bool
  /-- `OpenInputDesktop` returned a handle. -/
  openInputDesktop : Bool
  /-- `GetLastError()` after a failed `OpenInputDesktop`. -/
  lastError : Nat
  setThreadDesktop : Bool
  /-- The value of `GetTickCount()`. -/
  tickCount : Nat

/-- The platform calls of `_reallocate` that the record keeps. -/
inductive Event where
  | duplicateOutput (monitor : HMONITOR) (hr : HRESULT)
  | recreateAdapters
  | reenter
deriving DecidableEq, Repr

/-- What `_reallocate` leaves behind: its return value, the engine, and the calls
it issued in order. -/
structure ReallocOut where
  ret : Bool
  engine : Engine
  trace : List Event

/-! ## Initialisation -/

/-- `DDuplGrabber::recreateAdapters`. -/
def recreateAdapters (w : ReallocEnv) (e : Engine) : Bool × Engine :=
  let e := { e with m_adapters := [] }
  if FAILED w.createFactory then (false, e)
  else (true, { e with m_adapters := w.enumAdapters })

/-- `DDuplGrabber::init`. -/
def init (w : ReallocEnv) (e : Engine) : Bool × Engine :=
  let e := { e with m_state := .Unavailable }
  if !w.loadLibraries then (false, e)
  else if !w.getProcAddresses then (false, e)
  else
    let (ok, e) := recreateAdapters w e
    if !ok then (false, e)
    else if !w.createThreadEvent then (false, e)
    else if !w.createThreadReturnEvent then (false, e)
    else if !w.createThread then (false, e)
    else (true, { e with m_thread := true, m_state := .Ready })

/-! ## Session-change notifications and the reallocation-due policy -/

/-- The values of `SystemSession::Status` the grabber looks at; every other
notification is `other`. -/
inductive SessionStatus where
  | Locking
  | Unlocking
  | other (code : Nat)
deriving DecidableEq, Repr

/-- `DDuplGrabber::onSessionChange`. -/
def onSessionChange (change : SessionStatus) (e : Engine) : Engine :=
  if change = .Locking then { e with m_isSessionLocked := true }
  else if change = .Unlocking then { e with m_isSessionLocked := false }
  else e

/-- `DDuplGrabber::isReallocationNeeded`.  `base` is `GrabberBase::isReallocationNeeded`,
which the Allocated state defers to; `tick` is the value of `GetTickCount()`. -/
def isReallocationNeeded (base : List ScreenInfo → List GrabbedScreen → Bool)
    (grabScreens : List ScreenInfo) (tick : Nat) (e : Engine) : Bool :=
  if e.m_state ≠ .Allocated then
    if e.m_state = .AccessDeniedDesktop then
      decide (dwordSub tick e.m_accessDeniedLastCheck > ACCESSDENIED_DESKTOP_RETRY_INTERVAL)
    else if e.m_state = .AccessDeniedDuplication then
      decide (dwordSub tick e.m_accessDeniedLastCheck > ACCESSDENIED_DUPLICATION_RETRY_INTERVAL)
    else if e.m_state = .Unavailable then false
    else true
  else base grabScreens e._screensWithWidgets

/-! ## Reallocation -/

/-- `DDuplGrabber::freeScreens`: every buffer and session is released and the list is
cleared.  Only the list is part of the model; the releases are heap effects. -/
def freeScreens (e : Engine) : Engine :=
  { e with _screensWithWidgets := [] }

/-- The rotation code `_reallocate` stores for an output rotation (the `switch`). -/
def rotationCode : DXGI_MODE_ROTATION → Nat
  | .ROTATE90 => 3
  | .ROTATE180 => 2
  | .ROTATE270 => 1
  | _ => 0

/-- The `GrabbedScreen` that `_reallocate` appends for a matched output. -/
def newGrabbedScreen (screenInfo : ScreenInfo) (output : DXGIOutput) (device : Nat) :
    GrabbedScreen :=
  { imgData := none
    imgDataSize := 0
    imgFormat := .BufferFormatArgb
    screenInfo := screenInfo
    scale := 1
    rotation := rotationCode output.Rotation
    bytesPerRow := 0
    associatedData :=
      some { output := output, device := device, textureCopy := none,
             surfaceMap := { Pitch := 0, pBits := none } } }

/-- How the body of a loop of `_reallocate` ends: it goes on with the next element,
or the function returns. -/
inductive Flow where
  | next (e : Engine) (trace : List Event)
  | ret (out : ReallocOut)

/-- The body of the loop over the outputs of one adapter, for one output.  `recurse`
stands for the recursive call `_reallocate(grabScreens, true)`. -/
def reallocOutput (recurse : Engine → ReallocOut) (w : ReallocEnv)
    (grabScreens : List ScreenInfo) (noRecursion : Bool) (device : Nat)
    (output : DXGIOutput) (e : Engine) : Flow :=
  if FAILED output.queryOutput1 then .ret ⟨false, e, []⟩
  else
    match grabScreens.find? (fun screenInfo => screenInfo.handle == output.Monitor) with
    | none => .next e []
    | some screenInfo =>
      let hr := output.duplicateOutput
      let call := Event.duplicateOutput output.Monitor hr
      if hr = E_ACCESSDENIED then
        .ret ⟨true, { e with m_state := .AccessDeniedDuplication,
                             m_accessDeniedLastCheck := w.tickCount }, [call]⟩
      else if hr = E_NOTIMPL ∨ hr = DXGI_ERROR_UNSUPPORTED then
        .ret ⟨false, { e with m_state := .Unavailable }, [call]⟩
      else if hr = DXGI_ERROR_MODE_CHANGE_IN_PROGRESS then
        if !noRecursion then
          let (ok, e) := recreateAdapters w e
          if !ok then .ret ⟨false, e, [call, .recreateAdapters]⟩
          else
            let out := recurse e
            .ret ⟨out.ret, out.engine, [call, .recreateAdapters, .reenter] ++ out.trace⟩
        else .ret ⟨false, e, [call]⟩
      else if FAILED hr then .ret ⟨false, e, [call]⟩
      else
        .next { e with _screensWithWidgets :=
                  e._screensWithWidgets ++ [newGrabbedScreen screenInfo output device] }
              [call]

/-- The loop over the outputs of one adapter. -/
def reallocOutputs (recurse : Engine → ReallocOut) (w : ReallocEnv)
    (grabScreens : List ScreenInfo) (noRecursion : Bool) (device : Nat) :
    List DXGIOutput → Engine → Flow
  | [], e => .next e []
  | output :: rest, e =>
    match reallocOutput recurse w grabScreens noRecursion device output e with
    | .ret out => .ret out
    | .next e tr =>
      match reallocOutputs recurse w grabScreens noRecursion device rest e with
      | .ret out => .ret { out with trace := tr ++ out.trace }
      | .next e tr2 => .next e (tr ++ tr2)

/-- The loop over `m_adapters`; `device` counts the adapters already handled. -/
def reallocAdapters (recurse : Engine → ReallocOut) (w : ReallocEnv)
    (grabScreens : List ScreenInfo) (noRecursion : Bool) :
    Nat → List DXGIAdapter → Engine → Flow
  | _, [], e => .next e []
  | device, adapter :: rest, e =>
    if FAILED adapter.createDevice then .ret ⟨false, e, []⟩
    else
      match reallocOutputs recurse w grabScreens noRecursion device adapter.outputs e with
      | .ret out => .ret out
      | .next e tr =>
        match reallocAdapters recurse w grabScreens noRecursion (device + 1) rest e with
        | .ret out => .ret { out with trace := tr ++ out.trace }
        | .next e tr2 => .next e (tr ++ tr2)

/-- The body of `DDuplGrabber::_reallocate`, with the recursive call abstracted as
`recurse`. -/
def reallocateBody (recurse : Engine → ReallocOut) (w : ReallocEnv)
    (grabScreens : List ScreenInfo) (noRecursion : Bool) (e : Engine) : ReallocOut :=
  let (ok, e) := if e.m_state = .Uninitialized then init w e else (true, e)
  if !ok then ⟨false, e, []⟩
  else
    let e := freeScreens e
    if !w.openInputDesktop then
      if w.lastError = ERROR_ACCESS_DENIED then
        ⟨true, { e with m_state := .AccessDeniedDesktop,
                        m_accessDeniedLastCheck := w.tickCount }, []⟩
      else ⟨true, e, []⟩
    else if !w.setThreadDesktop then ⟨false, e, []⟩
    else
      match reallocAdapters recurse w grabScreens noRecursion 0 e.m_adapters e with
      | .ret out => out
      | .next e tr => ⟨true, { e with m_state := .Allocated }, tr⟩

/-- `DDuplGrabber::_reallocate(grabScreens, noRecursion)`.  `w` is what the platform
answers during this pass and `w2` what it answers during the retry that follows a
rebuilt catalog.  The retry runs with `noRecursion = true`, where the body has no
recursive call left; the innermost continuation is therefore never taken. -/
def _reallocate (grabScreens : List ScreenInfo) (noRecursion : Bool) (e : Engine)
    (w w2 : ReallocEnv) : ReallocOut :=
  reallocateBody
    (fun e1 => reallocateBody (fun e2 => ⟨false, e2, []⟩) w2 grabScreens true e1)
    w grabScreens noRecursion e

/-- `DDuplGrabber::reallocate`: the request is handed to the worker thread, which runs
`_reallocate(grabScreens)`; `handshake` tells whether `runThreadCommand(INFINITE)` saw
the completion event. -/
def reallocate (handshake : Bool) (grabScreens : List ScreenInfo) (e : Engine)
    (w w2 : ReallocEnv) : ReallocOut :=
  let out := _reallocate grabScreens false e w w2
  if handshake then out else { out with ret := false }

/-! ## Frame acquisition -/

/-- `mapDXGIFormatToBufferFormat`. -/
def mapDXGIFormatToBufferFormat : DXGI_FORMAT → BufferFormat
  | .B8G8R8A8_UNORM => .BufferFormatArgb
  | .B8G8R8A8_TYPELESS => .BufferFormatArgb
  | .R8G8B8A8_UINT => .BufferFormatAbgr
  | .R8G8B8A8_UNORM => .BufferFormatAbgr
  | .R8G8B8A8_TYPELESS => .BufferFormatAbgr
  | .other _ => .BufferFormatUnknown

/-- What the platform answers while `grabScreens` handles one session. -/
structure FrameEnv where
  /-- Result of `AcquireNextFrame`. -/
  acquireNextFrame : HRESULT
  /-- The field `frameInfo.LastPresentTime.QuadPart`. -/
  LastPresentTime : Int
  /-- Result of the cast of the resource to `ID3D11Texture2D`. -/
  queryTexture : HRESULT
  /-- Width, height and format of the acquired texture. -/
  Width : Nat
  Height : Nat
  Format : DXGI_FORMAT
  /-- Result of `CreateTexture2D` for the staging texture, and the texture created. -/
  createStaging : HRESULT
  stagingTexture : Nat
  /-- Result of `CreateTexture2D` for the mip-chained texture. -/
  createScaled : HRESULT
  createShaderResourceView : HRESULT
  /-- Result of the cast of the staging texture to `IDXGISurface1`. -/
  querySurface : HRESULT
  /-- Result of `Map`, and the mapped rectangle it fills in. -/
  map : HRESULT
  mapped : DXGI_MAPPED_RECT

/-- How the loop body of `grabScreens` ends for one session: the function returns
`r` (`lost` when the state was set to LostAccess), or the loop goes on
(`updated` when the session reached the end of the body). -/
inductive Step where
  | stop (r : GrabResult) (lost : Bool) (screen : GrabbedScreen)
  | cont (updated : Bool) (screen : GrabbedScreen)

/-- The screen a step leaves in the list. -/
def Step.screen : Step → GrabbedScreen
  | .stop _ _ s => s
  | .cont _ s => s

/-- The dimension test of `grabScreens`: true when the texture neither matches the
screen rectangle (even rotation) nor the flipped one (odd rotation). -/
def dimensionMismatch (screen : GrabbedScreen) (fe : FrameEnv) : Bool :=
  (screen.rotation % 2 == 0
      && (fe.Width != screen.screenInfo.rect.width
          || fe.Height != screen.screenInfo.rect.height))
  || (screen.rotation % 2 == 1
      && (fe.Height != screen.screenInfo.rect.width
          || fe.Width != screen.screenInfo.rect.height))

/-- The part of the loop body of `grabScreens` after a frame was acquired. -/
def grabFrame (fe : FrameEnv) (screen : GrabbedScreen) (screenData : DDuplScreenData) :
    Step :=
  if fe.LastPresentTime = 0 then .cont false screen
  else if FAILED fe.queryTexture then .stop .GrabResultError false screen
  else if dimensionMismatch screen fe then .stop .GrabResultError false screen
  else
    let bufferFormat := mapDXGIFormatToBufferFormat fe.Format
    if bufferFormat = .BufferFormatUnknown then .cont false screen
    else
      let texHeight := fe.Height >>> DownscaleMipLevel
      -- reset texture and data before getting new one
      let screenData := { screenData with textureCopy := none }
      let screen := { screen with imgData := none, imgDataSize := 0,
                                  associatedData := some screenData }
      if FAILED fe.createStaging then .stop .GrabResultError false screen
      else
        let screenData := { screenData with textureCopy := some fe.stagingTexture }
        let screen := { screen with associatedData := some screenData }
        if DownscaleMipLevel > 0 ∧ FAILED fe.createScaled then
          .stop .GrabResultError false screen
        else if DownscaleMipLevel > 0 ∧ FAILED fe.createShaderResourceView then
          .stop .GrabResultError false screen
        else if FAILED fe.querySurface then .stop .GrabResultError false screen
        else if FAILED fe.map then .stop .GrabResultError false screen
        else
          let screenData := { screenData with surfaceMap := fe.mapped }
          .cont true
            { screen with
                associatedData := some screenData
                imgData := fe.mapped.pBits
                imgDataSize := (texHeight * fe.mapped.Pitch) % 4294967296
                imgFormat := bufferFormat
                scale := 1 / (2 ^ DownscaleMipLevel : ℚ)
                bytesPerRow := fe.mapped.Pitch }

/-- The loop body of `grabScreens` for one session. -/
def grabStep (fe : FrameEnv) (screen : GrabbedScreen) : Step :=
  match screen.associatedData with
  | none => .stop .GrabResultError false screen
  | some screenData =>
    let hr := fe.acquireNextFrame
    if hr = DXGI_ERROR_WAIT_TIMEOUT then
      if screen.imgData.isNone then .stop .GrabResultFrameNotReady false screen
      else .cont false screen
    else if hr = DXGI_ERROR_ACCESS_LOST ∨ hr = DXGI_ERROR_INVALID_CALL then
      .stop .GrabResultFrameNotReady true screen
    else if FAILED hr then .stop .GrabResultError false screen
    else grabFrame fe screen screenData

/-- What a capture cycle leaves behind: the result code, whether the state was set to
LostAccess, the sessions, and the `AcquireNextFrame` calls issued, each with the
position of its session and its result. -/
structure LoopOut where
  ret : GrabResult
  lost : Bool
  screens : List GrabbedScreen
  acquired : List (Nat × HRESULT)

/-- The calls a step issues: none when the session has no data, else one
`AcquireNextFrame`. -/
def acquireCall (i : Nat) (fe : FrameEnv) (screen : GrabbedScreen) : List (Nat × HRESULT) :=
  if screen.associatedData.isSome then [(i, fe.acquireNextFrame)] else []

/-- The loop of `grabScreens` over the sessions from position `i` on, `anyUpdate`
being the flag so far; `env j` is what the platform answers for session `j`. -/
def grabLoop (env : Nat → FrameEnv) : Nat → Bool → List GrabbedScreen → LoopOut
  | _, anyUpdate, [] =>
    { ret := if !anyUpdate then .GrabResultFrameNotReady else .GrabResultOk
      lost := false, screens := [], acquired := [] }
  | i, anyUpdate, screen :: rest =>
    match grabStep (env i) screen with
    | .stop r lost screen1 =>
      { ret := r, lost := lost, screens := screen1 :: rest,
        acquired := acquireCall i (env i) screen }
    | .cont updated screen1 =>
      let out := grabLoop env (i + 1) (anyUpdate || updated) rest
      { out with screens := screen1 :: out.screens,
                 acquired := acquireCall i (env i) screen ++ out.acquired }

/-- What `grabScreens` leaves behind. -/
structure GrabOut where
  ret : GrabResult
  engine : Engine
  acquired : List (Nat × HRESULT)

/-- The real pipeline of `grabScreens` (the `try` block), run in the Allocated state.
The COM pointers are dereferenced only after the call that fills them has succeeded, so
the `catch` clause of the source is never entered and is left out. -/
def grabAllocated (env : Nat → FrameEnv) (e : Engine) : GrabOut :=
  let out := grabLoop env 0 false e._screensWithWidgets
  { ret := out.ret
    engine := { e with _screensWithWidgets := out.screens,
                       m_state := if out.lost then .LostAccess else e.m_state }
    acquired := out.acquired }

/-! ## The black-buffer fallback -/

/-- The loop body of `returnBlackBuffer` for one session; `p` is the pointer `malloc`
or `realloc` returns when called.  The result is `none` when the session has no data
(the body reads through the null pointer), else whether the buffer exists and the
session as it is left. -/
def blackBufferStep (p : Option Nat) (screen : GrabbedScreen) :
    Option (Bool × GrabbedScreen) :=
  match screen.associatedData with
  | none => none
  | some screenData =>
    let screen :=
      if screenData.textureCopy.isSome then
        { screen with associatedData := some { screenData with textureCopy := none },
                      imgData := none, imgDataSize := 0 }
      else screen
    let screen := { screen with scale := 1 / (2 ^ DownscaleMipLevel : ℚ) }
    let screen := { screen with
                      bytesPerRow := screen.screenInfo.rect.width >>> DownscaleMipLevel }
    let sizeNeeded := (screen.screenInfo.rect.height >>> DownscaleMipLevel) * screen.bytesPerRow
    let ptr : Option Nat :=
      match screen.imgData with
      | none => p
      | some buf => if screen.imgDataSize ≠ sizeNeeded then p else some buf.addr
    match ptr with
    | none => some (false, { screen with imgData := none })
    | some addr =>
      some (true, { screen with imgData := some ⟨addr, List.replicate sizeNeeded 0⟩,
                                imgDataSize := sizeNeeded })

/-- The loop of `returnBlackBuffer` from position `i` on; `alloc j` is what the
allocator returns for session `j`. -/
def blackBufferLoop (alloc : Nat → Option Nat) :
    Nat → List GrabbedScreen → Option (GrabResult × List GrabbedScreen)
  | _, [] => some (.GrabResultOk, [])
  | i, screen :: rest =>
    match blackBufferStep (alloc i) screen with
    | none => none
    | some (false, screen1) => some (.GrabResultError, screen1 :: rest)
    | some (true, screen1) =>
      match blackBufferLoop alloc (i + 1) rest with
      | none => none
      | some (r, l) => some (r, screen1 :: l)

/-- `DDuplGrabber::returnBlackBuffer`; `none` when a session without data is read. -/
def returnBlackBuffer (alloc : Nat → Option Nat) (e : Engine) : Option GrabOut :=
  match blackBufferLoop alloc 0 e._screensWithWidgets with
  | none => none
  | some (r, l) => some { ret := r, engine := { e with _screensWithWidgets := l }, acquired := [] }

/-- `DDuplGrabber::grabScreens`. -/
def grabScreens (env : Nat → FrameEnv) (alloc : Nat → Option Nat) (e : Engine) :
    Option GrabOut :=
  if e.m_state ≠ .Allocated then
    if e.m_state = .AccessDeniedDuplication then returnBlackBuffer alloc e
    else if e.m_state = .AccessDeniedDesktop then
      if e.m_isSessionLocked then some ⟨.GrabResultFrameNotReady, e, []⟩
      else returnBlackBuffer alloc e
    else some ⟨.GrabResultFrameNotReady, e, []⟩
  else some (grabAllocated env e)

/-! ## Auxiliary predicates -/

/-- Every `DuplicateOutput` call of a record succeeded. -/
def AllSucceed (tr : List Event) : Prop :=
  ∀ m hr, Event.duplicateOutput m hr ∈ tr → 0 ≤ hr

/-- The result of the first `DuplicateOutput` call of a record that did not succeed. -/
def firstFailure : List Event → Option HRESULT
  | [] => none
  | .duplicateOutput _ hr :: rest => if FAILED hr then some hr else firstFailure rest
  | _ :: rest => firstFailure rest

/-- A loop body keeps to `Q` and `I`: a return satisfies `Q`; going on, it issued only
successful `DuplicateOutput` calls and the engine satisfies `I`. -/
def FlowOK (Q : ReallocOut → Prop) (I : Engine → Prop) : Flow → Prop
  | .ret out => Q out
  | .next e tr => AllSucceed tr ∧ I e

/-- The engine a pass of `_reallocate` works on once the lazy initialisation is done
and the sessions are freed. -/
def passStart (w : ReallocEnv) (e : Engine) : Engine :=
  freeScreens (if e.m_state = .Uninitialized then (init w e).2 else e)

/-- The property behind C3, for one pass: when the first `DuplicateOutput` call that did
not succeed returned access-denied, the pass returned true in the state
AccessDeniedDuplication with the tick count of the pass recorded. -/
def DeniedSpec (w : ReallocEnv) (out : ReallocOut) : Prop :=
  firstFailure out.trace = some E_ACCESSDENIED →
    out.ret = true ∧ out.engine.m_state = .AccessDeniedDuplication
      ∧ out.engine.m_accessDeniedLastCheck = w.tickCount

/-- The property behind C4, for one pass: a `DuplicateOutput` call that returned
`E_NOTIMPL` or `DXGI_ERROR_UNSUPPORTED` made the pass return false in the state
Unavailable. -/
def UnsupportedSpec (out : ReallocOut) : Prop :=
  ∀ m hr, Event.duplicateOutput m hr ∈ out.trace →
    hr = E_NOTIMPL ∨ hr = DXGI_ERROR_UNSUPPORTED →
    out.ret = false ∧ out.engine.m_state = .Unavailable

/-- The number of quarter turns of a physical output rotation. -/
def quarterTurns : DXGI_MODE_ROTATION → Nat
  | .ROTATE90 => 1
  | .ROTATE180 => 2
  | .ROTATE270 => 3
  | _ => 0

/-- A session whose rotation code is the one derived from the output it duplicates. -/
def RotationFromOutput (s : GrabbedScreen) : Prop :=
  ∃ d, s.associatedData = some d ∧ s.screenInfo.handle = d.output.Monitor
    ∧ s.rotation = rotationCode d.output.Rotation

/-- Every session of an engine satisfies `P`. -/
def AllScreens (P : GrabbedScreen → Prop) (e : Engine) : Prop :=
  ∀ s ∈ e._screensWithWidgets, P s

/-! ## Sample values -/

/-- A full-HD output with monitor handle `m`, rotation `rot` and `DuplicateOutput`
result `dup`. -/
def sampleOutput (m : HMONITOR) (rot : DXGI_MODE_ROTATION) (dup : HRESULT) : DXGIOutput :=
  { Monitor := m, DesktopCoordinates := ⟨0, 0, 1920, 1080⟩, Rotation := rot,
    queryOutput1 := S_OK, duplicateOutput := dup }

/-- The request for the full-HD screen with monitor handle `m`. -/
def sampleScreen (m : HMONITOR) : ScreenInfo :=
  { rect := ⟨0, 0, 1920, 1080⟩, handle := m }

/-- An initialised engine over the given catalog. -/
def sampleEngine (state : State) (adapters : List DXGIAdapter) : Engine :=
  { Engine.new with m_state := state, m_adapters := adapters, m_thread := true }

/-- A platform on which every call succeeds, at tick 4242, with the given catalog. -/
def sampleEnv (adapters : List DXGIAdapter) : ReallocEnv :=
  { loadLibraries := true, getProcAddresses := true, createFactory := S_OK,
    enumAdapters := adapters, createThreadEvent := true, createThreadReturnEvent := true,
    createThread := true, openInputDesktop := true, lastError := 0,
    setThreadDesktop := true, tickCount := 4242 }

/-- A platform on which `OpenInputDesktop` fails with `ERROR_INVALID_HANDLE` (6). -/
def sampleEnvNoDesktop : ReallocEnv :=
  { sampleEnv [] with openInputDesktop := false, lastError := 6 }

/-! ## The sessions of a fully successful pass -/

/-- The session a fully successful pass creates for an output, if the output matches a
requested screen: the first requested screen with the monitor handle of the output. -/
def matchedScreen (gs : List ScreenInfo) (device : Nat) (o : DXGIOutput) :
    Option GrabbedScreen :=
  (gs.find? (fun s => s.handle == o.Monitor)).map (fun si => newGrabbedScreen si o device)

/-- The sessions a fully successful pass creates over a catalog, in catalog order. -/
def createdScreens (gs : List ScreenInfo) : Nat → List DXGIAdapter → List GrabbedScreen
  | _, [] => []
  | device, a :: rest =>
    a.outputs.filterMap (matchedScreen gs device) ++ createdScreens gs (device + 1) rest

/-- The monitor handles of the outputs of a catalog, in catalog order. -/
def catalogHandles : List DXGIAdapter → List HMONITOR
  | [] => []
  | a :: rest => a.outputs.map (fun o => o.Monitor) ++ catalogHandles rest

/-! ## Notions used by the statements on the frame loop -/

/-- The capture session a GrabbedScreen belongs to: the output it duplicates and the
adapter whose device it uses; `none` when the session was torn down. -/
def sessionOf (g : GrabbedScreen) : Option (DXGIOutput × Nat) :=
  g.associatedData.map (fun d => (d.output, d.device))

/-- The engine after a sequence of session-change notifications, oldest first. -/
def notify (changes : List SessionStatus) (e : Engine) : Engine :=
  changes.foldl (fun e c => onSessionChange c e) e

/-- What a notification says about the lock: Locking is `true`, Unlocking is `false`,
any other notification says nothing. -/
def lockChange : SessionStatus → Option Bool
  | .Locking => some true
  | .Unlocking => some false
  | .other _ => none

/-- Whether the most recent Locking/Unlocking notification of a sequence (oldest first)
was Locking; `none` when the sequence holds no such notification. -/
def lastLockChange : List SessionStatus → Option Bool
  | [] => none
  | c :: rest => (lastLockChange rest).orElse (fun _ => lockChange c)

/-- A frame for which every call of the pipeline succeeds: a `w` by `h` texture in
format B8G8R8A8_UNORM, mapped with the given pitch at address 4096. -/
def sampleFrame (w h pitch : Nat) : FrameEnv :=
  { acquireNextFrame := S_OK, LastPresentTime := 1, queryTexture := S_OK,
    Width := w, Height := h, Format := .B8G8R8A8_UNORM,
    createStaging := S_OK, stagingTexture := 1, createScaled := S_OK,
    createShaderResourceView := S_OK, querySurface := S_OK, map := S_OK,
    mapped := { Pitch := pitch, pBits := some ⟨4096, []⟩ } }

/-- A frame whose acquisition gives the result `hr`. -/
def sampleFrameResult (hr : HRESULT) : FrameEnv :=
  { sampleFrame 1920 1080 960 with acquireNextFrame := hr }

/-- A session for a `w` by `h` screen with monitor handle `m` and rotation code `rot`,
holding the buffer `buf`. -/
def sampleSession (m : HMONITOR) (w h rot : Nat) (buf : Option Buffer) : GrabbedScreen :=
  { newGrabbedScreen ⟨⟨0, 0, w, h⟩, m⟩ (sampleOutput m .IDENTITY S_OK) 0 with
    rotation := rot, imgData := buf, imgDataSize := (buf.map (fun b => b.bytes.length)).getD 0 }

/-- An engine in the given state over the given sessions. -/
def sampleGrabber (state : State) (screens : List GrabbedScreen) : Engine :=
  { sampleEngine state [] with _screensWithWidgets := screens }

/-! ## Repeated capture cycles -/

/-- The platform presents nothing new to the first `n` sessions: each acquisition
reports a timeout, or succeeds with a frame whose `LastPresentTime` is zero. -/
def NoNewFrame (env : Nat → FrameEnv) (n : Nat) : Prop :=
  ∀ j, j < n →
    (env j).acquireNextFrame = DXGI_ERROR_WAIT_TIMEOUT
    ∨ (0 ≤ (env j).acquireNextFrame ∧ (env j).LastPresentTime = 0)

/-- Successive calls of `grabScreens`, one per element of `envs`; `none` when a call
reads a session without data. -/
def grabRepeatedly (alloc : Nat → Option Nat) :
    List (Nat → FrameEnv) → Engine → Option Engine
  | [], e => some e
  | env :: rest, e =>
    match grabScreens env alloc e with
    | none => none
    | some out => grabRepeatedly alloc rest out.engine

/-! ## Monitor discovery -/

/-- A grab widget, as far as the grabber looks at it: the monitor that
`MonitorFromWindow(winId, MONITOR_DEFAULTTONULL)` reports for its window. -/
structure GrabWidget where
  monitor : HMONITOR
deriving DecidableEq, Repr

/-- The function `anyWidgetOnThisMonitor`. -/
def anyWidgetOnThisMonitor (monitor : HMONITOR) (grabWidgets : List GrabWidget) : Bool :=
  grabWidgets.any (fun widget => widget.monitor == monitor)

/-- The ScreenInfo `__screensWithWidgets` builds from an output description.  The
desktop rectangle of an output has `right ≥ left` and `bottom ≥ top`; the extents are
the differences, cut off at zero otherwise. -/
def screenInfoOf (output : DXGIOutput) : ScreenInfo :=
  { rect := ⟨output.DesktopCoordinates.left, output.DesktopCoordinates.top,
             (output.DesktopCoordinates.right - output.DesktopCoordinates.left).toNat,
             (output.DesktopCoordinates.bottom - output.DesktopCoordinates.top).toNat⟩
    handle := output.Monitor }

/-- What `__screensWithWidgets` leaves behind: the list it filled, the engine, and the
rebuilds and re-entries it went through, in order. -/
structure WidgetsOut where
  result : List ScreenInfo
  engine : Engine
  trace : List Event

/-- How the body of a loop of `__screensWithWidgets` ends: it goes on with the list so
far, or the function returns. -/
inductive WidgetFlow where
  | next (result : List ScreenInfo)
  | ret (out : WidgetsOut)

/-- The body of the loop over the outputs of one adapter, for one output.  `recurse`
stands for the recursive call `__screensWithWidgets(result, grabWidgets, true)`, which
clears the list first. -/
def widgetsOutput (recurse : Engine → WidgetsOut) (w : ReallocEnv)
    (grabWidgets : List GrabWidget) (noRecursion : Bool) (e : Engine)
    (output : DXGIOutput) (result : List ScreenInfo) : WidgetFlow :=
  if output.Monitor = 0 then
    if !noRecursion then
      let out := recurse (recreateAdapters w e).2
      .ret ⟨out.result, out.engine, [.recreateAdapters, .reenter] ++ out.trace⟩
    else .next result
  else if anyWidgetOnThisMonitor output.Monitor grabWidgets then
    .next (result ++ [screenInfoOf output])
  else .next result

/-- The loop over the outputs of one adapter. -/
def widgetsOutputs (recurse : Engine → WidgetsOut) (w : ReallocEnv)
    (grabWidgets : List GrabWidget) (noRecursion : Bool) (e : Engine) :
    List DXGIOutput → List ScreenInfo → WidgetFlow
  | [], result => .next result
  | output :: rest, result =>
    match widgetsOutput recurse w grabWidgets noRecursion e output result with
    | .ret out => .ret out
    | .next result => widgetsOutputs recurse w grabWidgets noRecursion e rest result

/-- The loop over `m_adapters`. -/
def widgetsAdapters (recurse : Engine → WidgetsOut) (w : ReallocEnv)
    (grabWidgets : List GrabWidget) (noRecursion : Bool) (e : Engine) :
    List DXGIAdapter → List ScreenInfo → WidgetFlow
  | [], result => .next result
  | adapter :: rest, result =>
    match widgetsOutputs recurse w grabWidgets noRecursion e adapter.outputs result with
    | .ret out => .ret out
    | .next result => widgetsAdapters recurse w grabWidgets noRecursion e rest result

/-- The body of `DDuplGrabber::__screensWithWidgets`, with the recursive call
abstracted as `recurse`. -/
def screensWithWidgetsBody (recurse : Engine → WidgetsOut) (w : ReallocEnv)
    (grabWidgets : List GrabWidget) (noRecursion : Bool) (e : Engine) : WidgetsOut :=
  let (ok, e) := if e.m_state = .Uninitialized then init w e else (true, e)
  if !ok then ⟨[], e, []⟩
  else
    match widgetsAdapters recurse w grabWidgets noRecursion e e.m_adapters [] with
    | .ret out => out
    | .next result => ⟨result, e, []⟩

/-- `DDuplGrabber::__screensWithWidgets(result, grabWidgets, noRecursion)`.  `w` is what
the platform answers during this pass and `w2` what it answers during the retry that
follows the rebuilt catalog; the retry runs with `noRecursion = true`. -/
def __screensWithWidgets (grabWidgets : List GrabWidget) (noRecursion : Bool) (e : Engine)
    (w w2 : ReallocEnv) : WidgetsOut :=
  screensWithWidgetsBody
    (fun e1 => screensWithWidgetsBody (fun e2 => ⟨[], e2, []⟩) w2 grabWidgets true e1)
    w grabWidgets noRecursion e

/-- `DDuplGrabber::screensWithWidgets`. -/
def screensWithWidgets (grabWidgets : List GrabWidget) (e : Engine) (w w2 : ReallocEnv) :
    WidgetsOut :=
  __screensWithWidgets grabWidgets false e w w2

/-! ## Notions used by the statements on the retries -/

/-- The Windows status code `E_FAIL`. -/
def E_FAIL : HRESULT := 0x80004005 - 0x100000000

/-- The number of catalog rebuilds in a record. -/
def rebuilds (tr : List Event) : Nat := tr.count .recreateAdapters

/-- The number of re-entries in a record. -/
def reentries (tr : List Event) : Nat := tr.count .reenter

/-- A record that holds successful `DuplicateOutput` calls only. -/
def Quiet (tr : List Event) : Prop :=
  ∀ ev ∈ tr, ∃ m hr, ev = Event.duplicateOutput m hr ∧ 0 ≤ hr

/-- A loop body of `_reallocate` keeps to `Q`: a return satisfies `Q`; going on, it
issued successful `DuplicateOutput` calls only. -/
def FlowQuiet (Q : ReallocOut → Prop) : Flow → Prop
  | .ret out => Q out
  | .next _ tr => Quiet tr

/-- The three ways a pass of `_reallocate` relates to retries, `retry` being the
recursive call: no rebuild and no re-entry (and a mode change, if reported, met
`noRecursion` and gave false); a mode change followed by a failed rebuild and false; a
mode change followed by a rebuild and the retry, whose result is returned. -/
def PassShape (retry : Engine → ReallocOut) (w : ReallocEnv) (noRec : Bool)
    (out : ReallocOut) : Prop :=
  (rebuilds out.trace = 0 ∧ reentries out.trace = 0
    ∧ ∀ m, Event.duplicateOutput m DXGI_ERROR_MODE_CHANGE_IN_PROGRESS ∈ out.trace →
        noRec = true ∧ out.ret = false)
  ∨ (noRec = false ∧ w.createFactory < 0 ∧ out.ret = false
    ∧ ∃ pre m, Quiet pre
        ∧ out.trace = pre ++ [.duplicateOutput m DXGI_ERROR_MODE_CHANGE_IN_PROGRESS,
                               .recreateAdapters])
  ∨ (noRec = false ∧ 0 ≤ w.createFactory
    ∧ ∃ pre m e1, Quiet pre ∧ e1.m_adapters = w.enumAdapters
        ∧ out.trace = pre ++ ([.duplicateOutput m DXGI_ERROR_MODE_CHANGE_IN_PROGRESS,
                                .recreateAdapters, .reenter] ++ (retry e1).trace)
        ∧ out.ret = (retry e1).ret ∧ out.engine = (retry e1).engine)

/-- The engine once the lazy initialisation of a pass is done. -/
def initialised (w : ReallocEnv) (e : Engine) : Engine :=
  if e.m_state = .Uninitialized then (init w e).2 else e

/-- The outputs of a catalog, in catalog order. -/
def catalogOutputs : List DXGIAdapter → List DXGIOutput
  | [] => []
  | a :: rest => a.outputs ++ catalogOutputs rest

/-- The outputs a pass of `__screensWithWidgets` reports when it skips null handles:
those with a monitor handle on which some widget sits. -/
def reportedOutputs (grabWidgets : List GrabWidget) (outputs : List DXGIOutput) :
    List DXGIOutput :=
  outputs.filter (fun o => o.Monitor != 0 && anyWidgetOnThisMonitor o.Monitor grabWidgets)

/-! ## Notions used by the statements on the denied desktop -/

/-- The property behind C13, for one pass started in the state `s0`: if the pass ends
in the state AccessDeniedDesktop, and it returned true or did not start in that state,
then it left no session. -/
def DeniedEmpty (s0 : State) (out : ReallocOut) : Prop :=
  out.engine.m_state = .AccessDeniedDesktop →
    (out.ret = true ∨ s0 ≠ .AccessDeniedDesktop) →
    out.engine._screensWithWidgets = []

/-- A platform on which `OpenInputDesktop` fails with `ERROR_ACCESS_DENIED`. -/
def sampleEnvDenied : ReallocEnv :=
  { sampleEnv [] with openInputDesktop := false, lastError := ERROR_ACCESS_DENIED }

/-- A catalog of two adapters: the first with one output on monitor 7, the second
failing to create its device. -/
def sampleCatalogBroken : List DXGIAdapter :=
  [⟨S_OK, [sampleOutput 7 .IDENTITY S_OK]⟩, ⟨E_FAIL, []⟩]

/-- An operation that took the engine from `e` to `e1` added no session (the session
set has as many entries as before) and did not set the state AccessDeniedDesktop (the
engine is in that state afterwards only if it was before). -/
def KeepsSessions (e e1 : Engine) : Prop :=
  e1._screensWithWidgets.length = e._screensWithWidgets.length
  ∧ (e1.m_state = .AccessDeniedDesktop → e.m_state = .AccessDeniedDesktop)

/-! ## A delivered frame -/

/-- The platform delivers a new frame for the session `s`: the acquisition succeeds with
a new presentation, the resource is a texture of the dimensions the session expects in
a format the grabber knows, both textures and the resource view are created, and the
staging texture is mapped. -/
def FrameDelivered (fe : FrameEnv) (s : GrabbedScreen) : Prop :=
  0 ≤ fe.acquireNextFrame ∧ fe.LastPresentTime ≠ 0 ∧ 0 ≤ fe.queryTexture
  ∧ dimensionMismatch s fe = false
  ∧ mapDXGIFormatToBufferFormat fe.Format ≠ .BufferFormatUnknown
  ∧ 0 ≤ fe.createStaging ∧ 0 ≤ fe.createScaled ∧ 0 ≤ fe.createShaderResourceView
  ∧ 0 ≤ fe.querySurface ∧ 0 ≤ fe.map

/-- The number of rows the real pipeline produces for a session: the downscaled height
of the screen for an even rotation code, its downscaled width for an odd one. -/
def pipelineRows (s : GrabbedScreen) : Nat :=
  (if s.rotation % 2 = 0 then s.screenInfo.rect.height else s.screenInfo.rect.width) >>> 3

/-! ## Lemmas on the reallocation loops -/

theorem allSucceed_nil : AllSucceed [] := by
  intro m hr h; simp at h

theorem allSucceed_append {a b : List Event} (ha : AllSucceed a) (hb : AllSucceed b) :
    AllSucceed (a ++ b) := by
  intro m hr h
  rcases List.mem_append.1 h with h | h
  · exact ha m hr h
  · exact hb m hr h

theorem firstFailure_append_of_allSucceed {a : List Event} (ha : AllSucceed a)
    (b : List Event) : firstFailure (a ++ b) = firstFailure b := by
  induction a with
  | nil => rfl
  | cons ev rest ih =>
    have hrest : AllSucceed rest := fun m hr h => ha m hr (List.mem_cons_of_mem _ h)
    cases ev with
    | duplicateOutput m hr =>
      have h0 : 0 ≤ hr := ha m hr (List.mem_cons_self _ _)
      have : FAILED hr = false := by simp [FAILED, h0]
      simp [firstFailure, this, ih hrest]
    | recreateAdapters => simp [firstFailure, ih hrest]
    | reenter => simp [firstFailure, ih hrest]

theorem firstFailure_of_allSucceed {a : List Event} (ha : AllSucceed a) :
    firstFailure a = none := by
  have := firstFailure_append_of_allSucceed ha []
  simpa [firstFailure] using this

theorem reallocOutputs_ok (Q : ReallocOut → Prop) (I : Engine → Prop)
    (recurse : Engine → ReallocOut) (w : ReallocEnv) (gs : List ScreenInfo)
    (noRec : Bool)
    (hpre : ∀ tr out, AllSucceed tr → Q out → Q { out with trace := tr ++ out.trace })
    (hstep : ∀ device output e, I e →
      FlowOK Q I (reallocOutput recurse w gs noRec device output e))
    (device : Nat) (outputs : List DXGIOutput) (e : Engine) (he : I e) :
    FlowOK Q I (reallocOutputs recurse w gs noRec device outputs e) := by
  induction outputs generalizing e with
  | nil => exact ⟨allSucceed_nil, he⟩
  | cons o rest ih =>
    have h1 := hstep device o e he
    unfold reallocOutputs
    cases hr : reallocOutput recurse w gs noRec device o e with
    | ret out => rw [hr] at h1; simpa [FlowOK] using h1
    | next e1 tr =>
      rw [hr] at h1
      have h2 := ih e1 h1.2
      dsimp only
      cases hr2 : reallocOutputs recurse w gs noRec device rest e1 with
      | ret out => rw [hr2] at h2; simpa [FlowOK] using hpre tr out h1.1 h2
      | next e2 tr2 =>
        rw [hr2] at h2
        simpa [FlowOK] using And.intro (allSucceed_append h1.1 h2.1) h2.2

theorem reallocAdapters_ok (Q : ReallocOut → Prop) (I : Engine → Prop)
    (recurse : Engine → ReallocOut) (w : ReallocEnv) (gs : List ScreenInfo)
    (noRec : Bool)
    (hpre : ∀ tr out, AllSucceed tr → Q out → Q { out with trace := tr ++ out.trace })
    (hfail : ∀ e, I e → Q ⟨false, e, []⟩)
    (hstep : ∀ device output e, I e →
      FlowOK Q I (reallocOutput recurse w gs noRec device output e))
    (device : Nat) (adapters : List DXGIAdapter) (e : Engine) (he : I e) :
    FlowOK Q I (reallocAdapters recurse w gs noRec device adapters e) := by
  induction adapters generalizing e device with
  | nil => exact ⟨allSucceed_nil, he⟩
  | cons a rest ih =>
    unfold reallocAdapters
    by_cases hc : FAILED a.createDevice = true
    · simp only [hc, if_true]; exact hfail e he
    · simp only [hc]
      have h1 := reallocOutputs_ok Q I recurse w gs noRec hpre hstep device a.outputs e he
      cases hr : reallocOutputs recurse w gs noRec device a.outputs e with
      | ret out => rw [hr] at h1; simpa [FlowOK] using h1
      | next e1 tr =>
        rw [hr] at h1
        have h2 := ih (device + 1) e1 h1.2
        dsimp only
        cases hr2 : reallocAdapters recurse w gs noRec (device + 1) rest e1 with
        | ret out => rw [hr2] at h2; simpa [FlowOK] using hpre tr out h1.1 h2
        | next e2 tr2 =>
          rw [hr2] at h2
          simpa [FlowOK] using And.intro (allSucceed_append h1.1 h2.1) h2.2

/-! ## The back-off of the reallocation-due policy (C1) -/

/-- C1 (as stated, refuted): in the AccessDeniedDesktop state with timestamp 0 and tick
1000, exactly the back-off interval has elapsed, yet `isReallocationNeeded` is false;
likewise for AccessDeniedDuplication at exactly 5000 ms. -/
theorem C1_counterexample :
    (1000 - 0 ≥ ACCESSDENIED_DESKTOP_RETRY_INTERVAL
      ∧ isReallocationNeeded (fun _ _ => true) [] 1000
          { Engine.new with m_state := .AccessDeniedDesktop, m_accessDeniedLastCheck := 0 }
        = false)
    ∧ (5000 - 0 ≥ ACCESSDENIED_DUPLICATION_RETRY_INTERVAL
      ∧ isReallocationNeeded (fun _ _ => true) [] 5000
          { Engine.new with m_state := .AccessDeniedDuplication, m_accessDeniedLastCheck := 0 }
        = false) := by
  decide

/-- C1 (amended): in the state AccessDeniedDesktop (interval 1000 ms), respectively
AccessDeniedDuplication (interval 5000 ms), with recorded timestamp `t0` and current
tick `t ≥ t0` below `2 ^ 32`, and for every requested screen list,
`isReallocationNeeded` is true exactly when `t - t0` is strictly above the interval:
it is false while `t - t0` is at most the interval, in particular at exactly the
interval, and true from one millisecond later on. -/
theorem C1_backoff_strict (base : List ScreenInfo → List GrabbedScreen → Bool)
    (grabScreens : List ScreenInfo) (t0 t : Nat) (e : Engine)
    (h0 : e.m_accessDeniedLastCheck = t0) (hle : t0 ≤ t) (ht : t < 2 ^ 32) :
    (e.m_state = .AccessDeniedDesktop →
      (isReallocationNeeded base grabScreens t e = true ↔ 1000 < t - t0)
      ∧ (t - t0 ≤ 1000 → isReallocationNeeded base grabScreens t e = false))
    ∧ (e.m_state = .AccessDeniedDuplication →
      (isReallocationNeeded base grabScreens t e = true ↔ 5000 < t - t0)
      ∧ (t - t0 ≤ 5000 → isReallocationNeeded base grabScreens t e = false)) := by
  have hsub : dwordSub t t0 = t - t0 := by
    unfold dwordSub
    have : (2 : Nat) ^ 32 = 4294967296 := by norm_num
    omega
  constructor
  · intro hs
    have : isReallocationNeeded base grabScreens t e = decide (1000 < t - t0) := by
      simp [isReallocationNeeded, hs, h0, hsub, ACCESSDENIED_DESKTOP_RETRY_INTERVAL]
    rw [this]
    constructor
    · simp
    · intro h; simp; omega
  · intro hs
    have : isReallocationNeeded base grabScreens t e = decide (5000 < t - t0) := by
      simp [isReallocationNeeded, hs, h0, hsub, ACCESSDENIED_DUPLICATION_RETRY_INTERVAL]
    rw [this]
    constructor
    · simp
    · intro h; simp; omega

/-- Witness for C1: timestamp 200, tick 1201. -/
theorem C1_backoff_strict_witness :
    isReallocationNeeded (fun _ _ => false) [] 1201
        { Engine.new with m_state := .AccessDeniedDesktop, m_accessDeniedLastCheck := 200 }
      = true := by
  have h := (C1_backoff_strict (fun _ _ => false) [] 200 1201
    { Engine.new with m_state := .AccessDeniedDesktop, m_accessDeniedLastCheck := 200 }
    rfl (by decide) (by norm_num)).1 rfl
  exact h.1.2 (by decide)


theorem failed_iff (hr : HRESULT) : FAILED hr = true ↔ hr < 0 := by simp [FAILED]

theorem failed_E_ACCESSDENIED : FAILED E_ACCESSDENIED = true := by decide
theorem failed_MODE_CHANGE : FAILED DXGI_ERROR_MODE_CHANGE_IN_PROGRESS = true := by decide

/-- Case analysis of the loop body `reallocOutput`, one case per path of the source. -/
theorem reallocOutput_cases (P : Flow → Prop) (recurse : Engine → ReallocOut)
    (w : ReallocEnv) (gs : List ScreenInfo) (noRec : Bool) (device : Nat)
    (output : DXGIOutput) (e : Engine)
    (hquery : FAILED output.queryOutput1 = true → P (.ret ⟨false, e, []⟩))
    (hnone : gs.find? (fun s => s.handle == output.Monitor) = none → P (.next e []))
    (hdenied : (gs.find? (fun s => s.handle == output.Monitor)).isSome = true →
      output.duplicateOutput = E_ACCESSDENIED →
      P (.ret ⟨true, { e with m_state := .AccessDeniedDuplication,
                              m_accessDeniedLastCheck := w.tickCount },
               [.duplicateOutput output.Monitor output.duplicateOutput]⟩))
    (hunsupported : (gs.find? (fun s => s.handle == output.Monitor)).isSome = true →
      output.duplicateOutput = E_NOTIMPL ∨ output.duplicateOutput = DXGI_ERROR_UNSUPPORTED →
      P (.ret ⟨false, { e with m_state := .Unavailable },
               [.duplicateOutput output.Monitor output.duplicateOutput]⟩))
    (hrebuildFailed : (gs.find? (fun s => s.handle == output.Monitor)).isSome = true →
      output.duplicateOutput = DXGI_ERROR_MODE_CHANGE_IN_PROGRESS →
      noRec = false → (recreateAdapters w e).1 = false →
      P (.ret ⟨false, (recreateAdapters w e).2,
               [.duplicateOutput output.Monitor output.duplicateOutput, .recreateAdapters]⟩))
    (hretry : (gs.find? (fun s => s.handle == output.Monitor)).isSome = true →
      output.duplicateOutput = DXGI_ERROR_MODE_CHANGE_IN_PROGRESS →
      noRec = false → (recreateAdapters w e).1 = true →
      P (.ret ⟨(recurse (recreateAdapters w e).2).ret,
               (recurse (recreateAdapters w e).2).engine,
               [.duplicateOutput output.Monitor output.duplicateOutput, .recreateAdapters,
                 .reenter] ++ (recurse (recreateAdapters w e).2).trace⟩))
    (hfailed : (gs.find? (fun s => s.handle == output.Monitor)).isSome = true →
      output.duplicateOutput < 0 →
      output.duplicateOutput ≠ E_ACCESSDENIED →
      ¬ (output.duplicateOutput = E_NOTIMPL ∨ output.duplicateOutput = DXGI_ERROR_UNSUPPORTED) →
      (output.duplicateOutput = DXGI_ERROR_MODE_CHANGE_IN_PROGRESS → noRec = true) →
      P (.ret ⟨false, e, [.duplicateOutput output.Monitor output.duplicateOutput]⟩))
    (hok : ∀ screenInfo, gs.find? (fun s => s.handle == output.Monitor) = some screenInfo →
      0 ≤ output.duplicateOutput →
      P (.next { e with _screensWithWidgets :=
                   e._screensWithWidgets ++ [newGrabbedScreen screenInfo output device] }
               [.duplicateOutput output.Monitor output.duplicateOutput])) :
    P (reallocOutput recurse w gs noRec device output e) := by
  unfold reallocOutput
  by_cases h1 : FAILED output.queryOutput1 = true
  · rw [if_pos h1]; exact hquery h1
  · rw [if_neg h1]
    cases hf : gs.find? (fun s => s.handle == output.Monitor) with
    | none => exact hnone hf
    | some si =>
      have hsome : (gs.find? (fun s => s.handle == output.Monitor)).isSome = true := by
        rw [hf]; rfl
      dsimp only
      by_cases h2 : output.duplicateOutput = E_ACCESSDENIED
      · rw [if_pos h2]; exact hdenied hsome h2
      · rw [if_neg h2]
        by_cases h3 : output.duplicateOutput = E_NOTIMPL
            ∨ output.duplicateOutput = DXGI_ERROR_UNSUPPORTED
        · rw [if_pos h3]; exact hunsupported hsome h3
        · rw [if_neg h3]
          by_cases h4 : output.duplicateOutput = DXGI_ERROR_MODE_CHANGE_IN_PROGRESS
          · rw [if_pos h4]
            cases hn : noRec with
            | true =>
              simp only [Bool.not_true, Bool.false_eq_true, if_false]
              exact hfailed hsome (by rw [h4]; decide) h2 h3 (fun _ => hn)
            | false =>
              simp only [Bool.not_false, if_true]
              cases hrc : (recreateAdapters w e).1 with
              | false =>
                have := hrebuildFailed hsome h4 hn hrc
                rcases hp : recreateAdapters w e with ⟨ok, e1⟩
                rw [hp] at hrc this
                simp only at hrc
                subst hrc
                simpa using this
              | true =>
                have := hretry hsome h4 hn hrc
                rcases hp : recreateAdapters w e with ⟨ok, e1⟩
                rw [hp] at hrc this
                simp only at hrc
                subst hrc
                simpa using this
          · rw [if_neg h4]
            by_cases h5 : FAILED output.duplicateOutput = true
            · rw [if_pos h5]
              exact hfailed hsome ((failed_iff _).1 h5) h2 h3 (fun h => absurd h h4)
            · rw [if_neg h5]
              have h0 : 0 ≤ output.duplicateOutput := by
                exact not_lt.1 ((failed_iff output.duplicateOutput).not.1 h5)
              exact hok si hf h0


/-- Case analysis of `reallocateBody`, one case per way the source returns. -/
theorem reallocateBody_cases (P : ReallocOut → Prop) (recurse : Engine → ReallocOut)
    (w : ReallocEnv) (gs : List ScreenInfo) (noRec : Bool) (e : Engine)
    (hinit : e.m_state = .Uninitialized → (init w e).1 = false →
      P ⟨false, (init w e).2, []⟩)
    (hdenied : (e.m_state = .Uninitialized → (init w e).1 = true) →
      w.openInputDesktop = false → w.lastError = ERROR_ACCESS_DENIED →
      P ⟨true, { passStart w e with m_state := .AccessDeniedDesktop,
                                    m_accessDeniedLastCheck := w.tickCount }, []⟩)
    (hopen : (e.m_state = .Uninitialized → (init w e).1 = true) →
      w.openInputDesktop = false → w.lastError ≠ ERROR_ACCESS_DENIED →
      P ⟨true, passStart w e, []⟩)
    (hset : (e.m_state = .Uninitialized → (init w e).1 = true) →
      w.openInputDesktop = true → w.setThreadDesktop = false →
      P ⟨false, passStart w e, []⟩)
    (hret : (e.m_state = .Uninitialized → (init w e).1 = true) →
      w.openInputDesktop = true → w.setThreadDesktop = true → ∀ out,
      reallocAdapters recurse w gs noRec 0 (passStart w e).m_adapters (passStart w e)
        = .ret out → P out)
    (hnext : (e.m_state = .Uninitialized → (init w e).1 = true) →
      w.openInputDesktop = true → w.setThreadDesktop = true → ∀ e2 tr,
      reallocAdapters recurse w gs noRec 0 (passStart w e).m_adapters (passStart w e)
        = .next e2 tr → P ⟨true, { e2 with m_state := .Allocated }, tr⟩) :
    P (reallocateBody recurse w gs noRec e) := by
  have key : ∀ e0 : Engine, freeScreens e0 = passStart w e →
      (e.m_state = .Uninitialized → (init w e).1 = true) →
      P (if (!w.openInputDesktop) = true then
          if w.lastError = ERROR_ACCESS_DENIED then
            ⟨true, { freeScreens e0 with m_state := .AccessDeniedDesktop,
                                         m_accessDeniedLastCheck := w.tickCount }, []⟩
          else ⟨true, freeScreens e0, []⟩
        else if (!w.setThreadDesktop) = true then ⟨false, freeScreens e0, []⟩
        else
          match reallocAdapters recurse w gs noRec 0 (freeScreens e0).m_adapters
              (freeScreens e0) with
          | .ret out => out
          | .next e tr => ⟨true, { e with m_state := .Allocated }, tr⟩) := by
    intro e0 he0 hi
    rw [he0]
    cases ho : w.openInputDesktop with
    | false =>
      simp only [Bool.not_false, if_true]
      by_cases hl : w.lastError = ERROR_ACCESS_DENIED
      · rw [if_pos hl]; exact hdenied hi ho hl
      · rw [if_neg hl]; exact hopen hi ho hl
    | true =>
      simp only [Bool.not_true, Bool.false_eq_true, if_false]
      cases hs : w.setThreadDesktop with
      | false => simp only [Bool.not_false, if_true]; exact hset hi ho hs
      | true =>
        simp only [Bool.not_true, Bool.false_eq_true, if_false]
        cases hl : reallocAdapters recurse w gs noRec 0 (passStart w e).m_adapters
            (passStart w e) with
        | ret out => exact hret hi ho hs out hl
        | next e2 tr => exact hnext hi ho hs e2 tr hl
  unfold reallocateBody
  by_cases hu : e.m_state = .Uninitialized
  · rw [if_pos hu]
    rcases hp : init w e with ⟨ok, e0⟩
    cases ok with
    | false =>
      have := hinit hu (by rw [hp])
      rw [hp] at this
      simpa using this
    | true =>
      simp only [Bool.not_true, Bool.false_eq_true, if_false]
      exact key e0 (by simp [passStart, hu, hp]) (fun _ => by rw [hp])
  · rw [if_neg hu]
    simp only [Bool.not_true, Bool.false_eq_true, if_false]
    exact key e (by simp [passStart, hu]) (fun h => absurd h hu)

theorem deniedSpec_of_allSucceed (w : ReallocEnv) (out : ReallocOut)
    (h : AllSucceed out.trace) : DeniedSpec w out := by
  intro hf
  rw [firstFailure_of_allSucceed h] at hf
  cases hf

theorem deniedSpec_single (w : ReallocEnv) (b : Bool) (e : Engine) (m : HMONITOR)
    (hr : HRESULT) (rest : List Event) (hneg : hr < 0) (hne : hr ≠ E_ACCESSDENIED) :
    DeniedSpec w ⟨b, e, .duplicateOutput m hr :: rest⟩ := by
  intro hf
  have : FAILED hr = true := (failed_iff hr).2 hneg
  simp [firstFailure, this] at hf
  exact absurd hf hne

theorem deniedSpec_body (recurse : Engine → ReallocOut) (w : ReallocEnv)
    (gs : List ScreenInfo) (noRec : Bool) (e : Engine) :
    DeniedSpec w (reallocateBody recurse w gs noRec e) := by
  have hpre : ∀ tr out, AllSucceed tr → DeniedSpec w out →
      DeniedSpec w { out with trace := tr ++ out.trace } := by
    intro tr out htr hq hf
    simp only [firstFailure_append_of_allSucceed htr] at hf
    exact hq hf
  have hstep : ∀ device output e, True →
      FlowOK (DeniedSpec w) (fun _ => True)
        (reallocOutput recurse w gs noRec device output e) := by
    intro device output e _
    apply reallocOutput_cases
    · intro _; exact deniedSpec_of_allSucceed _ _ allSucceed_nil
    · intro _; exact ⟨allSucceed_nil, trivial⟩
    · intro _ h _; exact ⟨rfl, rfl, rfl⟩
    · intro _ h
      refine deniedSpec_single _ _ _ _ _ _ ?_ ?_
      · rcases h with h | h <;> rw [h] <;> decide
      · rcases h with h | h <;> rw [h] <;> decide
    · intro _ h _ _
      exact deniedSpec_single _ _ _ _ _ _ (by rw [h]; decide) (by rw [h]; decide)
    · intro _ h _ _
      exact deniedSpec_single _ _ _ _ _ _ (by rw [h]; decide) (by rw [h]; decide)
    · intro _ hneg hne _ _
      exact deniedSpec_single _ _ _ _ _ _ hneg hne
    · intro si _ h0
      refine ⟨?_, trivial⟩
      intro m hr hmem
      simp at hmem
      rw [hmem.2]; exact h0
  have hloop := fun e0 => reallocAdapters_ok (DeniedSpec w) (fun _ => True) recurse w gs noRec
    hpre (fun e _ => deniedSpec_of_allSucceed _ _ allSucceed_nil) hstep 0 e0.m_adapters e0 trivial
  apply reallocateBody_cases
  · intro _ _; exact deniedSpec_of_allSucceed _ _ allSucceed_nil
  · intro _ _ _; exact deniedSpec_of_allSucceed _ _ allSucceed_nil
  · intro _ _ _; exact deniedSpec_of_allSucceed _ _ allSucceed_nil
  · intro _ _ _; exact deniedSpec_of_allSucceed _ _ allSucceed_nil
  · intro _ _ _ out hl
    have := hloop (passStart w e)
    rw [hl] at this
    exact this
  · intro _ _ _ e2 tr hl
    have := hloop (passStart w e)
    rw [hl] at this
    exact deniedSpec_of_allSucceed _ _ this.1

theorem init_screens (w : ReallocEnv) (e : Engine) :
    (init w e).2._screensWithWidgets = e._screensWithWidgets := by
  unfold init recreateAdapters
  dsimp only
  split_ifs <;> rfl

theorem init_state_of_fail (w : ReallocEnv) (e : Engine) (h : (init w e).1 = false) :
    (init w e).2.m_state = .Unavailable := by
  revert h
  unfold init recreateAdapters
  dsimp only
  split_ifs <;> simp

theorem recreateAdapters_screens (w : ReallocEnv) (e : Engine) :
    (recreateAdapters w e).2._screensWithWidgets = e._screensWithWidgets := by
  unfold recreateAdapters
  dsimp only
  split_ifs <;> rfl

theorem unsupportedSpec_of_allSucceed (out : ReallocOut) (h : AllSucceed out.trace) :
    UnsupportedSpec out := by
  intro m hr hmem hhr
  have h0 := h m hr hmem
  rcases hhr with hhr | hhr <;> rw [hhr] at h0 <;> exact absurd h0 (by decide)

theorem unsupportedSpec_body (recurse : Engine → ReallocOut) (w : ReallocEnv)
    (gs : List ScreenInfo) (noRec : Bool) (e : Engine)
    (hrec : ∀ e1, UnsupportedSpec (recurse e1)) :
    UnsupportedSpec (reallocateBody recurse w gs noRec e) := by
  have hpre : ∀ tr out, AllSucceed tr → UnsupportedSpec out →
      UnsupportedSpec { out with trace := tr ++ out.trace } := by
    intro tr out htr hq m hr hmem hhr
    rcases List.mem_append.1 hmem with h | h
    · have h0 := htr m hr h
      rcases hhr with hhr | hhr <;> rw [hhr] at h0 <;> exact absurd h0 (by decide)
    · exact hq m hr h hhr
  have hsingle : ∀ (b : Bool) (e1 : Engine) (m : HMONITOR) (hr : HRESULT)
      (rest : List Event), hr ≠ E_NOTIMPL → hr ≠ DXGI_ERROR_UNSUPPORTED →
      (∀ m1 hr1, Event.duplicateOutput m1 hr1 ∈ rest →
        hr1 = E_NOTIMPL ∨ hr1 = DXGI_ERROR_UNSUPPORTED →
        b = false ∧ e1.m_state = .Unavailable) →
      UnsupportedSpec ⟨b, e1, .duplicateOutput m hr :: rest⟩ := by
    intro b e1 m hr rest h1 h2 hrest m1 hr1 hmem hhr
    rcases List.mem_cons.1 hmem with h | h
    · injection h with _ h
      rcases hhr with hhr | hhr
      · exact absurd (h ▸ hhr) h1
      · exact absurd (h ▸ hhr) h2
    · exact hrest m1 hr1 h hhr
  have hstep : ∀ device output e, True →
      FlowOK UnsupportedSpec (fun _ => True)
        (reallocOutput recurse w gs noRec device output e) := by
    intro device output e _
    apply reallocOutput_cases
    · intro _; exact unsupportedSpec_of_allSucceed _ allSucceed_nil
    · intro _; exact ⟨allSucceed_nil, trivial⟩
    · intro _ h
      exact hsingle _ _ _ _ _ (by rw [h]; decide) (by rw [h]; decide) (by simp)
    · intro _ _ m hr _ _; exact ⟨rfl, rfl⟩
    · intro _ h _ _
      exact hsingle _ _ _ _ _ (by rw [h]; decide) (by rw [h]; decide) (by simp)
    · intro _ h _ _
      refine hsingle _ _ _ _ _ (by rw [h]; decide) (by rw [h]; decide) ?_
      intro m1 hr1 hmem hhr
      have hmem : Event.duplicateOutput m1 hr1 ∈ (recurse (recreateAdapters w e).2).trace := by
        simpa using hmem
      exact hrec _ m1 hr1 hmem hhr
    · intro _ _ _ h3 _
      exact hsingle _ _ _ _ _ (fun h => h3 (Or.inl h)) (fun h => h3 (Or.inr h)) (by simp)
    · intro si _ h0
      refine ⟨?_, trivial⟩
      intro m hr hmem
      simp at hmem
      rw [hmem.2]; exact h0
  have hloop := fun e0 => reallocAdapters_ok UnsupportedSpec (fun _ => True) recurse w gs noRec
    hpre (fun e _ => unsupportedSpec_of_allSucceed _ allSucceed_nil) hstep 0 e0.m_adapters e0
    trivial
  apply reallocateBody_cases
  · intro _ _; exact unsupportedSpec_of_allSucceed _ allSucceed_nil
  · intro _ _ _; exact unsupportedSpec_of_allSucceed _ allSucceed_nil
  · intro _ _ _; exact unsupportedSpec_of_allSucceed _ allSucceed_nil
  · intro _ _ _; exact unsupportedSpec_of_allSucceed _ allSucceed_nil
  · intro _ _ _ out hl
    have := hloop (passStart w e)
    rw [hl] at this
    exact this
  · intro _ _ _ e2 tr hl
    have := hloop (passStart w e)
    rw [hl] at this
    exact unsupportedSpec_of_allSucceed _ this.1

theorem rotation_body (recurse : Engine → ReallocOut) (w : ReallocEnv)
    (gs : List ScreenInfo) (noRec : Bool) (e : Engine)
    (hrec : ∀ e1, AllScreens RotationFromOutput e1 →
      AllScreens RotationFromOutput (recurse e1).engine)
    (he : e.m_state = .Uninitialized → (init w e).1 = false →
      AllScreens RotationFromOutput e) :
    AllScreens RotationFromOutput (reallocateBody recurse w gs noRec e).engine := by
  have hstep : ∀ device output e, AllScreens RotationFromOutput e →
      FlowOK (fun out => AllScreens RotationFromOutput out.engine)
        (AllScreens RotationFromOutput)
        (reallocOutput recurse w gs noRec device output e) := by
    intro device output e he
    apply reallocOutput_cases
    · intro _; exact he
    · intro _; exact ⟨allSucceed_nil, he⟩
    · intro _ _; exact he
    · intro _ _; exact he
    · intro _ _ _ _ s hs
      rw [recreateAdapters_screens] at hs
      exact he s hs
    · intro _ _ _ _
      apply hrec
      intro s hs
      rw [recreateAdapters_screens] at hs
      exact he s hs
    · intro _ _ _ _ _; exact he
    · intro si hf h0
      refine ⟨?_, ?_⟩
      · intro m hr hmem
        simp at hmem
        rw [hmem.2]; exact h0
      · intro s hs
        rcases List.mem_append.1 hs with h | h
        · exact he s h
        · have hs : s = newGrabbedScreen si output device := by simpa using h
          subst hs
          have hh := List.find?_some hf
          exact ⟨_, rfl, by simpa [newGrabbedScreen] using hh, rfl⟩
  have hstart : AllScreens RotationFromOutput (passStart w e) := by
    intro s hs
    simp [passStart, freeScreens] at hs
  have hloop := reallocAdapters_ok (fun out => AllScreens RotationFromOutput out.engine)
    (AllScreens RotationFromOutput) recurse w gs noRec
    (fun _ _ _ h => h) (fun _ h => h) hstep 0 (passStart w e).m_adapters (passStart w e) hstart
  apply reallocateBody_cases
      (fun out => AllScreens RotationFromOutput out.engine)
  · intro hu hi s hs
    rw [init_screens] at hs
    exact he hu hi s hs
  · intro _ _ _; exact hstart
  · intro _ _ _; exact hstart
  · intro _ _ _; exact hstart
  · intro _ _ _ out hl
    rw [hl] at hloop
    exact hloop
  · intro _ _ _ e2 tr hl
    rw [hl] at hloop
    exact hloop.2

/-! ## Reallocation: failures, denials and rotation (C2, C3, C4, C7) -/

/-- C2 (the code departs from the claim): with the input desktop failing to open with
error 6 (`ERROR_INVALID_HANDLE`, not `ERROR_ACCESS_DENIED`), `_reallocate` and
`reallocate` return true; a Ready engine stays Ready, and an engine that was Allocated
stays Allocated with an empty session set. -/
theorem C2_open_failure_returns_true :
    (_reallocate [sampleScreen 7] false (sampleEngine .Ready []) sampleEnvNoDesktop
        sampleEnvNoDesktop).ret = true
    ∧ (reallocate true [sampleScreen 7] (sampleEngine .Ready []) sampleEnvNoDesktop
        sampleEnvNoDesktop).ret = true
    ∧ (_reallocate [sampleScreen 7] false (sampleEngine .Ready []) sampleEnvNoDesktop
        sampleEnvNoDesktop).engine.m_state = .Ready
    ∧ (_reallocate [sampleScreen 7] false (sampleEngine .Allocated []) sampleEnvNoDesktop
        sampleEnvNoDesktop).ret = true
    ∧ (_reallocate [sampleScreen 7] false (sampleEngine .Allocated []) sampleEnvNoDesktop
        sampleEnvNoDesktop).engine.m_state = .Allocated
    ∧ (_reallocate [sampleScreen 7] false (sampleEngine .Allocated []) sampleEnvNoDesktop
        sampleEnvNoDesktop).engine._screensWithWidgets.length = 0 := by
  refine ⟨?_, ?_, ?_, ?_, ?_, ?_⟩ <;> decide

/-- C3: for every requested screen list, engine and platform behaviour, if the first
`DuplicateOutput` call that `_reallocate` issues and that does not succeed returns
access-denied, then `_reallocate` returns true, the state is AccessDeniedDuplication and
the recorded timestamp is the tick count of that moment.  (A `DuplicateOutput` call is
only issued once the desktop is open and the device of its adapter exists, and only for
an output whose monitor handle matches a requested screen.) -/
theorem C3_duplication_access_denied (grabScreens : List ScreenInfo) (noRecursion : Bool)
    (e : Engine) (w w2 : ReallocEnv)
    (hopen : w.openInputDesktop = true)
    (h : firstFailure (_reallocate grabScreens noRecursion e w w2).trace
      = some E_ACCESSDENIED) :
    (_reallocate grabScreens noRecursion e w w2).ret = true
    ∧ (_reallocate grabScreens noRecursion e w w2).engine.m_state = .AccessDeniedDuplication
    ∧ (_reallocate grabScreens noRecursion e w w2).engine.m_accessDeniedLastCheck
        = w.tickCount := by
  have _ := hopen
  exact deniedSpec_body _ w grabScreens noRecursion e h

/-- Witness for C3: two outputs, the first duplicated, the
second denied. -/
theorem C3_duplication_access_denied_witness :
    (_reallocate [sampleScreen 7, sampleScreen 8] false
        (sampleEngine .Ready
          [⟨S_OK, [sampleOutput 7 .IDENTITY S_OK, sampleOutput 8 .IDENTITY E_ACCESSDENIED]⟩])
        (sampleEnv []) (sampleEnv [])).engine.m_accessDeniedLastCheck = 4242 :=
  (C3_duplication_access_denied [sampleScreen 7, sampleScreen 8] false
    (sampleEngine .Ready
      [⟨S_OK, [sampleOutput 7 .IDENTITY S_OK, sampleOutput 8 .IDENTITY E_ACCESSDENIED]⟩])
    (sampleEnv []) (sampleEnv []) rfl (by decide)).2.2

/-- C4: in the state Unavailable, `isReallocationNeeded` is false for every requested
screen list, timestamp and tick; a failed `init` leaves the state Unavailable; and a
`DuplicateOutput` call of `_reallocate` that returns `E_NOTIMPL` or
`DXGI_ERROR_UNSUPPORTED` makes `_reallocate` return false in the state Unavailable, so
that `isReallocationNeeded` is false afterwards. -/
theorem C4_unavailable_never_due :
    (∀ (base : List ScreenInfo → List GrabbedScreen → Bool) (grabScreens : List ScreenInfo)
        (tick : Nat) (e : Engine),
        e.m_state = .Unavailable → isReallocationNeeded base grabScreens tick e = false)
    ∧ (∀ (w : ReallocEnv) (e : Engine),
        (init w e).1 = false → (init w e).2.m_state = .Unavailable)
    ∧ (∀ (grabScreens : List ScreenInfo) (noRecursion : Bool) (e : Engine)
        (w w2 : ReallocEnv) (m : HMONITOR) (hr : HRESULT),
        Event.duplicateOutput m hr ∈ (_reallocate grabScreens noRecursion e w w2).trace →
        hr = E_NOTIMPL ∨ hr = DXGI_ERROR_UNSUPPORTED →
        (_reallocate grabScreens noRecursion e w w2).ret = false
        ∧ (_reallocate grabScreens noRecursion e w w2).engine.m_state = .Unavailable
        ∧ ∀ (base : List ScreenInfo → List GrabbedScreen → Bool) (gs : List ScreenInfo)
            (tick : Nat),
            isReallocationNeeded base gs tick
              (_reallocate grabScreens noRecursion e w w2).engine = false) := by
  have h1 : ∀ (base : List ScreenInfo → List GrabbedScreen → Bool)
      (grabScreens : List ScreenInfo) (tick : Nat) (e : Engine),
      e.m_state = .Unavailable → isReallocationNeeded base grabScreens tick e = false := by
    intro base gs tick e h
    simp [isReallocationNeeded, h]
  refine ⟨h1, init_state_of_fail, ?_⟩
  intro gs noRec e w w2 m hr hmem hhr
  have hinner : ∀ e1, UnsupportedSpec
      (reallocateBody (fun e2 => ⟨false, e2, []⟩) w2 gs true e1) := fun e1 =>
    unsupportedSpec_body _ w2 gs true e1
      (fun e2 => unsupportedSpec_of_allSucceed _ allSucceed_nil)
  have := unsupportedSpec_body _ w gs noRec e hinner m hr hmem hhr
  exact ⟨this.1, this.2, fun base gs2 tick => h1 base gs2 tick _ this.2⟩

/-- Witness for C4: a mode change on the first pass and an
unsupported output on the retry. -/
theorem C4_unavailable_never_due_witness :
    isReallocationNeeded (fun _ _ => true) [] 99 (sampleEngine .Unavailable []) = false
    ∧ (init { sampleEnv [] with loadLibraries := false } Engine.new).2.m_state
        = .Unavailable
    ∧ (_reallocate [sampleScreen 7] false
        (sampleEngine .Ready
          [⟨S_OK, [sampleOutput 7 .IDENTITY DXGI_ERROR_MODE_CHANGE_IN_PROGRESS]⟩])
        (sampleEnv [⟨S_OK, [sampleOutput 7 .IDENTITY DXGI_ERROR_UNSUPPORTED]⟩])
        (sampleEnv [])).ret = false := by
  refine ⟨C4_unavailable_never_due.1 _ _ _ _ rfl,
    C4_unavailable_never_due.2.1 { sampleEnv [] with loadLibraries := false } Engine.new
      (by decide), ?_⟩
  exact (C4_unavailable_never_due.2.2 [sampleScreen 7] false
    (sampleEngine .Ready
      [⟨S_OK, [sampleOutput 7 .IDENTITY DXGI_ERROR_MODE_CHANGE_IN_PROGRESS]⟩])
    (sampleEnv [⟨S_OK, [sampleOutput 7 .IDENTITY DXGI_ERROR_UNSUPPORTED]⟩])
    (sampleEnv []) 7 DXGI_ERROR_UNSUPPORTED (by decide) (Or.inr rfl)).1

/-- C7: unless `_reallocate` stops at a failed lazy initialisation (and so creates no
session), every session it leaves has session data for an output with its monitor
handle, and its rotation code is derived from that output: 90 degrees gives 3, 180
degrees gives 2, 270 degrees gives 1, identity and unspecified give 0; the code is below
4 and the quarter turns of the output plus the code are a multiple of 4. -/
theorem C7_rotation_mapping (grabScreens : List ScreenInfo) (noRecursion : Bool)
    (e : Engine) (w w2 : ReallocEnv)
    (hinit : ¬ (e.m_state = .Uninitialized ∧ (init w e).1 = false)) :
    (∀ s ∈ (_reallocate grabScreens noRecursion e w w2).engine._screensWithWidgets,
      ∃ d, s.associatedData = some d ∧ s.screenInfo.handle = d.output.Monitor
        ∧ s.rotation = rotationCode d.output.Rotation
        ∧ s.rotation < 4
        ∧ (quarterTurns d.output.Rotation + s.rotation) % 4 = 0)
    ∧ rotationCode .ROTATE90 = 3 ∧ rotationCode .ROTATE180 = 2
    ∧ rotationCode .ROTATE270 = 1 ∧ rotationCode .IDENTITY = 0
    ∧ rotationCode .UNSPECIFIED = 0 := by
  refine ⟨?_, rfl, rfl, rfl, rfl, rfl⟩
  intro s hs
  have hinner : ∀ e1, AllScreens RotationFromOutput e1 → AllScreens RotationFromOutput
      (reallocateBody (fun e2 => ⟨false, e2, []⟩) w2 grabScreens true e1).engine :=
    fun e1 h1 => rotation_body _ w2 grabScreens true e1 (fun e2 h2 => h2) (fun _ _ => h1)
  have hall := rotation_body _ w grabScreens noRecursion e hinner
    (fun hu hi => absurd ⟨hu, hi⟩ hinit)
  obtain ⟨d, hd, hm, hr⟩ := hall s hs
  refine ⟨d, hd, hm, hr, ?_, ?_⟩
  · rw [hr]; cases d.output.Rotation <;> decide
  · rw [hr]; cases d.output.Rotation <;> decide

/-- Witness for C7: an output rotated by 90 degrees. -/
theorem C7_rotation_mapping_witness :
    ((_reallocate [sampleScreen 7] false
        (sampleEngine .Ready [⟨S_OK, [sampleOutput 7 .ROTATE90 S_OK]⟩])
        (sampleEnv []) (sampleEnv [])).engine._screensWithWidgets.map
      (fun s => s.rotation)) = [3]
    ∧ rotationCode .ROTATE90 = 3 :=
  ⟨by decide,
   (C7_rotation_mapping [sampleScreen 7] false
      (sampleEngine .Ready [⟨S_OK, [sampleOutput 7 .ROTATE90 S_OK]⟩])
      (sampleEnv []) (sampleEnv []) (by decide)).2.1⟩

/-! ## The fully successful pass (C5) -/

theorem engine_screens_append_nil (e : Engine) :
    { e with _screensWithWidgets := e._screensWithWidgets ++ [] } = e := by
  cases e; simp

theorem reallocOutputs_success (recurse : Engine → ReallocOut) (w : ReallocEnv)
    (gs : List ScreenInfo) (noRec : Bool) (device : Nat) (outputs : List DXGIOutput)
    (e : Engine)
    (hquery : ∀ o ∈ outputs, 0 ≤ o.queryOutput1)
    (hdup : ∀ o ∈ outputs, (∃ s ∈ gs, s.handle = o.Monitor) → 0 ≤ o.duplicateOutput) :
    ∃ tr, reallocOutputs recurse w gs noRec device outputs e
      = .next { e with _screensWithWidgets :=
                  e._screensWithWidgets ++ outputs.filterMap (matchedScreen gs device) } tr := by
  induction outputs generalizing e with
  | nil => exact ⟨[], by simp [reallocOutputs, engine_screens_append_nil]⟩
  | cons o rest ih =>
    have hq : 0 ≤ o.queryOutput1 := hquery o (List.mem_cons_self _ _)
    have hd : (gs.find? (fun s => s.handle == o.Monitor)).isSome = true →
        0 ≤ o.duplicateOutput := by
      intro hs
      obtain ⟨si, hsi⟩ := Option.isSome_iff_exists.1 hs
      refine hdup o (List.mem_cons_self _ _) ⟨si, List.mem_of_find?_eq_some hsi, ?_⟩
      simpa using List.find?_some hsi
    have hstep : ∃ tr, reallocOutput recurse w gs noRec device o e
        = .next { e with _screensWithWidgets :=
                    e._screensWithWidgets ++ (matchedScreen gs device o).toList } tr := by
      apply reallocOutput_cases
        (fun f => ∃ tr, f = Flow.next { e with _screensWithWidgets :=
                    e._screensWithWidgets ++ (matchedScreen gs device o).toList } tr)
      · intro h; exact absurd ((failed_iff _).1 h) (not_lt.2 hq)
      · intro h
        exact ⟨[], by simp [matchedScreen, h, engine_screens_append_nil]⟩
      · intro hs h; have := hd hs; rw [h] at this; exact absurd this (by decide)
      · intro hs h
        have := hd hs
        rcases h with h | h <;> rw [h] at this <;> exact absurd this (by decide)
      · intro hs h _ _; have := hd hs; rw [h] at this; exact absurd this (by decide)
      · intro hs h _ _; have := hd hs; rw [h] at this; exact absurd this (by decide)
      · intro hs h _ _ _; exact absurd h (not_lt.2 (hd hs))
      · intro si hsi _
        exact ⟨[.duplicateOutput o.Monitor o.duplicateOutput], by simp [matchedScreen, hsi]⟩
    obtain ⟨tr, htr⟩ := hstep
    obtain ⟨tr2, htr2⟩ := ih
      { e with _screensWithWidgets :=
          e._screensWithWidgets ++ (matchedScreen gs device o).toList }
      (fun o1 h1 => hquery o1 (List.mem_cons_of_mem _ h1))
      (fun o1 h1 => hdup o1 (List.mem_cons_of_mem _ h1))
    refine ⟨tr ++ tr2, ?_⟩
    unfold reallocOutputs
    rw [htr]
    dsimp only
    rw [htr2]
    cases hm : matchedScreen gs device o <;> simp [List.filterMap_cons, hm]

theorem reallocAdapters_success (recurse : Engine → ReallocOut) (w : ReallocEnv)
    (gs : List ScreenInfo) (noRec : Bool) (device : Nat) (adapters : List DXGIAdapter)
    (e : Engine)
    (hdev : ∀ a ∈ adapters, 0 ≤ a.createDevice)
    (hquery : ∀ a ∈ adapters, ∀ o ∈ a.outputs, 0 ≤ o.queryOutput1)
    (hdup : ∀ a ∈ adapters, ∀ o ∈ a.outputs,
      (∃ s ∈ gs, s.handle = o.Monitor) → 0 ≤ o.duplicateOutput) :
    ∃ tr, reallocAdapters recurse w gs noRec device adapters e
      = .next { e with _screensWithWidgets :=
                  e._screensWithWidgets ++ createdScreens gs device adapters } tr := by
  induction adapters generalizing e device with
  | nil => exact ⟨[], by simp [reallocAdapters, createdScreens, engine_screens_append_nil]⟩
  | cons a rest ih =>
    have hc : ¬ FAILED a.createDevice = true := fun h =>
      absurd ((failed_iff _).1 h) (not_lt.2 (hdev a (List.mem_cons_self _ _)))
    obtain ⟨tr, htr⟩ := reallocOutputs_success recurse w gs noRec device a.outputs e
      (hquery a (List.mem_cons_self _ _)) (hdup a (List.mem_cons_self _ _))
    obtain ⟨tr2, htr2⟩ := ih (device + 1)
      { e with _screensWithWidgets :=
          e._screensWithWidgets ++ a.outputs.filterMap (matchedScreen gs device) }
      (fun a1 h1 => hdev a1 (List.mem_cons_of_mem _ h1))
      (fun a1 h1 => hquery a1 (List.mem_cons_of_mem _ h1))
      (fun a1 h1 => hdup a1 (List.mem_cons_of_mem _ h1))
    refine ⟨tr ++ tr2, ?_⟩
    unfold reallocAdapters
    rw [if_neg hc, htr]
    dsimp only
    rw [htr2]
    simp [createdScreens]

theorem matchedScreen_fresh (gs : List ScreenInfo) (device : Nat) (o : DXGIOutput)
    (g : GrabbedScreen) (h : matchedScreen gs device o = some g) :
    g.imgData = none ∧ g.imgDataSize = 0 ∧ g.bytesPerRow = 0 ∧ g.scale = 1
      ∧ gs.find? (fun s => s.handle == o.Monitor) = some g.screenInfo := by
  unfold matchedScreen at h
  cases hf : gs.find? (fun s => s.handle == o.Monitor) with
  | none => rw [hf] at h; cases h
  | some si =>
    rw [hf] at h
    simp only [Option.map_some'] at h
    injection h with h
    subst h
    simp [newGrabbedScreen]

theorem createdScreens_fresh (gs : List ScreenInfo) (device : Nat)
    (adapters : List DXGIAdapter) :
    ∀ g ∈ createdScreens gs device adapters,
      g.imgData = none ∧ g.imgDataSize = 0 ∧ g.bytesPerRow = 0 ∧ g.scale = 1 := by
  induction adapters generalizing device with
  | nil => intro g hg; simp [createdScreens] at hg
  | cons a rest ih =>
    intro g hg
    simp only [createdScreens, List.mem_append, List.mem_filterMap] at hg
    rcases hg with ⟨o, _, ho⟩ | hg
    · obtain ⟨h1, h2, h3, h4, _⟩ := matchedScreen_fresh gs device o g ho
      exact ⟨h1, h2, h3, h4⟩
    · exact ih (device + 1) g hg

theorem createdScreens_screenInfo (gs : List ScreenInfo) (device : Nat)
    (adapters : List DXGIAdapter) :
    (createdScreens gs device adapters).map (fun g => g.screenInfo)
      = (catalogHandles adapters).filterMap
          (fun m => gs.find? (fun s => s.handle == m)) := by
  induction adapters generalizing device with
  | nil => simp [createdScreens, catalogHandles]
  | cons a rest ih =>
    simp only [createdScreens, catalogHandles, List.map_append, List.filterMap_append, ih]
    congr 1
    induction a.outputs with
    | nil => simp
    | cons o os ih2 =>
      simp only [List.map_cons, List.filterMap_cons]
      unfold matchedScreen
      cases hf : gs.find? (fun s => s.handle == o.Monitor) with
      | none => simpa [matchedScreen] using ih2
      | some si => simpa [matchedScreen, newGrabbedScreen] using ih2

theorem find_handle_eq_some (gs : List ScreenInfo)
    (hnodup : (gs.map (fun s => s.handle)).Nodup) (s : ScreenInfo) (hs : s ∈ gs) :
    gs.find? (fun x => x.handle == s.handle) = some s := by
  induction gs with
  | nil => cases hs
  | cons a rest ih =>
    simp only [List.map_cons, List.nodup_cons] at hnodup
    rcases List.mem_cons.1 hs with h | h
    · subst h; simp [List.find?]
    · have hne : a.handle ≠ s.handle := by
        intro heq
        exact hnodup.1 (heq ▸ List.mem_map_of_mem (fun s => s.handle) h)
      have : (a.handle == s.handle) = false := by simpa using hne
      simp only [List.find?, this]
      exact ih hnodup.2 h

theorem count_filterMap_find (gs : List ScreenInfo)
    (hnodup : (gs.map (fun s => s.handle)).Nodup) (s : ScreenInfo) (H : List HMONITOR) :
    (H.filterMap (fun m => gs.find? (fun x => x.handle == m))).count s
      = if s ∈ gs then H.count s.handle else 0 := by
  induction H with
  | nil => simp
  | cons m rest ih =>
    rw [List.filterMap_cons]
    cases hf : gs.find? (fun x => x.handle == m) with
    | none =>
      dsimp only
      rw [ih]
      by_cases hs : s ∈ gs
      · have hne : m ≠ s.handle := by
          intro h
          rw [h, find_handle_eq_some gs hnodup s hs] at hf
          cases hf
        simp [hs, List.count_cons, hne]
      · simp [hs]
    | some si =>
      dsimp only
      have hsi : si ∈ gs := List.mem_of_find?_eq_some hf
      have hm : si.handle = m := by simpa using List.find?_some hf
      rw [List.count_cons, ih]
      by_cases hs : s ∈ gs
      · by_cases heq : m = s.handle
        · have : si = s := by
            rw [heq, find_handle_eq_some gs hnodup s hs] at hf
            exact (Option.some.inj hf).symm
          simp [hs, List.count_cons, heq, this]
        · have hne : si ≠ s := fun h => heq (by rw [← hm, h])
          simp [hs, List.count_cons, heq, hne]
      · have hne : si ≠ s := fun h => hs (h ▸ hsi)
        simp [hs, hne]

theorem filterMap_find_perm (gs : List ScreenInfo)
    (hnodup : (gs.map (fun s => s.handle)).Nodup) (H : List HMONITOR)
    (hone : ∀ s ∈ gs, H.count s.handle = 1) :
    (H.filterMap (fun m => gs.find? (fun x => x.handle == m))).Perm gs := by
  rw [List.perm_iff_count]
  intro s
  rw [count_filterMap_find gs hnodup s H]
  have hn : gs.Nodup := List.Nodup.of_map _ hnodup
  by_cases hs : s ∈ gs
  · simp [hs, hone s hs, List.count_eq_one_of_mem hn hs]
  · simp [hs, List.count_eq_zero_of_not_mem hs]

/-- C5 (as stated, refuted): one requested screen with handle 7 and a catalog in which
two outputs carry the handle 7.  The requested handles are pairwise distinct and each
is the handle of an enumerated output, every call succeeds, `_reallocate` returns true
in the state Allocated, yet the session set holds two entries for the one requested
screen. -/
theorem C5_counterexample :
    ([sampleScreen 7].map (fun s => s.handle)).Nodup
    ∧ (∀ s ∈ [sampleScreen 7],
        s.handle ∈ catalogHandles
          [⟨S_OK, [sampleOutput 7 .IDENTITY S_OK, sampleOutput 7 .IDENTITY S_OK]⟩])
    ∧ (_reallocate [sampleScreen 7] false
        (sampleEngine .Ready
          [⟨S_OK, [sampleOutput 7 .IDENTITY S_OK, sampleOutput 7 .IDENTITY S_OK]⟩])
        (sampleEnv []) (sampleEnv [])).ret = true
    ∧ (_reallocate [sampleScreen 7] false
        (sampleEngine .Ready
          [⟨S_OK, [sampleOutput 7 .IDENTITY S_OK, sampleOutput 7 .IDENTITY S_OK]⟩])
        (sampleEnv []) (sampleEnv [])).engine.m_state = .Allocated
    ∧ (_reallocate [sampleScreen 7] false
        (sampleEngine .Ready
          [⟨S_OK, [sampleOutput 7 .IDENTITY S_OK, sampleOutput 7 .IDENTITY S_OK]⟩])
        (sampleEnv []) (sampleEnv [])).engine._screensWithWidgets.map
          (fun g => g.screenInfo) = [sampleScreen 7, sampleScreen 7] := by
  refine ⟨?_, ?_, ?_, ?_, ?_⟩ <;> decide

/-- C5 (amended): let the catalog be the one in effect once the lazy initialisation,
if it is still due, has succeeded.  For every requested list of ScreenInfo entries with
pairwise distinct monitor handles, each being the monitor handle of exactly one
enumerated output, if the input desktop opens, `SetThreadDesktop` succeeds, every device
creation and interface query succeeds and `DuplicateOutput` succeeds on every output
that matches a requested screen, then `_reallocate` returns true, the state is
Allocated, and the session set holds exactly one entry per requested ScreenInfo (its
ScreenInfo list is a permutation of the requested list, so it has as many entries),
each with a null buffer, stride 0 and scale 1. -/
theorem C5_full_success (grabScreens : List ScreenInfo) (noRecursion : Bool)
    (e : Engine) (w w2 : ReallocEnv)
    (hinit : e.m_state = .Uninitialized → (init w e).1 = true)
    (hopen : w.openInputDesktop = true) (hset : w.setThreadDesktop = true)
    (hdev : ∀ a ∈ (passStart w e).m_adapters, 0 ≤ a.createDevice)
    (hquery : ∀ a ∈ (passStart w e).m_adapters, ∀ o ∈ a.outputs, 0 ≤ o.queryOutput1)
    (hdup : ∀ a ∈ (passStart w e).m_adapters, ∀ o ∈ a.outputs,
      (∃ s ∈ grabScreens, s.handle = o.Monitor) → 0 ≤ o.duplicateOutput)
    (hnodup : (grabScreens.map (fun s => s.handle)).Nodup)
    (hone : ∀ s ∈ grabScreens,
      (catalogHandles (passStart w e).m_adapters).count s.handle = 1) :
    (_reallocate grabScreens noRecursion e w w2).ret = true
    ∧ (_reallocate grabScreens noRecursion e w w2).engine.m_state = .Allocated
    ∧ ((_reallocate grabScreens noRecursion e w w2).engine._screensWithWidgets.map
        (fun g => g.screenInfo)).Perm grabScreens
    ∧ (_reallocate grabScreens noRecursion e w w2).engine._screensWithWidgets.length
        = grabScreens.length
    ∧ ∀ g ∈ (_reallocate grabScreens noRecursion e w w2).engine._screensWithWidgets,
        g.imgData = none ∧ g.bytesPerRow = 0 ∧ g.scale = 1 := by
  have key : (_reallocate grabScreens noRecursion e w w2).ret = true
      ∧ (_reallocate grabScreens noRecursion e w w2).engine.m_state = .Allocated
      ∧ (_reallocate grabScreens noRecursion e w w2).engine._screensWithWidgets
          = createdScreens grabScreens 0 (passStart w e).m_adapters := by
    unfold _reallocate
    obtain ⟨tr, htr⟩ := reallocAdapters_success
      (fun e1 => reallocateBody (fun e2 => ⟨false, e2, []⟩) w2 grabScreens true e1)
      w grabScreens noRecursion 0 (passStart w e).m_adapters (passStart w e) hdev hquery hdup
    apply reallocateBody_cases
      (fun out => out.ret = true ∧ out.engine.m_state = .Allocated
        ∧ out.engine._screensWithWidgets
            = createdScreens grabScreens 0 (passStart w e).m_adapters)
    · intro hu hi; rw [hinit hu] at hi; cases hi
    · intro _ ho _; rw [hopen] at ho; cases ho
    · intro _ ho _; rw [hopen] at ho; cases ho
    · intro _ _ hs; rw [hset] at hs; cases hs
    · intro _ _ _ out hl; rw [htr] at hl; cases hl
    · intro _ _ _ e2 tr2 hl
      rw [htr] at hl
      injection hl with h1 h2
      subst h1
      refine ⟨rfl, rfl, ?_⟩
      simp [passStart, freeScreens]
  obtain ⟨h1, h2, h3⟩ := key
  have hperm : ((_reallocate grabScreens noRecursion e w w2).engine._screensWithWidgets.map
      (fun g => g.screenInfo)).Perm grabScreens := by
    rw [h3, createdScreens_screenInfo]
    exact filterMap_find_perm grabScreens hnodup _ hone
  refine ⟨h1, h2, hperm, ?_, ?_⟩
  · simpa using hperm.length_eq
  · rw [h3]
    intro g hg
    obtain ⟨k1, _, k3, k4⟩ := createdScreens_fresh grabScreens 0 _ g hg
    exact ⟨k1, k3, k4⟩

/-- Witness for C5: two requested screens, three outputs on two
adapters. -/
theorem C5_full_success_witness :
    (_reallocate [sampleScreen 8, sampleScreen 7] false
        (sampleEngine .Ready
          [⟨S_OK, [sampleOutput 7 .IDENTITY S_OK, sampleOutput 9 .IDENTITY E_NOTIMPL]⟩,
           ⟨S_OK, [sampleOutput 8 .ROTATE90 S_OK]⟩])
        (sampleEnv []) (sampleEnv [])).engine._screensWithWidgets.length = 2 :=
  (C5_full_success [sampleScreen 8, sampleScreen 7] false
    (sampleEngine .Ready
      [⟨S_OK, [sampleOutput 7 .IDENTITY S_OK, sampleOutput 9 .IDENTITY E_NOTIMPL]⟩,
       ⟨S_OK, [sampleOutput 8 .ROTATE90 S_OK]⟩])
    (sampleEnv []) (sampleEnv []) (by decide) rfl rfl (by decide) (by decide) (by decide)
    (by decide) (by decide)).2.2.2.1

/-! ## Lemmas on the frame loop -/

theorem acquireCall_mem (i k : Nat) (fe : FrameEnv) (s : GrabbedScreen) (hr : HRESULT)
    (h : (k, hr) ∈ acquireCall i fe s) :
    k = i ∧ hr = fe.acquireNextFrame ∧ s.associatedData.isSome = true := by
  unfold acquireCall at h
  by_cases hd : s.associatedData.isSome = true
  · rw [if_pos hd] at h
    simp at h
    exact ⟨h.1, h.2, hd⟩
  · rw [if_neg hd] at h
    cases h

theorem grabLoop_acquired_ge (env : Nat → FrameEnv) (i : Nat) (any : Bool)
    (l : List GrabbedScreen) (k : Nat) (hr : HRESULT)
    (h : (k, hr) ∈ (grabLoop env i any l).acquired) : i ≤ k := by
  induction l generalizing i any with
  | nil => simp [grabLoop] at h
  | cons s rest ih =>
    unfold grabLoop at h
    cases hs : grabStep (env i) s with
    | stop r lost s1 =>
      rw [hs] at h
      exact le_of_eq (acquireCall_mem _ _ _ _ _ h).1.symm
    | cont u s1 =>
      rw [hs] at h
      rcases List.mem_append.1 h with h | h
      · exact le_of_eq (acquireCall_mem _ _ _ _ _ h).1.symm
      · exact Nat.le_of_succ_le (ih (i + 1) _ h)

theorem grabLoop_map (env : Nat → FrameEnv) {α : Type} (f : GrabbedScreen → α)
    (hf : ∀ fe s, f (grabStep fe s).screen = f s) (i : Nat) (any : Bool)
    (l : List GrabbedScreen) : (grabLoop env i any l).screens.map f = l.map f := by
  induction l generalizing i any with
  | nil => simp [grabLoop]
  | cons s rest ih =>
    unfold grabLoop
    have h1 := hf (env i) s
    cases hs : grabStep (env i) s with
    | stop r lost s1 => rw [hs] at h1; simpa [Step.screen] using h1
    | cont u s1 =>
      rw [hs] at h1
      simpa [Step.screen, ih] using h1

theorem grabLoop_getElem (env : Nat → FrameEnv) (i : Nat) (any : Bool)
    (l : List GrabbedScreen) (j : Nat) (s : GrabbedScreen) (hs : l[j]? = some s) :
    (grabLoop env i any l).screens[j]? = some s
    ∨ (grabLoop env i any l).screens[j]? = some (grabStep (env (i + j)) s).screen := by
  induction l generalizing i any j with
  | nil => simp at hs
  | cons s0 rest ih =>
    unfold grabLoop
    cases j with
    | zero =>
      simp only [List.getElem?_cons_zero, Option.some.injEq] at hs
      subst hs
      right
      cases hstep : grabStep (env i) s0 <;> simp [Step.screen, hstep]
    | succ j =>
      simp only [List.getElem?_cons_succ] at hs
      cases hstep : grabStep (env i) s0 with
      | stop r lost s1 => left; simpa using hs
      | cont u s1 =>
        have := ih (i + 1) (any || u) j hs
        have e1 : i + 1 + j = i + (j + 1) := by omega
        rw [e1] at this
        simpa using this

theorem grabLoop_acquired (env : Nat → FrameEnv) (i : Nat) (any : Bool)
    (l : List GrabbedScreen) (j : Nat) (s : GrabbedScreen) (hr : HRESULT)
    (hs : l[j]? = some s) (hmem : (i + j, hr) ∈ (grabLoop env i any l).acquired) :
    (grabLoop env i any l).screens[j]? = some (grabStep (env (i + j)) s).screen
    ∧ (∀ r lost s1, grabStep (env (i + j)) s = .stop r lost s1 →
        (grabLoop env i any l).ret = r ∧ (grabLoop env i any l).lost = lost)
    ∧ hr = (env (i + j)).acquireNextFrame ∧ s.associatedData.isSome = true := by
  induction l generalizing i any j with
  | nil => simp at hs
  | cons s0 rest ih =>
    unfold grabLoop at hmem ⊢
    cases j with
    | zero =>
      simp only [List.getElem?_cons_zero, Option.some.injEq] at hs
      subst hs
      simp only [Nat.add_zero] at hmem ⊢
      cases hstep : grabStep (env i) s0 with
      | stop r lost s1 =>
        rw [hstep] at hmem
        have := acquireCall_mem _ _ _ _ _ hmem
        refine ⟨by simp [Step.screen], ?_, this.2.1, this.2.2⟩
        intro r2 lost2 s2 h2
        injection h2 with ha hb hc
        simp [ha, hb]
      | cont u s1 =>
        rw [hstep] at hmem
        have hin : (i, hr) ∈ acquireCall i (env i) s0 := by
          rcases List.mem_append.1 hmem with h | h
          · exact h
          · exact absurd (grabLoop_acquired_ge env (i + 1) _ rest i hr h) (by omega)
        have := acquireCall_mem _ _ _ _ _ hin
        refine ⟨by simp [Step.screen], ?_, this.2.1, this.2.2⟩
        intro r2 lost2 s2 h2
        cases h2
    | succ j =>
      simp only [List.getElem?_cons_succ] at hs
      have e1 : i + 1 + j = i + (j + 1) := by omega
      cases hstep : grabStep (env i) s0 with
      | stop r lost s1 =>
        rw [hstep] at hmem
        have := (acquireCall_mem _ _ _ _ _ hmem).1
        omega
      | cont u s1 =>
        rw [hstep] at hmem
        have hin : (i + 1 + j, hr) ∈ (grabLoop env (i + 1) (any || u) rest).acquired := by
          rcases List.mem_append.1 hmem with h | h
          · have := (acquireCall_mem _ _ _ _ _ h).1
            omega
          · rw [e1]; exact h
        have := ih (i + 1) (any || u) j hs hin
        rw [e1] at this
        simpa using this

theorem grabLoop_all_cont (env : Nat → FrameEnv) (i : Nat) (any : Bool)
    (l : List GrabbedScreen)
    (hall : ∀ j s, l[j]? = some s → ∃ u s1, grabStep (env (i + j)) s = .cont u s1) :
    (grabLoop env i any l).lost = false
    ∧ ((any = true ∨ ∃ j s s1, l[j]? = some s ∧ grabStep (env (i + j)) s = .cont true s1) →
        (grabLoop env i any l).ret = .GrabResultOk)
    ∧ (any = false → (∀ j s s1, l[j]? = some s → grabStep (env (i + j)) s ≠ .cont true s1) →
        (grabLoop env i any l).ret = .GrabResultFrameNotReady) := by
  induction l generalizing i any with
  | nil =>
    refine ⟨rfl, ?_, ?_⟩
    · intro h
      rcases h with h | ⟨j, s, s1, hs, _⟩
      · simp [grabLoop, h]
      · simp at hs
    · intro h _; simp [grabLoop, h]
  | cons s0 rest ih =>
    obtain ⟨u, s1, hstep⟩ := hall 0 s0 (by simp)
    simp only [Nat.add_zero] at hstep
    have hall2 : ∀ j s, rest[j]? = some s →
        ∃ u s1, grabStep (env (i + 1 + j)) s = .cont u s1 := by
      intro j s hs
      have e1 : i + 1 + j = i + (j + 1) := by omega
      rw [e1]
      exact hall (j + 1) s (by simpa using hs)
    obtain ⟨h1, h2, h3⟩ := ih (i + 1) (any || u) hall2
    unfold grabLoop
    rw [hstep]
    refine ⟨h1, ?_, ?_⟩
    · intro h
      apply h2
      rcases h with h | ⟨j, s, s2, hs, hc⟩
      · left; simp [h]
      · cases j with
        | zero =>
          simp only [List.getElem?_cons_zero, Option.some.injEq] at hs
          subst hs
          simp only [Nat.add_zero] at hc
          rw [hstep] at hc
          injection hc with hu _
          left; simp [hu]
        | succ j =>
          right
          have e1 : i + 1 + j = i + (j + 1) := by omega
          exact ⟨j, s, s2, by simpa using hs, by rw [e1]; exact hc⟩
    · intro hany hno
      apply h3
      · have hu : u = false := by
          cases u with
          | false => rfl
          | true => exact absurd hstep (by simpa using hno 0 s0 s1 (by simp))
        simp [hany, hu]
      · intro j s s2 hs
        have e1 : i + 1 + j = i + (j + 1) := by omega
        rw [e1]
        exact hno (j + 1) s s2 (by simpa using hs)

theorem grabLoop_first_stop (env : Nat → FrameEnv) (i : Nat) (any : Bool)
    (pre : List GrabbedScreen) (s : GrabbedScreen) (post : List GrabbedScreen)
    (hpre : ∀ k sk, pre[k]? = some sk → ∃ u s1, grabStep (env (i + k)) sk = .cont u s1)
    (r : GrabResult) (lost : Bool) (s1 : GrabbedScreen)
    (hstop : grabStep (env (i + pre.length)) s = .stop r lost s1) :
    (grabLoop env i any (pre ++ s :: post)).ret = r
    ∧ (grabLoop env i any (pre ++ s :: post)).lost = lost := by
  induction pre generalizing i any with
  | nil =>
    simp only [List.length_nil, Nat.add_zero] at hstop
    simp [grabLoop, hstop]
  | cons p rest ih =>
    obtain ⟨u, p1, hp⟩ := hpre 0 p (by simp)
    simp only [Nat.add_zero] at hp
    have e1 : i + (p :: rest).length = i + 1 + rest.length := by simp; omega
    rw [e1] at hstop
    have := ih (i + 1) (any || u)
      (fun k sk hk => by
        have e2 : i + 1 + k = i + (k + 1) := by omega
        rw [e2]
        exact hpre (k + 1) sk (by simpa using hk))
      hstop
    simpa [grabLoop, hp] using this

theorem grabStep_timeout_screen (fe : FrameEnv) (s : GrabbedScreen)
    (h : fe.acquireNextFrame = DXGI_ERROR_WAIT_TIMEOUT) : (grabStep fe s).screen = s := by
  unfold grabStep
  cases hd : s.associatedData with
  | none => rfl
  | some d =>
    simp only [h, if_true]
    split_ifs <;> rfl

theorem grabStep_timeout_noBuffer (fe : FrameEnv) (s : GrabbedScreen)
    (h : fe.acquireNextFrame = DXGI_ERROR_WAIT_TIMEOUT)
    (hd : s.associatedData.isSome = true) (hb : s.imgData = none) :
    grabStep fe s = .stop .GrabResultFrameNotReady false s := by
  unfold grabStep
  obtain ⟨d, hd⟩ := Option.isSome_iff_exists.1 hd
  simp [hd, h, hb]

theorem grabStep_timeout_buffer (fe : FrameEnv) (s : GrabbedScreen)
    (h : fe.acquireNextFrame = DXGI_ERROR_WAIT_TIMEOUT)
    (hd : s.associatedData ≠ none) (hb : s.imgData ≠ none) :
    grabStep fe s = .cont false s := by
  unfold grabStep
  obtain ⟨d, hd⟩ := Option.ne_none_iff_exists'.1 hd
  obtain ⟨b, hb⟩ := Option.ne_none_iff_exists'.1 hb
  simp [hd, h, hb]

theorem grabStep_lost (fe : FrameEnv) (s : GrabbedScreen)
    (h : fe.acquireNextFrame = DXGI_ERROR_ACCESS_LOST
      ∨ fe.acquireNextFrame = DXGI_ERROR_INVALID_CALL)
    (hd : s.associatedData ≠ none) :
    grabStep fe s = .stop .GrabResultFrameNotReady true s := by
  unfold grabStep
  obtain ⟨d, hd⟩ := Option.ne_none_iff_exists'.1 hd
  have hne : fe.acquireNextFrame ≠ DXGI_ERROR_WAIT_TIMEOUT := by
    rcases h with h | h <;> rw [h] <;> decide
  simp [hd, hne, h]

theorem grabFrame_kept (fe : FrameEnv) (s : GrabbedScreen) (d : DDuplScreenData)
    (hd : s.associatedData = some d) :
    (grabFrame fe s d).screen.screenInfo = s.screenInfo
    ∧ (grabFrame fe s d).screen.rotation = s.rotation
    ∧ sessionOf (grabFrame fe s d).screen = sessionOf s := by
  unfold grabFrame
  dsimp only
  split_ifs <;> simp [Step.screen, sessionOf, hd]

theorem grabStep_kept (fe : FrameEnv) (s : GrabbedScreen) :
    (grabStep fe s).screen.screenInfo = s.screenInfo
    ∧ (grabStep fe s).screen.rotation = s.rotation
    ∧ sessionOf (grabStep fe s).screen = sessionOf s := by
  unfold grabStep
  cases hd : s.associatedData with
  | none => simp [Step.screen]
  | some d =>
    dsimp only
    split_ifs
    · simp [Step.screen]
    · simp [Step.screen]
    · simp [Step.screen]
    · simp [Step.screen]
    · exact grabFrame_kept fe s d hd

theorem grabFrame_refreshed (fe : FrameEnv) (s s1 : GrabbedScreen) (d : DDuplScreenData)
    (h : grabFrame fe s d = .cont true s1) :
    dimensionMismatch s fe = false
    ∧ s1.scale = 1 / 8
    ∧ s1.bytesPerRow = fe.mapped.Pitch
    ∧ s1.imgData = fe.mapped.pBits
    ∧ s1.imgDataSize = ((fe.Height >>> 3) * fe.mapped.Pitch) % 4294967296 := by
  unfold grabFrame at h
  dsimp only at h
  split_ifs at h with h1 h2 h3 h4 h5 h6 h7 h8 h9
  · cases h
  · cases h
  · injection h with _ hs
    subst hs
    refine ⟨by simpa using h3, ?_, rfl, rfl, rfl⟩
    simp [DownscaleMipLevel]
    norm_num

theorem grabStep_refreshed (fe : FrameEnv) (s s1 : GrabbedScreen)
    (h : grabStep fe s = .cont true s1) :
    dimensionMismatch s fe = false
    ∧ s1.scale = 1 / 8
    ∧ s1.bytesPerRow = fe.mapped.Pitch
    ∧ s1.imgData = fe.mapped.pBits
    ∧ s1.imgDataSize = ((fe.Height >>> 3) * fe.mapped.Pitch) % 4294967296 := by
  unfold grabStep at h
  cases hd : s.associatedData with
  | none => rw [hd] at h; cases h
  | some d =>
    rw [hd] at h
    dsimp only at h
    split_ifs at h
    · cases h
    · exact grabFrame_refreshed fe s s1 d h

theorem rows_of_dimension (s : GrabbedScreen) (fe : FrameEnv)
    (h : dimensionMismatch s fe = false) :
    fe.Height = if s.rotation % 2 = 0 then s.screenInfo.rect.height
      else s.screenInfo.rect.width := by
  unfold dimensionMismatch at h
  by_cases hr : s.rotation % 2 = 0
  · simp [hr] at h
    simp [hr, h.2]
  · have h1 : s.rotation % 2 = 1 := by omega
    simp [h1] at h
    simp [h1, h.1]

theorem grabStep_delivered (fe : FrameEnv) (s : GrabbedScreen)
    (hd : s.associatedData ≠ none) (h : FrameDelivered fe s) :
    ∃ s1, grabStep fe s = .cont true s1 := by
  obtain ⟨h0, hp, hq, hdim, hfmt, hst, hsc, hv, hsu, hm⟩ := h
  obtain ⟨d, hd⟩ := Option.ne_none_iff_exists'.1 hd
  have nf : ∀ hr : HRESULT, 0 ≤ hr → ¬ FAILED hr = true := fun hr h0 h =>
    absurd ((failed_iff hr).1 h) (not_lt.2 h0)
  have h1 : fe.acquireNextFrame ≠ DXGI_ERROR_WAIT_TIMEOUT := by
    intro h; rw [h] at h0; exact absurd h0 (by decide)
  have h2 : ¬ (fe.acquireNextFrame = DXGI_ERROR_ACCESS_LOST
      ∨ fe.acquireNextFrame = DXGI_ERROR_INVALID_CALL) := by
    rintro (h | h) <;> rw [h] at h0 <;> exact absurd h0 (by decide)
  have hdim2 : ¬ dimensionMismatch s fe = true := by rw [hdim]; decide
  have hsc2 : ¬ (DownscaleMipLevel > 0 ∧ FAILED fe.createScaled = true) :=
    fun h => nf _ hsc h.2
  have hv2 : ¬ (DownscaleMipLevel > 0 ∧ FAILED fe.createShaderResourceView = true) :=
    fun h => nf _ hv h.2
  unfold grabStep
  rw [hd]
  dsimp only
  rw [if_neg h1, if_neg h2, if_neg (nf _ h0)]
  unfold grabFrame
  dsimp only
  rw [if_neg hp, if_neg (nf _ hq), if_neg hdim2, if_neg hfmt, if_neg (nf _ hst), if_neg hsc2,
    if_neg hv2, if_neg (nf _ hsu), if_neg (nf _ hm)]
  exact ⟨_, rfl⟩

/-! ## Lemmas on the black-buffer fallback -/

theorem blackBufferStep_ok (p : Option Nat) (s s1 : GrabbedScreen)
    (h : blackBufferStep p s = some (true, s1)) :
    s1.screenInfo = s.screenInfo
    ∧ s1.rotation = s.rotation
    ∧ s1.scale = 1 / 8
    ∧ s1.bytesPerRow = s.screenInfo.rect.width >>> 3
    ∧ s1.imgDataSize = (s.screenInfo.rect.height >>> 3) * (s.screenInfo.rect.width >>> 3)
    ∧ ∃ addr, s1.imgData = some ⟨addr, List.replicate
        ((s.screenInfo.rect.height >>> 3) * (s.screenInfo.rect.width >>> 3)) 0⟩ := by
  unfold blackBufferStep at h
  cases hd : s.associatedData with
  | none => rw [hd] at h; cases h
  | some d =>
    rw [hd] at h
    dsimp only at h
    split at h
    · cases h
    · rename_i addr _
      injection h with h
      injection h with _ h
      subst h
      have h8 : (1 : ℚ) / (2 ^ DownscaleMipLevel : ℚ) = 1 / 8 := by
        simp [DownscaleMipLevel]; norm_num
      split_ifs <;> exact ⟨rfl, rfl, h8, rfl, rfl, addr, rfl⟩

theorem blackBufferStep_isSome (p : Option Nat) (s : GrabbedScreen)
    (hd : s.associatedData ≠ none) : (blackBufferStep p s).isSome = true := by
  unfold blackBufferStep
  obtain ⟨d, hd⟩ := Option.ne_none_iff_exists'.1 hd
  rw [hd]
  dsimp only
  split <;> rfl

theorem blackBufferLoop_isSome (alloc : Nat → Option Nat) (i : Nat)
    (l : List GrabbedScreen) (hd : ∀ s ∈ l, s.associatedData ≠ none) :
    (blackBufferLoop alloc i l).isSome = true := by
  induction l generalizing i with
  | nil => rfl
  | cons s rest ih =>
    have h1 := blackBufferStep_isSome (alloc i) s (hd s (List.mem_cons_self _ _))
    have h2 := ih (i + 1) (fun s1 h => hd s1 (List.mem_cons_of_mem _ h))
    unfold blackBufferLoop
    obtain ⟨⟨b, s1⟩, hs⟩ := Option.isSome_iff_exists.1 h1
    obtain ⟨⟨r, l1⟩, hl⟩ := Option.isSome_iff_exists.1 h2
    rw [hs]
    cases b <;> simp [hl]

theorem blackBufferLoop_ok (alloc : Nat → Option Nat) (i : Nat) (l l1 : List GrabbedScreen)
    (h : blackBufferLoop alloc i l = some (.GrabResultOk, l1)) :
    l1.length = l.length
    ∧ ∀ j s, l[j]? = some s →
        ∃ s1, l1[j]? = some s1 ∧ blackBufferStep (alloc (i + j)) s = some (true, s1) := by
  induction l generalizing i l1 with
  | nil =>
    simp only [blackBufferLoop, Option.some.injEq, Prod.mk.injEq, true_and] at h
    subst h
    exact ⟨rfl, fun j s hs => by simp at hs⟩
  | cons s0 rest ih =>
    unfold blackBufferLoop at h
    cases hs : blackBufferStep (alloc i) s0 with
    | none => rw [hs] at h; cases h
    | some bs =>
      obtain ⟨b, s1⟩ := bs
      rw [hs] at h
      cases b with
      | false => simp at h
      | true =>
        dsimp only at h
        cases hl : blackBufferLoop alloc (i + 1) rest with
        | none => rw [hl] at h; cases h
        | some rl =>
          obtain ⟨r, l2⟩ := rl
          rw [hl] at h
          simp only [Option.some.injEq, Prod.mk.injEq] at h
          obtain ⟨hr, hl1⟩ := h
          subst hr hl1
          obtain ⟨hlen, hall⟩ := ih (i + 1) l2 hl
          refine ⟨by simp [hlen], ?_⟩
          intro j s hj
          cases j with
          | zero =>
            simp only [List.getElem?_cons_zero, Option.some.injEq] at hj
            subst hj
            exact ⟨s1, by simp, by simpa using hs⟩
          | succ j =>
            have e1 : i + 1 + j = i + (j + 1) := by omega
            obtain ⟨s2, h2, h3⟩ := hall j s (by simpa using hj)
            exact ⟨s2, by simpa using h2, by rw [← e1]; exact h3⟩

theorem returnBlackBuffer_ok (alloc : Nat → Option Nat) (e : Engine) (out : GrabOut)
    (h : returnBlackBuffer alloc e = some out) (hret : out.ret = .GrabResultOk) :
    out.engine.m_state = e.m_state
    ∧ out.engine._screensWithWidgets.length = e._screensWithWidgets.length
    ∧ ∀ j s, e._screensWithWidgets[j]? = some s →
        ∃ s1, out.engine._screensWithWidgets[j]? = some s1
          ∧ blackBufferStep (alloc j) s = some (true, s1) := by
  unfold returnBlackBuffer at h
  cases hl : blackBufferLoop alloc 0 e._screensWithWidgets with
  | none => rw [hl] at h; cases h
  | some rl =>
    obtain ⟨r, l1⟩ := rl
    rw [hl] at h
    simp only [Option.some.injEq] at h
    subst h
    simp only at hret
    subst hret
    obtain ⟨h1, h2⟩ := blackBufferLoop_ok alloc 0 _ l1 hl
    refine ⟨rfl, h1, ?_⟩
    intro j s hs
    simpa using h2 j s hs

theorem notify_flag (changes : List SessionStatus) (e : Engine) :
    (notify changes e).m_isSessionLocked = (lastLockChange changes).getD e.m_isSessionLocked
    ∧ (notify changes e).m_state = e.m_state
    ∧ (notify changes e)._screensWithWidgets = e._screensWithWidgets := by
  induction changes generalizing e with
  | nil => simp [notify, lastLockChange]
  | cons c rest ih =>
    have h := ih (onSessionChange c e)
    have hn : notify (c :: rest) e = notify rest (onSessionChange c e) := rfl
    rw [hn]
    refine ⟨?_, ?_, ?_⟩
    · rw [h.1]
      simp only [lastLockChange]
      cases hl : lastLockChange rest with
      | some b => simp
      | none => cases c <;> simp [onSessionChange, lockChange]
    · rw [h.2.1]; cases c <;> simp [onSessionChange]
    · rw [h.2.2]; cases c <;> simp [onSessionChange]

theorem blackBufferStep_delivers (addr : Nat) (s : GrabbedScreen)
    (hd : s.associatedData ≠ none) :
    ∃ s1, blackBufferStep (some addr) s = some (true, s1) := by
  obtain ⟨d, hd⟩ := Option.ne_none_iff_exists'.1 hd
  unfold blackBufferStep
  rw [hd]
  dsimp only
  split
  · rename_i hptr
    split at hptr
    · cases hptr
    · split_ifs at hptr
  · exact ⟨_, rfl⟩

theorem blackBufferLoop_delivers (alloc : Nat → Option Nat) (i : Nat)
    (l : List GrabbedScreen) (hd : ∀ s ∈ l, s.associatedData ≠ none)
    (ha : ∀ k, k < l.length → alloc (i + k) ≠ none) :
    ∃ l1, blackBufferLoop alloc i l = some (.GrabResultOk, l1) := by
  induction l generalizing i with
  | nil => exact ⟨[], rfl⟩
  | cons s rest ih =>
    obtain ⟨addr, haddr⟩ := Option.ne_none_iff_exists'.1 (ha 0 (by simp))
    simp only [Nat.add_zero] at haddr
    obtain ⟨s1, hs1⟩ := blackBufferStep_delivers addr s (hd s (List.mem_cons_self _ _))
    obtain ⟨l1, hl1⟩ := ih (i + 1) (fun s2 h => hd s2 (List.mem_cons_of_mem _ h))
      (fun k hk => by
        have e1 : i + 1 + k = i + (k + 1) := by omega
        rw [e1]
        exact ha (k + 1) (by simp; omega))
    refine ⟨s1 :: l1, ?_⟩
    unfold blackBufferLoop
    rw [haddr, hs1]
    dsimp only
    rw [hl1]

theorem returnBlackBuffer_delivers (alloc : Nat → Option Nat) (e : Engine)
    (hd : ∀ s ∈ e._screensWithWidgets, s.associatedData ≠ none)
    (ha : ∀ k, k < e._screensWithWidgets.length → alloc k ≠ none) :
    ∃ out, returnBlackBuffer alloc e = some out ∧ out.ret = .GrabResultOk := by
  obtain ⟨l1, hl1⟩ := blackBufferLoop_delivers alloc 0 e._screensWithWidgets hd
    (fun k hk => by rw [Nat.zero_add]; exact ha k hk)
  unfold returnBlackBuffer
  rw [hl1]
  exact ⟨_, rfl, rfl⟩

/-! ## The frame pipeline and the fallback (C6, C8, C9, C10) -/

/-- C6 (as stated, refuted): a 16 by 8 screen with rotation code 1, whose acquired
texture is the flipped 8 by 16 one, mapped with pitch 4.  The real pipeline succeeds
and leaves `imgDataSize = 8` with `bytesPerRow = 4`, that is 2 rows, not
`(8 >> 3) * 4 = 4`; the fallback leaves 1 row (`imgDataSize = 2`, `bytesPerRow = 2`)
for the same session. -/
theorem C6_counterexample :
    (grabScreens (fun _ => sampleFrame 8 16 4) (fun _ => some 8192)
        (sampleGrabber .Allocated [sampleSession 7 16 8 1 none])).map
      (fun out => (out.ret,
        out.engine._screensWithWidgets.map (fun g => (g.imgDataSize, g.bytesPerRow))))
      = some (.GrabResultOk, [(8, 4)])
    ∧ 8 ≠ (8 >>> 3) * 4
    ∧ (returnBlackBuffer (fun _ => some 8192)
        (sampleGrabber .AccessDeniedDuplication [sampleSession 7 16 8 1 none])).map
      (fun out => (out.ret,
        out.engine._screensWithWidgets.map (fun g => (g.imgDataSize, g.bytesPerRow))))
      = some (.GrabResultOk, [(2, 2)]) := by
  refine ⟨?_, ?_, ?_⟩ <;> decide

/-- C6 (amended): for the session at position `j`, with screen rectangle of width W
and height H and rotation code `r`; the row count of the real pipeline is `H >> 3` when
`r` is even and `W >> 3` when `r` is odd (the texture is in the unrotated orientation of
the panel).  In the state Allocated, when the acquisition for the session is made and
the platform delivers a new frame, `grabScreens` refreshes the session: it has scale
1/8, stride equal to the mapped pitch, and `imgDataSize` equal to the 32-bit product of
the row count and the stride, which is their exact product when that is below `2 ^ 32`;
and every refresh by the real pipeline has this shape.  When every session has its data
and the allocator delivers, `returnBlackBuffer` returns Ok; and whenever it returns Ok
the session has scale 1/8, `bytesPerRow` equal to `W >> 3` and `imgDataSize` equal to
`(H >> 3)` times its `bytesPerRow`, whatever the rotation.  So both paths give `H >> 3`
rows for the even rotation codes 0 and 2. -/
theorem C6_buffer_shape (env : Nat → FrameEnv) (alloc : Nat → Option Nat) (e : Engine)
    (j : Nat) (s : GrabbedScreen) (hs : e._screensWithWidgets[j]? = some s) :
    (e.m_state = .Allocated → s.associatedData ≠ none →
      (j, (env j).acquireNextFrame) ∈ (grabAllocated env e).acquired →
      FrameDelivered (env j) s →
      grabScreens env alloc e = some (grabAllocated env e)
      ∧ ∃ s1, grabStep (env j) s = .cont true s1
        ∧ (grabAllocated env e).engine._screensWithWidgets[j]? = some s1
        ∧ s1.scale = 1 / 8
        ∧ s1.bytesPerRow = (env j).mapped.Pitch
        ∧ s1.imgDataSize = (pipelineRows s * s1.bytesPerRow) % 4294967296
        ∧ (pipelineRows s * s1.bytesPerRow < 4294967296 →
            s1.imgDataSize = pipelineRows s * s1.bytesPerRow))
    ∧ (e.m_state = .Allocated → ∀ s1,
      (j, (env j).acquireNextFrame) ∈ (grabAllocated env e).acquired →
      grabStep (env j) s = .cont true s1 →
      (grabAllocated env e).engine._screensWithWidgets[j]? = some s1
      ∧ s1.scale = 1 / 8
      ∧ s1.imgDataSize = (pipelineRows s * s1.bytesPerRow) % 4294967296
      ∧ (pipelineRows s * s1.bytesPerRow < 4294967296 →
          s1.imgDataSize = pipelineRows s * s1.bytesPerRow))
    ∧ ((∀ g ∈ e._screensWithWidgets, g.associatedData ≠ none) →
      (∀ k, k < e._screensWithWidgets.length → alloc k ≠ none) →
      ∃ out s1, returnBlackBuffer alloc e = some out ∧ out.ret = .GrabResultOk
        ∧ out.engine._screensWithWidgets[j]? = some s1
        ∧ s1.scale = 1 / 8
        ∧ s1.bytesPerRow = s.screenInfo.rect.width >>> 3
        ∧ s1.imgDataSize = (s.screenInfo.rect.height >>> 3) * s1.bytesPerRow)
    ∧ (∀ out, returnBlackBuffer alloc e = some out → out.ret = .GrabResultOk →
      ∃ s1, out.engine._screensWithWidgets[j]? = some s1
        ∧ s1.scale = 1 / 8
        ∧ s1.bytesPerRow = s.screenInfo.rect.width >>> 3
        ∧ s1.imgDataSize = (s.screenInfo.rect.height >>> 3) * s1.bytesPerRow) := by
  have hreal : e.m_state = .Allocated → ∀ s1,
      (j, (env j).acquireNextFrame) ∈ (grabAllocated env e).acquired →
      grabStep (env j) s = .cont true s1 →
      (grabAllocated env e).engine._screensWithWidgets[j]? = some s1
      ∧ s1.scale = 1 / 8
      ∧ s1.bytesPerRow = (env j).mapped.Pitch
      ∧ s1.imgDataSize = (pipelineRows s * s1.bytesPerRow) % 4294967296
      ∧ (pipelineRows s * s1.bytesPerRow < 4294967296 →
          s1.imgDataSize = pipelineRows s * s1.bytesPerRow) := by
    intro hstate s1 hmem hstep
    have hacq := grabLoop_acquired env 0 false e._screensWithWidgets j s
      (env j).acquireNextFrame hs (by simpa [grabAllocated] using hmem)
    simp only [Nat.zero_add] at hacq
    obtain ⟨hmis, hscale, hrow, _, hsize⟩ := grabStep_refreshed (env j) s s1 hstep
    have hsz : s1.imgDataSize = (pipelineRows s * s1.bytesPerRow) % 4294967296 := by
      rw [hsize, hrow, rows_of_dimension s (env j) hmis]
      rfl
    refine ⟨?_, hscale, hrow, hsz, ?_⟩
    · have := hacq.1
      rw [hstep] at this
      simpa [grabAllocated, Step.screen] using this
    · intro hlt
      rw [hsz, Nat.mod_eq_of_lt hlt]
  have hfall : ∀ out, returnBlackBuffer alloc e = some out → out.ret = .GrabResultOk →
      ∃ s1, out.engine._screensWithWidgets[j]? = some s1
        ∧ s1.scale = 1 / 8
        ∧ s1.bytesPerRow = s.screenInfo.rect.width >>> 3
        ∧ s1.imgDataSize = (s.screenInfo.rect.height >>> 3) * s1.bytesPerRow := by
    intro out hout hret
    obtain ⟨_, _, hall⟩ := returnBlackBuffer_ok alloc e out hout hret
    obtain ⟨s1, h1, h2⟩ := hall j s hs
    obtain ⟨_, _, hscale, hrow, hsize, _⟩ := blackBufferStep_ok _ s s1 h2
    exact ⟨s1, h1, hscale, hrow, by rw [hsize, hrow]⟩
  refine ⟨?_, ?_, ?_, hfall⟩
  · intro hstate hd hmem hdel
    obtain ⟨s1, hstep⟩ := grabStep_delivered (env j) s hd hdel
    obtain ⟨k1, k2, k3, k4, k5⟩ := hreal hstate s1 hmem hstep
    exact ⟨by simp [grabScreens, hstate], s1, hstep, k1, k2, k3, k4, k5⟩
  · intro hstate s1 hmem hstep
    obtain ⟨k1, k2, _, k4, k5⟩ := hreal hstate s1 hmem hstep
    exact ⟨k1, k2, k4, k5⟩
  · intro hd ha
    obtain ⟨out, hout, hret⟩ := returnBlackBuffer_delivers alloc e hd ha
    obtain ⟨s1, k⟩ := hfall out hout hret
    exact ⟨out, s1, hout, hret, k⟩

/-- Witness for C6: a 16 by 8 screen with rotation code 1 and the flipped 8 by 16
texture mapped with pitch 4.  The real pipeline leaves 2 rows of 4 bytes, the fallback
1 row of 2 bytes. -/
theorem C6_buffer_shape_witness :
    (∃ s1, (grabAllocated (fun _ => sampleFrame 8 16 4)
        (sampleGrabber .Allocated
          [sampleSession 7 16 8 1 none])).engine._screensWithWidgets[0]? = some s1
      ∧ s1.scale = 1 / 8 ∧ s1.bytesPerRow = 4 ∧ s1.imgDataSize = 8)
    ∧ (∃ out s1, returnBlackBuffer (fun _ => some 8192)
        (sampleGrabber .AccessDeniedDuplication [sampleSession 7 16 8 1 none]) = some out
      ∧ out.ret = .GrabResultOk
      ∧ out.engine._screensWithWidgets[0]? = some s1
      ∧ s1.scale = 1 / 8 ∧ s1.bytesPerRow = 2 ∧ s1.imgDataSize = 2) := by
  constructor
  · obtain ⟨_, s1, _, h1, h2, h3, h4, _⟩ :=
      (C6_buffer_shape (fun _ => sampleFrame 8 16 4) (fun _ => some 8192)
        (sampleGrabber .Allocated [sampleSession 7 16 8 1 none]) 0
        (sampleSession 7 16 8 1 none) rfl).1 rfl (by decide) (by decide)
        (by simp [FrameDelivered, sampleFrame, sampleSession, newGrabbedScreen, S_OK,
              dimensionMismatch, mapDXGIFormatToBufferFormat])
    have h3 : s1.bytesPerRow = 4 := h3
    refine ⟨s1, h1, h2, h3, ?_⟩
    rw [h4, h3]
    decide
  · obtain ⟨out, s1, h1, h2, h3, h4, h5, h6⟩ :=
      (C6_buffer_shape (fun _ => sampleFrame 8 16 4) (fun _ => some 8192)
        (sampleGrabber .AccessDeniedDuplication [sampleSession 7 16 8 1 none]) 0
        (sampleSession 7 16 8 1 none) rfl).2.2.1 (by decide) (by decide)
    have h5 : s1.bytesPerRow = 2 := h5
    refine ⟨out, s1, h1, h2, h3, h4, h5, ?_⟩
    rw [h6, h5]
    decide

/-- C8: in the state Allocated, for a session at position `j` whose frame acquisition
reports a timeout.  If the session has no image buffer and the acquisition was made,
`grabScreens` returns FrameNotReady.  If it has a buffer, the session is left exactly as
it was; and if moreover every other session lets the cycle go on (none hits an error,
an access loss or a timeout without buffer), the state stays Allocated and the cycle
returns Ok when some other session produced an update and FrameNotReady when none
did. -/
theorem C8_timeout (env : Nat → FrameEnv) (alloc : Nat → Option Nat) (e : Engine)
    (j : Nat) (s : GrabbedScreen) (hstate : e.m_state = .Allocated)
    (hs : e._screensWithWidgets[j]? = some s)
    (ht : (env j).acquireNextFrame = DXGI_ERROR_WAIT_TIMEOUT) :
    grabScreens env alloc e = some (grabAllocated env e)
    ∧ (s.imgData = none →
        (j, DXGI_ERROR_WAIT_TIMEOUT) ∈ (grabAllocated env e).acquired →
        (grabAllocated env e).ret = .GrabResultFrameNotReady)
    ∧ (s.imgData ≠ none →
        (grabAllocated env e).engine._screensWithWidgets[j]? = some s)
    ∧ (s.imgData ≠ none → s.associatedData ≠ none →
        (∀ k sk, k ≠ j → e._screensWithWidgets[k]? = some sk →
          ∃ u sk1, grabStep (env k) sk = .cont u sk1) →
        (grabAllocated env e).engine.m_state = .Allocated
        ∧ ((∃ k sk sk1, k ≠ j ∧ e._screensWithWidgets[k]? = some sk
              ∧ grabStep (env k) sk = .cont true sk1) →
            (grabAllocated env e).ret = .GrabResultOk)
        ∧ ((∀ k sk sk1, k ≠ j → e._screensWithWidgets[k]? = some sk →
              grabStep (env k) sk ≠ .cont true sk1) →
            (grabAllocated env e).ret = .GrabResultFrameNotReady)) := by
  refine ⟨by simp [grabScreens, hstate], ?_, ?_, ?_⟩
  · intro hb hmem
    have hacq := grabLoop_acquired env 0 false e._screensWithWidgets j s
      DXGI_ERROR_WAIT_TIMEOUT hs (by simpa [grabAllocated] using hmem)
    simp only [Nat.zero_add] at hacq
    have hstep := grabStep_timeout_noBuffer (env j) s ht hacq.2.2.2 hb
    exact (hacq.2.1 _ _ _ hstep).1
  · intro _
    have := grabLoop_getElem env 0 false e._screensWithWidgets j s hs
    simp only [Nat.zero_add, grabStep_timeout_screen (env j) s ht, or_self] at this
    simpa [grabAllocated] using this
  · intro hb hd hothers
    have hall : ∀ k sk, e._screensWithWidgets[k]? = some sk →
        ∃ u sk1, grabStep (env (0 + k)) sk = .cont u sk1 := by
      intro k sk hk
      rw [Nat.zero_add]
      by_cases hkj : k = j
      · subst hkj
        rw [hs] at hk
        injection hk with hk
        subst hk
        exact ⟨false, _, grabStep_timeout_buffer (env k) s ht hd hb⟩
      · exact hothers k sk hkj hk
    obtain ⟨hlost, hok, hnot⟩ := grabLoop_all_cont env 0 false e._screensWithWidgets hall
    refine ⟨by simp [grabAllocated, hlost, hstate], ?_, ?_⟩
    · rintro ⟨k, sk, sk1, _, hk, hstep⟩
      exact hok (Or.inr ⟨k, sk, sk1, hk, by rw [Nat.zero_add]; exact hstep⟩)
    · intro hnone
      apply hnot rfl
      intro k sk sk1 hk
      rw [Nat.zero_add]
      by_cases hkj : k = j
      · subst hkj
        rw [hs] at hk
        injection hk with hk
        subst hk
        rw [grabStep_timeout_buffer (env k) s ht hd hb]
        simp
      · exact hnone k sk sk1 hkj hk

/-- Witness for C8: the first session times out with a buffer, the second is
refreshed, and the cycle returns Ok. -/
theorem C8_timeout_witness :
    (grabAllocated
      (fun k => if k = 0 then sampleFrameResult DXGI_ERROR_WAIT_TIMEOUT
        else sampleFrame 1920 1080 960)
      (sampleGrabber .Allocated
        [sampleSession 7 1920 1080 0 (some ⟨64, [0]⟩),
         sampleSession 8 1920 1080 0 none])).ret = .GrabResultOk :=
  ((C8_timeout
      (fun k => if k = 0 then sampleFrameResult DXGI_ERROR_WAIT_TIMEOUT
        else sampleFrame 1920 1080 960)
      (fun _ => none)
      (sampleGrabber .Allocated
        [sampleSession 7 1920 1080 0 (some ⟨64, [0]⟩),
         sampleSession 8 1920 1080 0 none])
      0 (sampleSession 7 1920 1080 0 (some ⟨64, [0]⟩)) rfl rfl rfl).2.2.2
    (by decide) (by decide)
    (by
      intro k sk hk hsk
      match k, hk, hsk with
      | 1, _, hsk =>
        simp only [sampleGrabber, List.getElem?_cons_succ, List.getElem?_cons_zero,
          Option.some.injEq] at hsk
        subst hsk
        exact ⟨true, _, rfl⟩
      | k + 2, _, hsk => simp [sampleGrabber] at hsk)).2.1
    ⟨1, sampleSession 8 1920 1080 0 none, _, by decide, rfl, rfl⟩

/-- C9: in the state Allocated, if every session before the one at position
`pre.length` lets the cycle go on and the frame acquisition of that session reports
access-lost or invalid-call, then `grabScreens` returns FrameNotReady, the state becomes
LostAccess, the session set keeps its entries (same length, same ScreenInfo and same
capture session at every position), and `isReallocationNeeded` is true afterwards for
every requested screen list and tick. -/
theorem C9_access_lost (env : Nat → FrameEnv) (alloc : Nat → Option Nat) (e : Engine)
    (pre : List GrabbedScreen) (s : GrabbedScreen) (post : List GrabbedScreen)
    (hstate : e.m_state = .Allocated)
    (hscreens : e._screensWithWidgets = pre ++ s :: post)
    (hpre : ∀ k sk, pre[k]? = some sk → ∃ u sk1, grabStep (env k) sk = .cont u sk1)
    (hdata : s.associatedData ≠ none)
    (hlost : (env pre.length).acquireNextFrame = DXGI_ERROR_ACCESS_LOST
      ∨ (env pre.length).acquireNextFrame = DXGI_ERROR_INVALID_CALL) :
    ∃ out, grabScreens env alloc e = some out
      ∧ out.ret = .GrabResultFrameNotReady
      ∧ out.engine.m_state = .LostAccess
      ∧ out.engine._screensWithWidgets.length = e._screensWithWidgets.length
      ∧ out.engine._screensWithWidgets.map (fun g => g.screenInfo)
          = e._screensWithWidgets.map (fun g => g.screenInfo)
      ∧ out.engine._screensWithWidgets.map sessionOf = e._screensWithWidgets.map sessionOf
      ∧ ∀ (base : List ScreenInfo → List GrabbedScreen → Bool) (gs : List ScreenInfo)
          (tick : Nat), isReallocationNeeded base gs tick out.engine = true := by
  have hstop := grabLoop_first_stop env 0 false pre s post
    (fun k sk hk => by rw [Nat.zero_add]; exact hpre k sk hk)
    .GrabResultFrameNotReady true s
    (by rw [Nat.zero_add]; exact grabStep_lost _ s hlost hdata)
  rw [← hscreens] at hstop
  have hinfo := grabLoop_map env (fun g => g.screenInfo)
    (fun fe g => (grabStep_kept fe g).1) 0 false e._screensWithWidgets
  have hsess := grabLoop_map env sessionOf
    (fun fe g => (grabStep_kept fe g).2.2) 0 false e._screensWithWidgets
  have hst : (grabAllocated env e).engine.m_state = .LostAccess := by
    simp [grabAllocated, hstop.2]
  refine ⟨grabAllocated env e, by simp [grabScreens, hstate], hstop.1, hst, ?_, hinfo,
    hsess, ?_⟩
  · have := congrArg List.length hinfo
    simpa using this
  · intro base gs tick
    simp [isReallocationNeeded, hst]

/-- Witness for C9: the first session is refreshed, the second loses
access. -/
theorem C9_access_lost_witness :
    ∃ out, grabScreens
        (fun k => if k = 0 then sampleFrame 1920 1080 960
          else sampleFrameResult DXGI_ERROR_ACCESS_LOST)
        (fun _ => none)
        (sampleGrabber .Allocated
          [sampleSession 7 1920 1080 0 none, sampleSession 8 1920 1080 0 none]) = some out
      ∧ out.ret = .GrabResultFrameNotReady ∧ out.engine.m_state = .LostAccess := by
  obtain ⟨out, h1, h2, h3, _⟩ := C9_access_lost
    (fun k => if k = 0 then sampleFrame 1920 1080 960
      else sampleFrameResult DXGI_ERROR_ACCESS_LOST)
    (fun _ => none)
    (sampleGrabber .Allocated
      [sampleSession 7 1920 1080 0 none, sampleSession 8 1920 1080 0 none])
    [sampleSession 7 1920 1080 0 none] (sampleSession 8 1920 1080 0 none) [] rfl rfl
    (by
      intro k sk hk
      match k, hk with
      | 0, hk =>
        simp only [List.getElem?_cons_zero, Option.some.injEq] at hk
        subst hk
        exact ⟨true, _, rfl⟩
      | k + 1, hk => simp at hk)
    (by decide) (Or.inl rfl)
  exact ⟨out, h1, h2, h3⟩

/-- C10: let the engine be in the state AccessDeniedDesktop with the lock flag unset
before the notifications `changes` reach `onSessionChange`.  If the most recent
Locking/Unlocking notification was Locking, `grabScreens` returns FrameNotReady and
leaves the engine, hence every GrabbedScreen, unchanged.  Otherwise (no such
notification, or the most recent was Unlocking) `grabScreens` is the black-buffer
fallback, which yields a result when every session has its data, and returns Ok when
moreover the allocator delivers; when it returns Ok, every session holds a zero-filled
buffer of `(H >> 3) * (W >> 3)` bytes with stride `W >> 3` and scale 1/8.
Notifications other than Locking and Unlocking leave the engine as it is. -/
theorem C10_denied_desktop (changes : List SessionStatus) (e0 : Engine)
    (env : Nat → FrameEnv) (alloc : Nat → Option Nat)
    (hflag : e0.m_isSessionLocked = false)
    (hstate : e0.m_state = .AccessDeniedDesktop) :
    (lastLockChange changes = some true →
      grabScreens env alloc (notify changes e0)
        = some ⟨.GrabResultFrameNotReady, notify changes e0, []⟩)
    ∧ (lastLockChange changes ≠ some true →
      grabScreens env alloc (notify changes e0) = returnBlackBuffer alloc (notify changes e0)
      ∧ ((∀ s ∈ e0._screensWithWidgets, s.associatedData ≠ none) →
          (returnBlackBuffer alloc (notify changes e0)).isSome = true)
      ∧ ((∀ s ∈ e0._screensWithWidgets, s.associatedData ≠ none) →
          (∀ k, k < e0._screensWithWidgets.length → alloc k ≠ none) →
          ∃ out, grabScreens env alloc (notify changes e0) = some out
            ∧ out.ret = .GrabResultOk)
      ∧ ∀ out, returnBlackBuffer alloc (notify changes e0) = some out →
          out.ret = .GrabResultOk →
          out.engine._screensWithWidgets.length = e0._screensWithWidgets.length
          ∧ ∀ (j : Nat) (s : GrabbedScreen), e0._screensWithWidgets[j]? = some s →
              ∃ (s1 : GrabbedScreen) (addr : Nat),
                out.engine._screensWithWidgets[j]? = some s1
                ∧ s1.imgData = some ⟨addr, List.replicate
                    ((s.screenInfo.rect.height >>> 3) * (s.screenInfo.rect.width >>> 3)) 0⟩
                ∧ s1.imgDataSize
                    = (s.screenInfo.rect.height >>> 3) * (s.screenInfo.rect.width >>> 3)
                ∧ s1.bytesPerRow = s.screenInfo.rect.width >>> 3
                ∧ s1.scale = 1 / 8)
    ∧ (∀ (code : Nat) (e1 : Engine), onSessionChange (.other code) e1 = e1) := by
  obtain ⟨hf, hst, hsc⟩ := notify_flag changes e0
  rw [hflag] at hf
  rw [hstate] at hst
  refine ⟨?_, ?_, ?_⟩
  · intro hl
    have hlocked : (notify changes e0).m_isSessionLocked = true := by rw [hf, hl]; rfl
    simp [grabScreens, hst, hlocked]
  · intro hl
    have hunlocked : (notify changes e0).m_isSessionLocked = false := by
      rw [hf]
      cases hc : lastLockChange changes with
      | none => rfl
      | some b =>
        cases b with
        | false => rfl
        | true => exact absurd hc hl
    have hdispatch : grabScreens env alloc (notify changes e0)
        = returnBlackBuffer alloc (notify changes e0) := by
      simp [grabScreens, hst, hunlocked]
    refine ⟨hdispatch, ?_, ?_, ?_⟩
    · intro hd
      unfold returnBlackBuffer
      have := blackBufferLoop_isSome alloc 0 (notify changes e0)._screensWithWidgets
        (by rw [hsc]; exact hd)
      obtain ⟨⟨r, l⟩, hrl⟩ := Option.isSome_iff_exists.1 this
      rw [hrl]
      rfl
    · intro hd ha
      rw [hdispatch]
      exact returnBlackBuffer_delivers alloc (notify changes e0)
        (by rw [hsc]; exact hd) (by rw [hsc]; exact ha)
    · intro out hout hret
      obtain ⟨_, hlen, hall⟩ := returnBlackBuffer_ok alloc _ out hout hret
      rw [hsc] at hlen hall
      refine ⟨hlen, ?_⟩
      intro j s hs
      obtain ⟨s1, h1, h2⟩ := hall j s hs
      obtain ⟨_, _, hscale, hrow, hsize, addr, hbuf⟩ := blackBufferStep_ok _ s s1 h2
      exact ⟨s1, addr, h1, hbuf, hsize, hrow, hscale⟩
  · intro code e1
    simp [onSessionChange]

/-- Witness for C10: locked, then unlocked, then an unrelated notification; the
fallback runs, returns Ok and leaves the one 1920 by 1080 session with a zero-filled
buffer of 32400 bytes, stride 240 and scale 1/8.  After a Locking notification alone
the result is FrameNotReady with the engine unchanged. -/
theorem C10_denied_desktop_witness :
    (∃ out s1 addr,
      grabScreens (fun _ => sampleFrame 1920 1080 960) (fun _ => some 8192)
        (notify [.Locking, .Unlocking, .other 3]
          (sampleGrabber .AccessDeniedDesktop [sampleSession 7 1920 1080 0 none]))
        = some out
      ∧ out.ret = .GrabResultOk
      ∧ out.engine._screensWithWidgets[0]? = some s1
      ∧ s1.imgData = some ⟨addr, List.replicate 32400 0⟩
      ∧ s1.imgDataSize = 32400 ∧ s1.bytesPerRow = 240 ∧ s1.scale = 1 / 8)
    ∧ grabScreens (fun _ => sampleFrame 1920 1080 960) (fun _ => some 8192)
        (notify [.Locking]
          (sampleGrabber .AccessDeniedDesktop [sampleSession 7 1920 1080 0 none]))
      = some ⟨.GrabResultFrameNotReady,
          notify [.Locking]
            (sampleGrabber .AccessDeniedDesktop [sampleSession 7 1920 1080 0 none]), []⟩ := by
  have hC := (C10_denied_desktop [.Locking, .Unlocking, .other 3]
      (sampleGrabber .AccessDeniedDesktop [sampleSession 7 1920 1080 0 none])
      (fun _ => sampleFrame 1920 1080 960) (fun _ => some 8192) rfl rfl).2.1 (by decide)
  obtain ⟨hdispatch, _, hdel, hshape⟩ := hC
  obtain ⟨out, hout, hret⟩ := hdel (by decide) (by intro k _; simp)
  obtain ⟨_, hall⟩ := hshape out (by rw [← hdispatch]; exact hout) hret
  obtain ⟨s1, addr, h1, h2, h3, h4, h5⟩ := hall 0 (sampleSession 7 1920 1080 0 none) rfl
  have e1 : (sampleSession 7 1920 1080 0 none).screenInfo.rect.height >>> 3
      * ((sampleSession 7 1920 1080 0 none).screenInfo.rect.width >>> 3) = 32400 := by decide
  have e2 : (sampleSession 7 1920 1080 0 none).screenInfo.rect.width >>> 3 = 240 := by decide
  rw [e1] at h2 h3
  rw [e2] at h4
  exact ⟨⟨out, s1, addr, hout, hret, h1, h2, h3, h4, h5⟩,
    (C10_denied_desktop [.Locking]
      (sampleGrabber .AccessDeniedDesktop [sampleSession 7 1920 1080 0 none])
      (fun _ => sampleFrame 1920 1080 960) (fun _ => some 8192) rfl rfl).1 (by decide)⟩

/-! ## Cycles without a new frame (C11) -/

theorem grabStep_noNewFrame (fe : FrameEnv) (s : GrabbedScreen)
    (h : fe.acquireNextFrame = DXGI_ERROR_WAIT_TIMEOUT
      ∨ (0 ≤ fe.acquireNextFrame ∧ fe.LastPresentTime = 0)) :
    (∃ r, r ≠ .GrabResultOk ∧ grabStep fe s = .stop r false s)
    ∨ grabStep fe s = .cont false s := by
  unfold grabStep
  cases hd : s.associatedData with
  | none => exact Or.inl ⟨_, by decide, rfl⟩
  | some d =>
    dsimp only
    rcases h with h | ⟨h0, hp⟩
    · rw [if_pos h]
      by_cases hb : s.imgData.isNone = true
      · rw [if_pos hb]; exact Or.inl ⟨_, by decide, rfl⟩
      · rw [if_neg hb]; exact Or.inr rfl
    · have h1 : fe.acquireNextFrame ≠ DXGI_ERROR_WAIT_TIMEOUT := by
        intro h; rw [h] at h0; exact absurd h0 (by decide)
      have h2 : ¬ (fe.acquireNextFrame = DXGI_ERROR_ACCESS_LOST
          ∨ fe.acquireNextFrame = DXGI_ERROR_INVALID_CALL) := by
        rintro (h | h) <;> rw [h] at h0 <;> exact absurd h0 (by decide)
      have h3 : ¬ FAILED fe.acquireNextFrame = true := fun h =>
        absurd ((failed_iff _).1 h) (not_lt.2 h0)
      rw [if_neg h1, if_neg h2, if_neg h3]
      right
      unfold grabFrame
      rw [if_pos hp]

theorem grabLoop_noNewFrame (env : Nat → FrameEnv) (i : Nat) (any : Bool)
    (l : List GrabbedScreen)
    (h : ∀ j, j < l.length →
      (env (i + j)).acquireNextFrame = DXGI_ERROR_WAIT_TIMEOUT
      ∨ (0 ≤ (env (i + j)).acquireNextFrame ∧ (env (i + j)).LastPresentTime = 0)) :
    (grabLoop env i any l).screens = l ∧ (grabLoop env i any l).lost = false
    ∧ (any = false → (grabLoop env i any l).ret ≠ .GrabResultOk) := by
  induction l generalizing i any with
  | nil =>
    refine ⟨rfl, rfl, ?_⟩
    intro ha; simp [grabLoop, ha]
  | cons s rest ih =>
    have h0 := h 0 (by simp)
    simp only [Nat.add_zero] at h0
    unfold grabLoop
    rcases grabStep_noNewFrame (env i) s h0 with ⟨r, hr, hs⟩ | hs
    · rw [hs]
      exact ⟨rfl, rfl, fun _ => hr⟩
    · rw [hs]
      obtain ⟨h1, h2, h3⟩ := ih (i + 1) any (fun j hj => by
        have e1 : i + 1 + j = i + (j + 1) := by omega
        rw [e1]
        exact h (j + 1) (by simp; omega))
      simp only [Bool.or_false]
      exact ⟨by rw [h1], h2, h3⟩

theorem grabAllocated_noNewFrame (env : Nat → FrameEnv) (e : Engine)
    (h : NoNewFrame env e._screensWithWidgets.length) :
    (grabAllocated env e).engine = e ∧ (grabAllocated env e).ret ≠ .GrabResultOk := by
  obtain ⟨h1, h2, h3⟩ := grabLoop_noNewFrame env 0 false e._screensWithWidgets
    (fun j hj => by rw [Nat.zero_add]; exact h j hj)
  refine ⟨?_, h3 rfl⟩
  unfold grabAllocated
  simp only [h1, h2]
  cases e
  rfl

/-- C11: in the state Allocated, for every session set, a `grabScreens` call in which
the acquisition of every session yields a timeout or a frame with `LastPresentTime`
zero leaves the engine exactly as it was (every GrabbedScreen with its buffer pointer,
buffer size, stride, scale, format and rotation, and the state) and does not return Ok;
hence any number of such calls in a row leaves the engine, and so the buffers, as they
were. -/
theorem C11_no_new_frame_idempotent (alloc : Nat → Option Nat) (e : Engine)
    (hstate : e.m_state = .Allocated) :
    (∀ env : Nat → FrameEnv, NoNewFrame env e._screensWithWidgets.length →
      ∃ out, grabScreens env alloc e = some out ∧ out.engine = e
        ∧ out.engine._screensWithWidgets = e._screensWithWidgets
        ∧ out.engine.m_state = e.m_state
        ∧ out.ret ≠ .GrabResultOk)
    ∧ (∀ envs : List (Nat → FrameEnv),
      (∀ env ∈ envs, NoNewFrame env e._screensWithWidgets.length) →
      grabRepeatedly alloc envs e = some e) := by
  have hone : ∀ env : Nat → FrameEnv, NoNewFrame env e._screensWithWidgets.length →
      grabScreens env alloc e = some (grabAllocated env e)
      ∧ (grabAllocated env e).engine = e
      ∧ (grabAllocated env e).ret ≠ .GrabResultOk := by
    intro env henv
    obtain ⟨h1, h2⟩ := grabAllocated_noNewFrame env e henv
    exact ⟨by simp [grabScreens, hstate], h1, h2⟩
  constructor
  · intro env henv
    obtain ⟨h1, h2, h3⟩ := hone env henv
    exact ⟨_, h1, h2, by rw [h2], by rw [h2], h3⟩
  · intro envs
    induction envs with
    | nil => intro _; rfl
    | cons env rest ih =>
      intro hall
      obtain ⟨h1, h2, _⟩ := hone env (hall env (List.mem_cons_self _ _))
      unfold grabRepeatedly
      rw [h1]
      dsimp only
      rw [h2]
      exact ih (fun env1 h => hall env1 (List.mem_cons_of_mem _ h))

/-- Witness for C11: one session with a buffer; a timeout, then a frame without a new
presentation. -/
theorem C11_no_new_frame_idempotent_witness :
    grabRepeatedly (fun _ => none)
        [fun _ => sampleFrameResult DXGI_ERROR_WAIT_TIMEOUT,
         fun _ => { sampleFrame 1920 1080 960 with LastPresentTime := 0 }]
        (sampleGrabber .Allocated [sampleSession 7 1920 1080 0 (some ⟨64, [0]⟩)])
      = some (sampleGrabber .Allocated [sampleSession 7 1920 1080 0 (some ⟨64, [0]⟩)]) :=
  (C11_no_new_frame_idempotent (fun _ => none)
    (sampleGrabber .Allocated [sampleSession 7 1920 1080 0 (some ⟨64, [0]⟩)]) rfl).2
    [fun _ => sampleFrameResult DXGI_ERROR_WAIT_TIMEOUT,
     fun _ => { sampleFrame 1920 1080 960 with LastPresentTime := 0 }]
    (by
      intro env henv j _
      simp only [List.mem_cons, List.mem_singleton, List.not_mem_nil, or_false] at henv
      rcases henv with h | h
      · subst h; exact Or.inl rfl
      · subst h; exact Or.inr ⟨by simp [sampleFrame, S_OK], rfl⟩)

/-! ## Lemmas on the retries -/

theorem quiet_nil : Quiet [] := by
  intro ev h; cases h

theorem quiet_append {a b : List Event} (ha : Quiet a) (hb : Quiet b) : Quiet (a ++ b) := by
  intro ev h
  rcases List.mem_append.1 h with h | h
  · exact ha ev h
  · exact hb ev h

theorem quiet_single (m : HMONITOR) (hr : HRESULT) (h : 0 ≤ hr) :
    Quiet [.duplicateOutput m hr] := by
  intro ev hev
  simp only [List.mem_singleton] at hev
  exact ⟨m, hr, hev, h⟩

theorem quiet_rebuilds {tr : List Event} (h : Quiet tr) : rebuilds tr = 0 := by
  unfold rebuilds
  rw [List.count_eq_zero]
  intro hmem
  obtain ⟨m, hr, heq, _⟩ := h _ hmem
  cases heq

theorem quiet_reentries {tr : List Event} (h : Quiet tr) : reentries tr = 0 := by
  unfold reentries
  rw [List.count_eq_zero]
  intro hmem
  obtain ⟨m, hr, heq, _⟩ := h _ hmem
  cases heq

theorem quiet_no_mode_change {tr : List Event} (h : Quiet tr) (m : HMONITOR) :
    Event.duplicateOutput m DXGI_ERROR_MODE_CHANGE_IN_PROGRESS ∉ tr := by
  intro hmem
  obtain ⟨m1, hr, heq, h0⟩ := h _ hmem
  injection heq with _ h2
  rw [← h2] at h0
  exact absurd h0 (by decide)

theorem quiet_allSucceed {tr : List Event} (h : Quiet tr) : AllSucceed tr := by
  intro m hr hmem
  obtain ⟨m1, hr1, heq, h0⟩ := h _ hmem
  injection heq with _ h2
  rw [h2]; exact h0


theorem rebuilds_append (a b : List Event) : rebuilds (a ++ b) = rebuilds a + rebuilds b := by
  simp [rebuilds]

theorem reentries_append (a b : List Event) :
    reentries (a ++ b) = reentries a + reentries b := by
  simp [reentries]

theorem firstFailure_mem {tr : List Event} {hr : HRESULT} (h : firstFailure tr = some hr) :
    ∃ m, Event.duplicateOutput m hr ∈ tr := by
  induction tr with
  | nil => cases h
  | cons ev rest ih =>
    cases ev with
    | duplicateOutput m hr1 =>
      simp only [firstFailure] at h
      by_cases hf : FAILED hr1 = true
      · rw [if_pos hf] at h
        injection h with h
        exact ⟨m, by rw [h]; exact List.mem_cons_self _ _⟩
      · rw [if_neg hf] at h
        obtain ⟨m1, hm1⟩ := ih h
        exact ⟨m1, List.mem_cons_of_mem _ hm1⟩
    | recreateAdapters =>
      simp only [firstFailure] at h
      obtain ⟨m1, hm1⟩ := ih h
      exact ⟨m1, List.mem_cons_of_mem _ hm1⟩
    | reenter =>
      simp only [firstFailure] at h
      obtain ⟨m1, hm1⟩ := ih h
      exact ⟨m1, List.mem_cons_of_mem _ hm1⟩

theorem recreateAdapters_fst (w : ReallocEnv) (e : Engine) :
    ((recreateAdapters w e).1 = false → w.createFactory < 0)
    ∧ ((recreateAdapters w e).1 = true →
        0 ≤ w.createFactory ∧ (recreateAdapters w e).2.m_adapters = w.enumAdapters) := by
  unfold recreateAdapters
  dsimp only
  by_cases hf : FAILED w.createFactory = true
  · rw [if_pos hf]
    exact ⟨fun _ => (failed_iff _).1 hf, fun h => by cases h⟩
  · rw [if_neg hf]
    exact ⟨fun h => (by cases h), fun _ => ⟨not_lt.1 ((failed_iff _).not.1 hf), rfl⟩⟩

theorem reallocOutputs_quiet (Q : ReallocOut → Prop)
    (recurse : Engine → ReallocOut) (w : ReallocEnv) (gs : List ScreenInfo)
    (noRec : Bool)
    (hpre : ∀ tr out, Quiet tr → Q out → Q { out with trace := tr ++ out.trace })
    (hstep : ∀ device output e, FlowQuiet Q (reallocOutput recurse w gs noRec device output e))
    (device : Nat) (outputs : List DXGIOutput) (e : Engine) :
    FlowQuiet Q (reallocOutputs recurse w gs noRec device outputs e) := by
  induction outputs generalizing e with
  | nil => exact quiet_nil
  | cons o rest ih =>
    have h1 := hstep device o e
    unfold reallocOutputs
    cases hr : reallocOutput recurse w gs noRec device o e with
    | ret out => rw [hr] at h1; simpa [FlowQuiet] using h1
    | next e1 tr =>
      rw [hr] at h1
      have h2 := ih e1
      dsimp only
      cases hr2 : reallocOutputs recurse w gs noRec device rest e1 with
      | ret out => rw [hr2] at h2; simpa [FlowQuiet] using hpre tr out h1 h2
      | next e2 tr2 =>
        rw [hr2] at h2
        simpa [FlowQuiet] using quiet_append h1 h2

theorem reallocAdapters_quiet (Q : ReallocOut → Prop)
    (recurse : Engine → ReallocOut) (w : ReallocEnv) (gs : List ScreenInfo)
    (noRec : Bool)
    (hpre : ∀ tr out, Quiet tr → Q out → Q { out with trace := tr ++ out.trace })
    (hfail : ∀ e, Q ⟨false, e, []⟩)
    (hstep : ∀ device output e, FlowQuiet Q (reallocOutput recurse w gs noRec device output e))
    (device : Nat) (adapters : List DXGIAdapter) (e : Engine) :
    FlowQuiet Q (reallocAdapters recurse w gs noRec device adapters e) := by
  induction adapters generalizing e device with
  | nil => exact quiet_nil
  | cons a rest ih =>
    unfold reallocAdapters
    by_cases hc : FAILED a.createDevice = true
    · simp only [hc, if_true]; exact hfail e
    · simp only [hc]
      have h1 := reallocOutputs_quiet Q recurse w gs noRec hpre hstep device a.outputs e
      cases hr : reallocOutputs recurse w gs noRec device a.outputs e with
      | ret out => rw [hr] at h1; simpa [FlowQuiet] using h1
      | next e1 tr =>
        rw [hr] at h1
        have h2 := ih (device + 1) e1
        dsimp only
        cases hr2 : reallocAdapters recurse w gs noRec (device + 1) rest e1 with
        | ret out => rw [hr2] at h2; simpa [FlowQuiet] using hpre tr out h1 h2
        | next e2 tr2 =>
          rw [hr2] at h2
          simpa [FlowQuiet] using quiet_append h1 h2

theorem passShape_calm (retry : Engine → ReallocOut) (w : ReallocEnv) (noRec b : Bool)
    (e : Engine) (tr : List Event) (h : Quiet tr) :
    PassShape retry w noRec ⟨b, e, tr⟩ :=
  Or.inl ⟨quiet_rebuilds h, quiet_reentries h,
    fun m hm => absurd hm (quiet_no_mode_change h m)⟩

theorem passShape_single (retry : Engine → ReallocOut) (w : ReallocEnv) (noRec : Bool)
    (e : Engine) (m : HMONITOR) (hr : HRESULT)
    (h : hr = DXGI_ERROR_MODE_CHANGE_IN_PROGRESS → noRec = true) :
    PassShape retry w noRec ⟨false, e, [.duplicateOutput m hr]⟩ := by
  refine Or.inl ⟨by simp [rebuilds], by simp [reentries], ?_⟩
  intro m1 hm
  simp only [List.mem_singleton] at hm
  injection hm with _ h2
  exact ⟨h h2.symm, rfl⟩

theorem passShape_body (recurse : Engine → ReallocOut) (w : ReallocEnv)
    (gs : List ScreenInfo) (noRec : Bool) (e : Engine) :
    PassShape recurse w noRec (reallocateBody recurse w gs noRec e) := by
  have hpre : ∀ tr out, Quiet tr → PassShape recurse w noRec out →
      PassShape recurse w noRec { out with trace := tr ++ out.trace } := by
    intro tr out htr hq
    rcases hq with ⟨h1, h2, h3⟩ | ⟨h1, h2, h3, pre, m, hp, ht⟩
        | ⟨h1, h2, pre, m, e1, hp, he1, ht, hr, hen⟩
    · refine Or.inl ⟨?_, ?_, ?_⟩
      · simp only [rebuilds_append, quiet_rebuilds htr, h1]
      · simp only [reentries_append, quiet_reentries htr, h2]
      · intro m hm
        rcases List.mem_append.1 hm with h | h
        · exact absurd h (quiet_no_mode_change htr m)
        · exact h3 m h
    · refine Or.inr (Or.inl ⟨h1, h2, h3, tr ++ pre, m, quiet_append htr hp, ?_⟩)
      simp only [ht, List.append_assoc]
    · refine Or.inr (Or.inr ⟨h1, h2, tr ++ pre, m, e1, quiet_append htr hp, he1, ?_, hr, hen⟩)
      simp only [ht, List.append_assoc]
  have hstep : ∀ device output e,
      FlowQuiet (PassShape recurse w noRec)
        (reallocOutput recurse w gs noRec device output e) := by
    intro device output e
    apply reallocOutput_cases
    · intro _; exact passShape_calm _ _ _ _ _ _ quiet_nil
    · intro _; exact quiet_nil
    · intro _ h
      exact Or.inl ⟨by simp [rebuilds], by simp [reentries], fun m hm => by
        simp only [List.mem_singleton] at hm
        injection hm with _ h2
        rw [h] at h2
        exact absurd h2 (by decide)⟩
    · intro _ h
      exact Or.inl ⟨by simp [rebuilds], by simp [reentries], fun m hm => by
        simp only [List.mem_singleton] at hm
        injection hm with _ h2
        rcases h with h | h <;> rw [h] at h2 <;> exact absurd h2 (by decide)⟩
    · intro _ h hn hrc
      refine Or.inr (Or.inl ⟨hn, (recreateAdapters_fst w e).1 hrc, rfl, [], output.Monitor,
        quiet_nil, ?_⟩)
      rw [h]; rfl
    · intro _ h hn hrc
      obtain ⟨h0, ha⟩ := (recreateAdapters_fst w e).2 hrc
      refine Or.inr (Or.inr ⟨hn, h0, [], output.Monitor, (recreateAdapters w e).2, quiet_nil,
        ha, ?_, rfl, rfl⟩)
      rw [h]; rfl
    · intro _ _ _ _ h
      exact passShape_single _ _ _ _ _ _ h
    · intro si _ h0
      exact quiet_single _ _ h0
  have hloop := reallocAdapters_quiet (PassShape recurse w noRec) recurse w gs noRec
    hpre (fun e => passShape_calm _ _ _ _ _ _ quiet_nil) hstep 0
    (passStart w e).m_adapters (passStart w e)
  apply reallocateBody_cases
  · intro _ _; exact passShape_calm _ _ _ _ _ _ quiet_nil
  · intro _ _ _; exact passShape_calm _ _ _ _ _ _ quiet_nil
  · intro _ _ _; exact passShape_calm _ _ _ _ _ _ quiet_nil
  · intro _ _ _; exact passShape_calm _ _ _ _ _ _ quiet_nil
  · intro _ _ _ out hl
    rw [hl] at hloop
    exact hloop
  · intro _ _ _ e2 tr hl
    rw [hl] at hloop
    exact passShape_calm _ _ _ _ _ _ hloop

theorem passShape_noRecursion (retry : Engine → ReallocOut) (w : ReallocEnv)
    (out : ReallocOut) (h : PassShape retry w true out) :
    rebuilds out.trace = 0 ∧ reentries out.trace = 0
    ∧ ∀ m, Event.duplicateOutput m DXGI_ERROR_MODE_CHANGE_IN_PROGRESS ∈ out.trace →
        out.ret = false := by
  rcases h with ⟨h1, h2, h3⟩ | ⟨h1, _⟩ | ⟨h1, _⟩
  · exact ⟨h1, h2, fun m hm => (h3 m hm).2⟩
  · cases h1
  · cases h1

theorem reallocOutput_noRecursion (r1 r2 : Engine → ReallocOut) (w : ReallocEnv)
    (gs : List ScreenInfo) (device : Nat) (o : DXGIOutput) (e : Engine) :
    reallocOutput r1 w gs true device o e = reallocOutput r2 w gs true device o e := by
  simp [reallocOutput]

theorem reallocOutputs_noRecursion (r1 r2 : Engine → ReallocOut) (w : ReallocEnv)
    (gs : List ScreenInfo) (device : Nat) (outputs : List DXGIOutput) (e : Engine) :
    reallocOutputs r1 w gs true device outputs e
      = reallocOutputs r2 w gs true device outputs e := by
  induction outputs generalizing e with
  | nil => rfl
  | cons o rest ih =>
    simp only [reallocOutputs, reallocOutput_noRecursion r1 r2, ih]

theorem reallocAdapters_noRecursion (r1 r2 : Engine → ReallocOut) (w : ReallocEnv)
    (gs : List ScreenInfo) (device : Nat) (adapters : List DXGIAdapter) (e : Engine) :
    reallocAdapters r1 w gs true device adapters e
      = reallocAdapters r2 w gs true device adapters e := by
  induction adapters generalizing e device with
  | nil => rfl
  | cons a rest ih =>
    simp only [reallocAdapters, reallocOutputs_noRecursion r1 r2, ih]

theorem reallocateBody_noRecursion (r1 r2 : Engine → ReallocOut) (w : ReallocEnv)
    (gs : List ScreenInfo) (e : Engine) :
    reallocateBody r1 w gs true e = reallocateBody r2 w gs true e := by
  simp only [reallocateBody, reallocAdapters_noRecursion r1 r2]

theorem widgetsOutputs_eq (recurse : Engine → WidgetsOut) (w : ReallocEnv)
    (gw : List GrabWidget) (noRec : Bool) (e : Engine) (outputs : List DXGIOutput)
    (result : List ScreenInfo) :
    widgetsOutputs recurse w gw noRec e outputs result
      = if (!noRec && outputs.any (fun o => o.Monitor == 0)) = true then
          .ret ⟨(recurse (recreateAdapters w e).2).result,
                (recurse (recreateAdapters w e).2).engine,
                [.recreateAdapters, .reenter] ++ (recurse (recreateAdapters w e).2).trace⟩
        else .next (result ++ (reportedOutputs gw outputs).map screenInfoOf) := by
  induction outputs generalizing result with
  | nil => simp [widgetsOutputs, reportedOutputs]
  | cons o rest ih =>
    unfold widgetsOutputs widgetsOutput
    by_cases hm : o.Monitor = 0
    · cases noRec with
      | false => simp [hm]
      | true =>
        simp only [hm, if_true, Bool.not_true, Bool.false_eq_true, if_false, ih]
        simp [reportedOutputs, hm]
    · by_cases ha : anyWidgetOnThisMonitor o.Monitor gw = true
      · simp only [hm, if_false, ha, if_true, ih]
        cases noRec <;> simp [reportedOutputs, hm, ha]
      · simp only [hm, if_false, ha, ih]
        cases noRec <;> simp [reportedOutputs, hm, ha]

theorem widgetsAdapters_eq (recurse : Engine → WidgetsOut) (w : ReallocEnv)
    (gw : List GrabWidget) (noRec : Bool) (e : Engine) (adapters : List DXGIAdapter)
    (result : List ScreenInfo) :
    widgetsAdapters recurse w gw noRec e adapters result
      = if (!noRec && (catalogOutputs adapters).any (fun o => o.Monitor == 0)) = true then
          .ret ⟨(recurse (recreateAdapters w e).2).result,
                (recurse (recreateAdapters w e).2).engine,
                [.recreateAdapters, .reenter] ++ (recurse (recreateAdapters w e).2).trace⟩
        else .next (result
          ++ (reportedOutputs gw (catalogOutputs adapters)).map screenInfoOf) := by
  induction adapters generalizing result with
  | nil => simp [widgetsAdapters, catalogOutputs, reportedOutputs]
  | cons a rest ih =>
    unfold widgetsAdapters
    rw [widgetsOutputs_eq]
    by_cases h1 : (!noRec && a.outputs.any (fun o => o.Monitor == 0)) = true
    · rw [if_pos h1]
      have : (!noRec && (catalogOutputs (a :: rest)).any (fun o => o.Monitor == 0)) = true := by
        simp only [catalogOutputs, List.any_append, Bool.and_eq_true, Bool.or_eq_true] at h1 ⊢
        exact ⟨h1.1, Or.inl h1.2⟩
      rw [if_pos this]
    · rw [if_neg h1]
      dsimp only
      rw [ih]
      cases noRec with
      | true => simp [catalogOutputs, reportedOutputs]
      | false =>
        have h2 : a.outputs.any (fun o => o.Monitor == 0) = false := by simpa using h1
        simp only [Bool.not_false, Bool.true_and, catalogOutputs, List.any_append, h2,
          Bool.false_or]
        by_cases h3 : (catalogOutputs rest).any (fun o => o.Monitor == 0) = true
        · simp [h3]
        · simp [h3, reportedOutputs]

theorem widgetsBody_eq (recurse : Engine → WidgetsOut) (w : ReallocEnv)
    (gw : List GrabWidget) (noRec : Bool) (e : Engine)
    (hinit : e.m_state = .Uninitialized → (init w e).1 = true) :
    screensWithWidgetsBody recurse w gw noRec e
      = if (!noRec && (catalogOutputs (initialised w e).m_adapters).any
              (fun o => o.Monitor == 0)) = true then
          ⟨(recurse (recreateAdapters w (initialised w e)).2).result,
           (recurse (recreateAdapters w (initialised w e)).2).engine,
           [.recreateAdapters, .reenter]
             ++ (recurse (recreateAdapters w (initialised w e)).2).trace⟩
        else ⟨(reportedOutputs gw (catalogOutputs (initialised w e).m_adapters)).map
                screenInfoOf, initialised w e, []⟩ := by
  have key : ∀ e0 : Engine, e0 = initialised w e →
      (match widgetsAdapters recurse w gw noRec e0 e0.m_adapters [] with
        | .ret out => out
        | .next result => (⟨result, e0, []⟩ : WidgetsOut))
      = if (!noRec && (catalogOutputs (initialised w e).m_adapters).any
              (fun o => o.Monitor == 0)) = true then
          ⟨(recurse (recreateAdapters w (initialised w e)).2).result,
           (recurse (recreateAdapters w (initialised w e)).2).engine,
           [.recreateAdapters, .reenter]
             ++ (recurse (recreateAdapters w (initialised w e)).2).trace⟩
        else ⟨(reportedOutputs gw (catalogOutputs (initialised w e).m_adapters)).map
                screenInfoOf, initialised w e, []⟩ := by
    intro e0 he0
    subst he0
    rw [widgetsAdapters_eq]
    split_ifs <;> simp
  unfold screensWithWidgetsBody
  by_cases hu : e.m_state = .Uninitialized
  · rw [if_pos hu]
    have hi := hinit hu
    rcases hp : init w e with ⟨ok, e0⟩
    rw [hp] at hi
    simp only at hi
    subst hi
    simp only [Bool.not_true, Bool.false_eq_true, if_false]
    exact key e0 (by simp [initialised, hu, hp])
  · rw [if_neg hu]
    simp only [Bool.not_true, Bool.false_eq_true, if_false]
    exact key e (by simp [initialised, hu])

theorem widgetsBody_init_failed (recurse : Engine → WidgetsOut) (w : ReallocEnv)
    (gw : List GrabWidget) (noRec : Bool) (e : Engine)
    (hu : e.m_state = .Uninitialized) (hi : (init w e).1 = false) :
    screensWithWidgetsBody recurse w gw noRec e = ⟨[], (init w e).2, []⟩ := by
  unfold screensWithWidgetsBody
  rw [if_pos hu]
  rcases hp : init w e with ⟨ok, e0⟩
  rw [hp] at hi
  simp only at hi
  subst hi
  simp

theorem widgetsBody_noRecursion_trace (recurse : Engine → WidgetsOut) (w : ReallocEnv)
    (gw : List GrabWidget) (e : Engine) :
    (screensWithWidgetsBody recurse w gw true e).trace = [] := by
  by_cases h : e.m_state = .Uninitialized ∧ (init w e).1 = false
  · rw [widgetsBody_init_failed recurse w gw true e h.1 h.2]
  · rw [widgetsBody_eq recurse w gw true e (fun hu => by
      cases hi : (init w e).1 with
      | true => rfl
      | false => exact absurd ⟨hu, hi⟩ h)]
    simp

theorem retry_eq (gs : List ScreenInfo) (e1 : Engine) (w2 w3 : ReallocEnv) :
    reallocateBody (fun e2 => ⟨false, e2, []⟩) w2 gs true e1 = _reallocate gs true e1 w2 w3 := by
  unfold _reallocate
  exact reallocateBody_noRecursion _ _ w2 gs e1

theorem widgetsBody_noRecursion (r1 r2 : Engine → WidgetsOut) (w : ReallocEnv)
    (gw : List GrabWidget) (e : Engine) :
    screensWithWidgetsBody r1 w gw true e = screensWithWidgetsBody r2 w gw true e := by
  by_cases h : e.m_state = .Uninitialized ∧ (init w e).1 = false
  · rw [widgetsBody_init_failed r1 w gw true e h.1 h.2,
      widgetsBody_init_failed r2 w gw true e h.1 h.2]
  · have hi : e.m_state = .Uninitialized → (init w e).1 = true := fun hu => by
      cases hi : (init w e).1 with
      | true => rfl
      | false => exact absurd ⟨hu, hi⟩ h
    rw [widgetsBody_eq r1 w gw true e hi, widgetsBody_eq r2 w gw true e hi]
    simp

theorem widgets_retry_eq (gw : List GrabWidget) (e1 : Engine) (w2 w3 : ReallocEnv) :
    screensWithWidgetsBody (fun e2 => ⟨[], e2, []⟩) w2 gw true e1
      = __screensWithWidgets gw true e1 w2 w3 := by
  unfold __screensWithWidgets
  exact widgetsBody_noRecursion _ _ w2 gw e1

theorem rebuilds_call_rebuild (m : HMONITOR) (hr : HRESULT) (rest : List Event) :
    rebuilds (.duplicateOutput m hr :: .recreateAdapters :: rest) = 1 + rebuilds rest := by
  simp [rebuilds, List.count_cons]; omega

theorem rebuilds_reenter (rest : List Event) :
    rebuilds (.reenter :: rest) = rebuilds rest := by
  simp [rebuilds, List.count_cons]

theorem reentries_call_rebuild (m : HMONITOR) (hr : HRESULT) (rest : List Event) :
    reentries (.duplicateOutput m hr :: .recreateAdapters :: rest) = reentries rest := by
  simp [reentries, List.count_cons]

theorem reentries_reenter (rest : List Event) :
    reentries (.reenter :: rest) = 1 + reentries rest := by
  simp [reentries, List.count_cons]; omega

/-! ## Bounded retries (C12) -/

/-- C12 (as stated, refuted): the first pass reports mode-change-in-progress and the
rebuild of the catalog fails (`CreateDXGIFactory1` returns `E_FAIL`).  `_reallocate`
rebuilds once, returns false, and does not retry at all. -/
theorem C12_counterexample :
    firstFailure (_reallocate [sampleScreen 7] false
        (sampleEngine .Ready
          [⟨S_OK, [sampleOutput 7 .IDENTITY DXGI_ERROR_MODE_CHANGE_IN_PROGRESS]⟩])
        { sampleEnv [] with createFactory := E_FAIL } (sampleEnv [])).trace
      = some DXGI_ERROR_MODE_CHANGE_IN_PROGRESS
    ∧ (_reallocate [sampleScreen 7] false
        (sampleEngine .Ready
          [⟨S_OK, [sampleOutput 7 .IDENTITY DXGI_ERROR_MODE_CHANGE_IN_PROGRESS]⟩])
        { sampleEnv [] with createFactory := E_FAIL } (sampleEnv [])).trace
      = [.duplicateOutput 7 DXGI_ERROR_MODE_CHANGE_IN_PROGRESS, .recreateAdapters]
    ∧ reentries (_reallocate [sampleScreen 7] false
        (sampleEngine .Ready
          [⟨S_OK, [sampleOutput 7 .IDENTITY DXGI_ERROR_MODE_CHANGE_IN_PROGRESS]⟩])
        { sampleEnv [] with createFactory := E_FAIL } (sampleEnv [])).trace = 0
    ∧ (_reallocate [sampleScreen 7] false
        (sampleEngine .Ready
          [⟨S_OK, [sampleOutput 7 .IDENTITY DXGI_ERROR_MODE_CHANGE_IN_PROGRESS]⟩])
        { sampleEnv [] with createFactory := E_FAIL } (sampleEnv [])).ret = false := by
  refine ⟨?_, ?_, ?_, ?_⟩ <;> decide

/-- C12 (amended): for every requested screen list, widget list, engine and platform
behaviour (the first build of the catalog by a lazy `init` is not counted as a
rebuild).  A call of `_reallocate` rebuilds the catalog at most once and re-enters
itself at most once, and only after a rebuild.  When the first `DuplicateOutput` call
that does not succeed on the first pass reports mode-change-in-progress, it rebuilds
exactly once; if the rebuild succeeds it retries exactly once, the retry being
`_reallocate` with `noRecursion = true` on the rebuilt catalog, whose result it
returns; if the rebuild fails it returns false without a retry.  A call with
`noRecursion = true` neither rebuilds nor re-enters, does not depend on what would
follow a retry, and returns false when mode-change-in-progress is reported.
`__screensWithWidgets` goes through no rebuild and no retry, or through one rebuild
followed by one retry; on a null monitor handle in the first pass it does the latter
and returns what the retry returns; the retry goes through neither and reports exactly
the outputs with a non-null handle on which a widget sits. -/
theorem C12_bounded_retry (grabScreens : List ScreenInfo) (grabWidgets : List GrabWidget)
    (noRecursion : Bool) (e : Engine) (w w2 : ReallocEnv) :
    (rebuilds (_reallocate grabScreens noRecursion e w w2).trace ≤ 1
      ∧ reentries (_reallocate grabScreens noRecursion e w w2).trace
          ≤ rebuilds (_reallocate grabScreens noRecursion e w w2).trace)
    ∧ (noRecursion = false →
        firstFailure (_reallocate grabScreens noRecursion e w w2).trace
          = some DXGI_ERROR_MODE_CHANGE_IN_PROGRESS →
        rebuilds (_reallocate grabScreens noRecursion e w w2).trace = 1
        ∧ (0 ≤ w.createFactory →
            reentries (_reallocate grabScreens noRecursion e w w2).trace = 1
            ∧ ∃ pre m e1, Quiet pre ∧ e1.m_adapters = w.enumAdapters
              ∧ (_reallocate grabScreens noRecursion e w w2).trace
                  = pre ++ ([.duplicateOutput m DXGI_ERROR_MODE_CHANGE_IN_PROGRESS,
                              .recreateAdapters, .reenter]
                            ++ (_reallocate grabScreens true e1 w2 w2).trace)
              ∧ (_reallocate grabScreens noRecursion e w w2).ret
                  = (_reallocate grabScreens true e1 w2 w2).ret
              ∧ (_reallocate grabScreens noRecursion e w w2).engine
                  = (_reallocate grabScreens true e1 w2 w2).engine)
        ∧ (w.createFactory < 0 →
            reentries (_reallocate grabScreens noRecursion e w w2).trace = 0
            ∧ (_reallocate grabScreens noRecursion e w w2).ret = false))
    ∧ (∀ (e1 : Engine) (w3 : ReallocEnv),
        rebuilds (_reallocate grabScreens true e1 w2 w3).trace = 0
        ∧ reentries (_reallocate grabScreens true e1 w2 w3).trace = 0
        ∧ (∀ m, Event.duplicateOutput m DXGI_ERROR_MODE_CHANGE_IN_PROGRESS
              ∈ (_reallocate grabScreens true e1 w2 w3).trace →
            (_reallocate grabScreens true e1 w2 w3).ret = false)
        ∧ _reallocate grabScreens true e1 w2 w3 = _reallocate grabScreens true e1 w2 w2)
    ∧ ((__screensWithWidgets grabWidgets noRecursion e w w2).trace = []
        ∨ (__screensWithWidgets grabWidgets noRecursion e w w2).trace
            = [.recreateAdapters, .reenter])
    ∧ (noRecursion = false → (e.m_state = .Uninitialized → (init w e).1 = true) →
        (∃ o ∈ catalogOutputs (initialised w e).m_adapters, o.Monitor = 0) →
        (__screensWithWidgets grabWidgets noRecursion e w w2).trace
          = [.recreateAdapters, .reenter]
        ∧ (__screensWithWidgets grabWidgets noRecursion e w w2).result
          = (__screensWithWidgets grabWidgets true
              (recreateAdapters w (initialised w e)).2 w2 w2).result)
    ∧ (∀ (e1 : Engine) (w3 : ReallocEnv),
        (e1.m_state = .Uninitialized → (init w2 e1).1 = true) →
        (__screensWithWidgets grabWidgets true e1 w2 w3).trace = []
        ∧ (__screensWithWidgets grabWidgets true e1 w2 w3).result
            = (reportedOutputs grabWidgets
                (catalogOutputs (initialised w2 e1).m_adapters)).map screenInfoOf
        ∧ ∀ s ∈ (__screensWithWidgets grabWidgets true e1 w2 w3).result, s.handle ≠ 0) := by
  have hinner : ∀ e1 w3, rebuilds (_reallocate grabScreens true e1 w2 w3).trace = 0
      ∧ reentries (_reallocate grabScreens true e1 w2 w3).trace = 0
      ∧ (∀ m, Event.duplicateOutput m DXGI_ERROR_MODE_CHANGE_IN_PROGRESS
            ∈ (_reallocate grabScreens true e1 w2 w3).trace →
          (_reallocate grabScreens true e1 w2 w3).ret = false) := fun e1 w3 =>
    passShape_noRecursion _ w2 _ (passShape_body _ w2 grabScreens true e1)
  have houter := passShape_body
    (fun e1 => reallocateBody (fun e2 => ⟨false, e2, []⟩) w2 grabScreens true e1)
    w grabScreens noRecursion e
  have hout : reallocateBody
      (fun e1 => reallocateBody (fun e2 => ⟨false, e2, []⟩) w2 grabScreens true e1)
      w grabScreens noRecursion e = _reallocate grabScreens noRecursion e w w2 := rfl
  rw [hout] at houter
  refine ⟨?_, ?_, ?_, ?_, ?_, ?_⟩
  · rcases houter with ⟨h1, h2, _⟩ | ⟨_, _, _, pre, m, hp, ht⟩
        | ⟨_, _, pre, m, e1, hp, _, ht, _, _⟩
    · rw [h1, h2]; exact ⟨by omega, le_refl _⟩
    · rw [ht, rebuilds_append, reentries_append, quiet_rebuilds hp, quiet_reentries hp,
        rebuilds_call_rebuild, reentries_call_rebuild]
      simp [rebuilds, reentries]
    · simp only [retry_eq grabScreens e1 w2 w2] at ht
      rw [ht, rebuilds_append, reentries_append, quiet_rebuilds hp, quiet_reentries hp]
      simp only [List.cons_append, List.nil_append]
      rw [rebuilds_call_rebuild, reentries_call_rebuild, rebuilds_reenter,
        reentries_reenter, (hinner e1 w2).1, (hinner e1 w2).2.1]
      omega
  · intro hn hff
    obtain ⟨m0, hm0⟩ := firstFailure_mem hff
    rcases houter with ⟨_, _, h3⟩ | ⟨_, hneg, hret, pre, m, hp, ht⟩
        | ⟨_, hpos, pre, m, e1, hp, he1, ht, hr, hen⟩
    · have := (h3 m0 hm0).1
      rw [hn] at this
      cases this
    · refine ⟨?_, fun h0 => absurd hneg (not_lt.2 h0), fun _ => ⟨?_, hret⟩⟩
      · rw [ht, rebuilds_append, quiet_rebuilds hp, rebuilds_call_rebuild]
        simp [rebuilds]
      · rw [ht, reentries_append, quiet_reentries hp, reentries_call_rebuild]
        simp [reentries]
    · simp only [retry_eq grabScreens e1 w2 w2] at ht hr hen
      have hcount : rebuilds (_reallocate grabScreens noRecursion e w w2).trace = 1
          ∧ reentries (_reallocate grabScreens noRecursion e w w2).trace = 1 := by
        rw [ht, rebuilds_append, reentries_append, quiet_rebuilds hp, quiet_reentries hp]
        simp only [List.cons_append, List.nil_append]
        rw [rebuilds_call_rebuild, reentries_call_rebuild, rebuilds_reenter,
          reentries_reenter, (hinner e1 w2).1, (hinner e1 w2).2.1]
        exact ⟨by omega, by omega⟩
      exact ⟨hcount.1, fun _ => ⟨hcount.2, pre, m, e1, hp, he1, ht, hr, hen⟩,
        fun hneg => absurd hneg (not_lt.2 hpos)⟩
  · intro e1 w3
    obtain ⟨h1, h2, h3⟩ := hinner e1 w3
    refine ⟨h1, h2, h3, ?_⟩
    rw [← retry_eq grabScreens e1 w2 w3, ← retry_eq grabScreens e1 w2 w2]
  · by_cases h : e.m_state = .Uninitialized ∧ (init w e).1 = false
    · left
      unfold __screensWithWidgets
      rw [widgetsBody_init_failed _ w grabWidgets noRecursion e h.1 h.2]
    · have hi : e.m_state = .Uninitialized → (init w e).1 = true := fun hu => by
        cases hi : (init w e).1 with
        | true => rfl
        | false => exact absurd ⟨hu, hi⟩ h
      unfold __screensWithWidgets
      rw [widgetsBody_eq _ w grabWidgets noRecursion e hi]
      split_ifs
      · right
        simp [widgetsBody_noRecursion_trace]
      · left; rfl
  · intro hn hi hnull
    obtain ⟨o, ho, hm⟩ := hnull
    have hany : (!noRecursion && (catalogOutputs (initialised w e).m_adapters).any
        (fun o => o.Monitor == 0)) = true := by
      rw [hn]
      simp only [Bool.not_false, Bool.true_and, List.any_eq_true]
      exact ⟨o, ho, by simp [hm]⟩
    have hbody := widgetsBody_eq
      (fun e1 => screensWithWidgetsBody (fun e2 => ⟨[], e2, []⟩) w2 grabWidgets true e1)
      w grabWidgets noRecursion e hi
    rw [if_pos hany] at hbody
    have hdef : __screensWithWidgets grabWidgets noRecursion e w w2
        = screensWithWidgetsBody
            (fun e1 => screensWithWidgetsBody (fun e2 => ⟨[], e2, []⟩) w2 grabWidgets true e1)
            w grabWidgets noRecursion e := rfl
    rw [hdef, hbody]
    refine ⟨?_, ?_⟩
    · simp [widgetsBody_noRecursion_trace]
    · simp only [widgets_retry_eq grabWidgets _ w2 w2]
  · intro e1 w3 hi
    have hdef : __screensWithWidgets grabWidgets true e1 w2 w3
        = screensWithWidgetsBody (fun e2 => ⟨[], e2, []⟩) w2 grabWidgets true e1 :=
      (widgets_retry_eq grabWidgets e1 w2 w3).symm
    rw [hdef, widgetsBody_eq _ w2 grabWidgets true e1 hi]
    simp only [Bool.not_true, Bool.false_and, Bool.false_eq_true, if_false, true_and]
    intro s hs
    simp only [List.mem_map, reportedOutputs, List.mem_filter, Bool.and_eq_true] at hs
    obtain ⟨o, ⟨_, ho, _⟩, hso⟩ := hs
    rw [← hso]
    simpa [screenInfoOf] using ho

/-- Witness for C12: a mode change on the first pass with a successful rebuild, and a
null monitor handle met by `__screensWithWidgets`. -/
theorem C12_bounded_retry_witness :
    reentries (_reallocate [sampleScreen 7] false
        (sampleEngine .Ready
          [⟨S_OK, [sampleOutput 7 .IDENTITY DXGI_ERROR_MODE_CHANGE_IN_PROGRESS]⟩])
        (sampleEnv [⟨S_OK, [sampleOutput 7 .IDENTITY S_OK]⟩]) (sampleEnv [])).trace = 1
    ∧ (__screensWithWidgets [⟨7⟩] false
        (sampleEngine .Ready
          [⟨S_OK, [sampleOutput 0 .IDENTITY S_OK, sampleOutput 7 .IDENTITY S_OK]⟩])
        (sampleEnv [⟨S_OK, [sampleOutput 7 .IDENTITY S_OK]⟩]) (sampleEnv [])).trace
      = [.recreateAdapters, .reenter] :=
  ⟨(((C12_bounded_retry [sampleScreen 7] [⟨7⟩] false
        (sampleEngine .Ready
          [⟨S_OK, [sampleOutput 7 .IDENTITY DXGI_ERROR_MODE_CHANGE_IN_PROGRESS]⟩])
        (sampleEnv [⟨S_OK, [sampleOutput 7 .IDENTITY S_OK]⟩]) (sampleEnv [])).2.1
      rfl (by decide)).2.1 (by decide)).1,
   ((C12_bounded_retry [sampleScreen 7] [⟨7⟩] false
        (sampleEngine .Ready
          [⟨S_OK, [sampleOutput 0 .IDENTITY S_OK, sampleOutput 7 .IDENTITY S_OK]⟩])
        (sampleEnv [⟨S_OK, [sampleOutput 7 .IDENTITY S_OK]⟩]) (sampleEnv [])).2.2.2.2.1
      rfl (by decide) ⟨sampleOutput 0 .IDENTITY S_OK, by decide, rfl⟩).1⟩

/-! ## The denied desktop and the session set (C13) -/

theorem init_state_of_ok (w : ReallocEnv) (e : Engine) (h : (init w e).1 = true) :
    (init w e).2.m_state = .Ready := by
  revert h
  unfold init recreateAdapters
  dsimp only
  split_ifs <;> simp

theorem recreateAdapters_state (w : ReallocEnv) (e : Engine) :
    (recreateAdapters w e).2.m_state = e.m_state := by
  unfold recreateAdapters
  dsimp only
  split_ifs <;> rfl

theorem passStart_state (w : ReallocEnv) (e : Engine)
    (hi : e.m_state = .Uninitialized → (init w e).1 = true) :
    (passStart w e)._screensWithWidgets = []
    ∧ ((passStart w e).m_state = e.m_state ∨ (passStart w e).m_state = .Ready) := by
  unfold passStart freeScreens
  by_cases hu : e.m_state = .Uninitialized
  · rw [if_pos hu]
    exact ⟨rfl, Or.inr (init_state_of_ok w e (hi hu))⟩
  · rw [if_neg hu]
    exact ⟨rfl, Or.inl rfl⟩

theorem deniedEmpty_body (recurse : Engine → ReallocOut) (w : ReallocEnv)
    (gs : List ScreenInfo) (noRec : Bool) (e : Engine)
    (hrec : ∀ e1, DeniedEmpty e1.m_state (recurse e1)) :
    DeniedEmpty e.m_state (reallocateBody recurse w gs noRec e) := by
  have hstale : ∀ (s0 : State) (e1 : Engine) (tr : List Event), e1.m_state = s0 →
      DeniedEmpty s0 ⟨false, e1, tr⟩ := by
    intro s0 e1 tr h1 hs hor
    rcases hor with h | h
    · cases h
    · exact absurd (h1 ▸ hs) h
  have hstep : ∀ (s0 : State) device output e1, e1.m_state = s0 →
      FlowOK (DeniedEmpty s0) (fun e2 => e2.m_state = s0)
        (reallocOutput recurse w gs noRec device output e1) := by
    intro s0 device output e1 h1
    apply reallocOutput_cases
    · intro _; exact hstale s0 e1 _ h1
    · intro _; exact ⟨allSucceed_nil, h1⟩
    · intro _ _ hs _; cases hs
    · intro _ _ hs _; cases hs
    · intro _ _ _ _
      exact hstale s0 _ _ (by rw [recreateAdapters_state]; exact h1)
    · intro _ _ _ _
      have := hrec (recreateAdapters w e1).2
      rw [recreateAdapters_state, h1] at this
      exact this
    · intro _ _ _ _ _; exact hstale s0 e1 _ h1
    · intro si _ h0
      refine ⟨?_, h1⟩
      intro m hr hmem
      simp at hmem
      rw [hmem.2]; exact h0
  have hloop := fun s0 (h1 : (passStart w e).m_state = s0) =>
    reallocAdapters_ok (DeniedEmpty s0) (fun e2 => e2.m_state = s0) recurse w gs noRec
      (fun _ _ _ h => h) (fun e1 h => hstale s0 e1 [] h) (hstep s0) 0
      (passStart w e).m_adapters (passStart w e) h1
  have hempty : ∀ (b : Bool) (e1 : Engine) (tr : List Event),
      e1._screensWithWidgets = [] → DeniedEmpty e.m_state ⟨b, e1, tr⟩ :=
    fun b e1 tr h _ _ => h
  apply reallocateBody_cases
  · intro _ hi hs _
    rw [init_state_of_fail w e hi] at hs
    cases hs
  · intro hi _ _; exact hempty _ _ _ (passStart_state w e hi).1
  · intro hi _ _; exact hempty _ _ _ (passStart_state w e hi).1
  · intro hi _ _; exact hempty _ _ _ (passStart_state w e hi).1
  · intro hi _ _ out hl
    have := hloop _ rfl
    rw [hl] at this
    intro hs hor
    apply this hs
    rcases hor with h | h
    · exact Or.inl h
    · rcases (passStart_state w e hi).2 with h2 | h2
      · rw [h2]; exact Or.inr h
      · rw [h2]; exact Or.inr (by decide)
  · intro _ _ _ e2 tr _ hs _
    cases hs

theorem keepsSessions_refl (e : Engine) : KeepsSessions e e := ⟨rfl, fun h => h⟩

theorem keepsSessions_trans {a b c : Engine} (h1 : KeepsSessions a b)
    (h2 : KeepsSessions b c) : KeepsSessions a c :=
  ⟨h2.1.trans h1.1, fun h => h1.2 (h2.2 h)⟩

theorem keepsSessions_init (w : ReallocEnv) (e : Engine) : KeepsSessions e (init w e).2 := by
  refine ⟨by rw [init_screens], ?_⟩
  intro hs
  cases hi : (init w e).1 with
  | false => rw [init_state_of_fail w e hi] at hs; cases hs
  | true => rw [init_state_of_ok w e hi] at hs; cases hs

theorem keepsSessions_recreateAdapters (w : ReallocEnv) (e : Engine) :
    KeepsSessions e (recreateAdapters w e).2 :=
  ⟨by rw [recreateAdapters_screens], fun h => by rwa [recreateAdapters_state] at h⟩

theorem keepsSessions_initialised (w : ReallocEnv) (e : Engine) :
    KeepsSessions e (initialised w e) := by
  unfold initialised
  split_ifs
  · exact keepsSessions_init w e
  · exact keepsSessions_refl e

theorem keepsSessions_widgetsBody (recurse : Engine → WidgetsOut) (w : ReallocEnv)
    (gw : List GrabWidget) (noRec : Bool) (e : Engine)
    (hrec : ∀ e1, KeepsSessions e1 (recurse e1).engine) :
    KeepsSessions e (screensWithWidgetsBody recurse w gw noRec e).engine := by
  by_cases h : e.m_state = .Uninitialized ∧ (init w e).1 = false
  · rw [widgetsBody_init_failed recurse w gw noRec e h.1 h.2]
    exact keepsSessions_init w e
  · have hi : e.m_state = .Uninitialized → (init w e).1 = true := fun hu => by
      cases hi : (init w e).1 with
      | true => rfl
      | false => exact absurd ⟨hu, hi⟩ h
    rw [widgetsBody_eq recurse w gw noRec e hi]
    split_ifs
    · exact keepsSessions_trans (keepsSessions_initialised w e)
        (keepsSessions_trans (keepsSessions_recreateAdapters w _) (hrec _))
    · exact keepsSessions_initialised w e

theorem blackBufferLoop_length (alloc : Nat → Option Nat) (i : Nat)
    (l l1 : List GrabbedScreen) (r : GrabResult)
    (h : blackBufferLoop alloc i l = some (r, l1)) : l1.length = l.length := by
  induction l generalizing i l1 r with
  | nil =>
    simp only [blackBufferLoop, Option.some.injEq, Prod.mk.injEq] at h
    rw [← h.2]
  | cons s0 rest ih =>
    unfold blackBufferLoop at h
    cases hs : blackBufferStep (alloc i) s0 with
    | none => rw [hs] at h; cases h
    | some bs =>
      obtain ⟨b, s1⟩ := bs
      rw [hs] at h
      cases b with
      | false =>
        simp only [Option.some.injEq, Prod.mk.injEq] at h
        rw [← h.2]; rfl
      | true =>
        dsimp only at h
        cases hl : blackBufferLoop alloc (i + 1) rest with
        | none => rw [hl] at h; cases h
        | some rl =>
          obtain ⟨r2, l2⟩ := rl
          rw [hl] at h
          simp only [Option.some.injEq, Prod.mk.injEq] at h
          rw [← h.2]
          simp [ih (i + 1) l2 r2 hl]

theorem keepsSessions_returnBlackBuffer (alloc : Nat → Option Nat) (e : Engine)
    (out : GrabOut) (h : returnBlackBuffer alloc e = some out) :
    KeepsSessions e out.engine := by
  unfold returnBlackBuffer at h
  cases hl : blackBufferLoop alloc 0 e._screensWithWidgets with
  | none => rw [hl] at h; cases h
  | some rl =>
    obtain ⟨r, l1⟩ := rl
    rw [hl] at h
    simp only [Option.some.injEq] at h
    subst h
    exact ⟨blackBufferLoop_length alloc 0 _ l1 r hl, fun hs => hs⟩

theorem keepsSessions_grabScreens (env : Nat → FrameEnv) (alloc : Nat → Option Nat)
    (e : Engine) (out : GrabOut) (h : grabScreens env alloc e = some out) :
    KeepsSessions e out.engine := by
  unfold grabScreens at h
  by_cases h1 : e.m_state ≠ .Allocated
  · rw [if_pos h1] at h
    by_cases h2 : e.m_state = .AccessDeniedDuplication
    · rw [if_pos h2] at h
      exact keepsSessions_returnBlackBuffer alloc e out h
    · rw [if_neg h2] at h
      by_cases h3 : e.m_state = .AccessDeniedDesktop
      · rw [if_pos h3] at h
        by_cases h4 : e.m_isSessionLocked = true
        · rw [if_pos h4] at h
          injection h with h
          subst h
          exact keepsSessions_refl e
        · rw [if_neg h4] at h
          exact keepsSessions_returnBlackBuffer alloc e out h
      · rw [if_neg h3] at h
        injection h with h
        subst h
        exact keepsSessions_refl e
  · rw [if_neg h1] at h
    injection h with h
    subst h
    have hlen := congrArg List.length
      (grabLoop_map env (fun _ => ()) (fun _ _ => rfl) 0 false e._screensWithWidgets)
    refine ⟨by simpa [grabAllocated] using hlen, ?_⟩
    intro hs
    have hA : e.m_state = .Allocated := not_not.1 h1
    simp only [grabAllocated, hA] at hs
    split_ifs at hs

theorem returnBlackBuffer_empty (alloc : Nat → Option Nat) (e : Engine)
    (h : e._screensWithWidgets = []) :
    returnBlackBuffer alloc e = some ⟨.GrabResultOk, e, []⟩ := by
  unfold returnBlackBuffer
  rw [h]
  simp only [blackBufferLoop]
  cases e
  simp only at h
  subst h
  rfl

/-- C13 (as stated, refuted): a first `_reallocate` is denied the input desktop and
leaves the state AccessDeniedDesktop with no session.  A second `_reallocate`, from that
state, opens the desktop, creates a session on the first adapter and then fails to
create the device of the second adapter: it returns false with the state still
AccessDeniedDesktop and one session.  `grabScreens`, unlocked, then returns Ok and gives
that session a buffer of `(1080 >> 3) * (1920 >> 3) = 32400` bytes. -/
theorem C13_counterexample :
    (_reallocate [sampleScreen 7] false (sampleEngine .Ready sampleCatalogBroken)
        sampleEnvDenied sampleEnvDenied).engine.m_state = .AccessDeniedDesktop
    ∧ (_reallocate [sampleScreen 7] false (sampleEngine .Ready sampleCatalogBroken)
        sampleEnvDenied sampleEnvDenied).engine._screensWithWidgets.length = 0
    ∧ (_reallocate [sampleScreen 7] false
        (_reallocate [sampleScreen 7] false (sampleEngine .Ready sampleCatalogBroken)
          sampleEnvDenied sampleEnvDenied).engine
        (sampleEnv []) (sampleEnv [])).ret = false
    ∧ (_reallocate [sampleScreen 7] false
        (_reallocate [sampleScreen 7] false (sampleEngine .Ready sampleCatalogBroken)
          sampleEnvDenied sampleEnvDenied).engine
        (sampleEnv []) (sampleEnv [])).engine.m_state = .AccessDeniedDesktop
    ∧ (_reallocate [sampleScreen 7] false
        (_reallocate [sampleScreen 7] false (sampleEngine .Ready sampleCatalogBroken)
          sampleEnvDenied sampleEnvDenied).engine
        (sampleEnv []) (sampleEnv [])).engine._screensWithWidgets.length = 1
    ∧ (grabScreens (fun _ => sampleFrame 1920 1080 960) (fun _ => some 8192)
        (_reallocate [sampleScreen 7] false
          (_reallocate [sampleScreen 7] false (sampleEngine .Ready sampleCatalogBroken)
            sampleEnvDenied sampleEnvDenied).engine
          (sampleEnv []) (sampleEnv [])).engine).map
        (fun out => (out.ret, out.engine._screensWithWidgets.map
          (fun g => (g.imgData.isSome, g.imgDataSize))))
      = some (.GrabResultOk, [(true, 32400)]) := by
  refine ⟨?_, ?_, ?_, ?_, ?_, ?_⟩ <;> decide

/-- C13 (amended): whenever `_reallocate` ends in the state AccessDeniedDesktop and
either returned true or did not start in that state (so that this call set it), the
session set is empty: the sessions are freed before the input desktop is opened.
`init`, `onSessionChange`, `__screensWithWidgets`, `grabScreens` and `returnBlackBuffer`
neither set the state AccessDeniedDesktop nor add a session.  In the state
AccessDeniedDesktop with an empty session set, the black-buffer fallback returns Ok and
leaves the engine as it is, and so does `grabScreens` when the session is not locked: no
buffer is produced. -/
theorem C13_denied_desktop_sessions (grabScreens1 : List ScreenInfo)
    (grabWidgets : List GrabWidget) (noRecursion : Bool) (e : Engine) (w w2 : ReallocEnv)
    (env : Nat → FrameEnv) (alloc : Nat → Option Nat) (change : SessionStatus) :
    ((_reallocate grabScreens1 noRecursion e w w2).engine.m_state = .AccessDeniedDesktop →
      ((_reallocate grabScreens1 noRecursion e w w2).ret = true
        ∨ e.m_state ≠ .AccessDeniedDesktop) →
      (_reallocate grabScreens1 noRecursion e w w2).engine._screensWithWidgets = [])
    ∧ KeepsSessions e (init w e).2
    ∧ KeepsSessions e (onSessionChange change e)
    ∧ KeepsSessions e (__screensWithWidgets grabWidgets noRecursion e w w2).engine
    ∧ (∀ out, grabScreens env alloc e = some out → KeepsSessions e out.engine)
    ∧ (∀ out, returnBlackBuffer alloc e = some out → KeepsSessions e out.engine)
    ∧ (e.m_state = .AccessDeniedDesktop → e._screensWithWidgets = [] →
        returnBlackBuffer alloc e = some ⟨.GrabResultOk, e, []⟩
        ∧ (e.m_isSessionLocked = false →
            grabScreens env alloc e = some ⟨.GrabResultOk, e, []⟩)) := by
  refine ⟨?_, keepsSessions_init w e, ?_, ?_, keepsSessions_grabScreens env alloc e,
    keepsSessions_returnBlackBuffer alloc e, ?_⟩
  · exact deniedEmpty_body _ w grabScreens1 noRecursion e
      (fun e1 => deniedEmpty_body _ w2 grabScreens1 true e1
        (fun e2 hs hor => by
          rcases hor with h | h
          · cases h
          · exact absurd hs h))
  · cases change <;> simp [onSessionChange, KeepsSessions]
  · exact keepsSessions_widgetsBody _ w grabWidgets noRecursion e
      (fun e1 => keepsSessions_widgetsBody _ w2 grabWidgets true e1
        (fun e2 => keepsSessions_refl e2))
  · intro hs hempty
    have hb := returnBlackBuffer_empty alloc e hempty
    refine ⟨hb, ?_⟩
    intro hl
    simp [grabScreens, hs, hl, hb]

/-- Witness for C13: a `_reallocate` denied the input desktop, then an unlocked
`grabScreens`. -/
theorem C13_denied_desktop_sessions_witness :
    (_reallocate [sampleScreen 7] false (sampleEngine .Ready sampleCatalogBroken)
        sampleEnvDenied sampleEnvDenied).engine._screensWithWidgets = []
    ∧ grabScreens (fun _ => sampleFrame 1920 1080 960) (fun _ => none)
        (sampleGrabber .AccessDeniedDesktop [])
      = some ⟨.GrabResultOk, sampleGrabber .AccessDeniedDesktop [], []⟩ :=
  ⟨(C13_denied_desktop_sessions [sampleScreen 7] [] false
      (sampleEngine .Ready sampleCatalogBroken) sampleEnvDenied sampleEnvDenied
      (fun _ => sampleFrame 1920 1080 960) (fun _ => none) .Locking).1
      (by decide) (Or.inl (by decide)),
   ((C13_denied_desktop_sessions [] [] false (sampleGrabber .AccessDeniedDesktop [])
      sampleEnvDenied sampleEnvDenied (fun _ => sampleFrame 1920 1080 960) (fun _ => none)
      .Locking).2.2.2.2.2.2 rfl rfl).2 rfl⟩

end DDupl
